import Mathlib

/-!
Verification of the 2d-cdt triangulation engine: a shallow embedding of the
simplex data model (vertex.hpp, triangle.hpp), the Universe moves
(universe.cpp), the Metropolis drivers (simulation.cpp), the Bag structure
(bag.hpp) and the geometry export/import (universe.cpp), together with
theorems settling the specification claims.

Pool labels are modelled as natural numbers; a pool is a total function from
labels to records plus a finite set of live labels.  Allocation is modelled
by passing the fresh label explicitly (the C++ pool free list returns a label
that is not currently live; which one is irrelevant to every property here).
Bags of labels are modelled as finite sets; the concrete dense/sparse array
representation of bag.hpp is modelled separately for the bag law claim.
Double-precision quantities (acceptance ratios) are modelled as real numbers;
the Metropolis comparison outcome is passed to the move drivers as a Boolean
parameter and the acceptance-ratio formulas are defined separately.
-/

set_option maxHeartbeats 1600000
set_option maxRecDepth 100000

namespace CDT

/-- Orientation of a triangle: UP is a (2,1)-triangle, DOWN a (1,2)-triangle
(triangle.hpp, enum Type). -/
inductive TriType where
  | UP : TriType
  | DOWN : TriType
deriving DecidableEq, Repr

/-- A vertex record (vertex.hpp): time slice and the labels of the left and
right upward anchor triangles. -/
structure VertexD where
  time : Nat
  tl : Nat
  tr : Nat
deriving DecidableEq, Repr

/-- A triangle record (triangle.hpp): base time, orientation, neighbor
triangle labels tl, tr, tc and vertex labels vl, vr, vc. -/
structure TriangleD where
  time : Nat
  type : TriType
  tl : Nat
  tr : Nat
  tc : Nat
  vl : Nat
  vr : Nat
  vc : Nat
deriving DecidableEq, Repr

/-- The triangulation state (universe.hpp): the two pools, the three
candidate bags, the per-slice vertex counts, the slice count and the
topology flag. -/
structure UState where
  vtx : Nat → VertexD
  liveV : Finset Nat
  tri : Nat → TriangleD
  liveT : Finset Nat
  trianglesAll : Finset Nat
  verticesFour : Finset Nat
  trianglesFlip : Finset Nat
  sliceSizes : Nat → Int
  nSlices : Nat
  sphere : Bool

/-- Triangle::updateType (triangle.hpp): orientation from the times of the
left and center vertices, with the two special rules at the periodic seam. -/
def typeUpd (vlTime vcTime : Nat) : TriType :=
  let ty := if vlTime < vcTime then TriType.UP else TriType.DOWN
  let ty := if vcTime = 0 ∧ 1 < vlTime then TriType.UP else ty
  if vlTime = 0 ∧ 1 < vcTime then TriType.DOWN else ty

/-- Vertex::setTriangleLeft (vertex.cpp): plain field assignment. -/
def vSetTriangleLeft (s : UState) (v t : Nat) : UState :=
  { s with vtx := Function.update s.vtx v ({ s.vtx v with tl := t }) }

/-- Vertex::setTriangleRight (vertex.cpp): plain field assignment. -/
def vSetTriangleRight (s : UState) (v t : Nat) : UState :=
  { s with vtx := Function.update s.vtx v ({ s.vtx v with tr := t }) }

/-- Triangle::setTriangleRight (triangle.hpp): set the right neighbor and
update the reverse pointer of the neighbor. -/
def setTriangleRight (s : UState) (t u : Nat) : UState :=
  let s1 := { s with tri := Function.update s.tri t ({ s.tri t with tr := u }) }
  { s1 with tri := Function.update s1.tri u ({ s1.tri u with tl := t }) }

/-- Triangle::setTriangleCenter (triangle.hpp): set the center neighbor and
update the reverse pointer of the neighbor. -/
def setTriangleCenter (s : UState) (t u : Nat) : UState :=
  let s1 := { s with tri := Function.update s.tri t ({ s.tri t with tc := u }) }
  { s1 with tri := Function.update s1.tri u ({ s1.tri u with tc := t }) }

/-- Triangle::setTriangles (triangle.hpp): set the three neighbors at once,
then the three reverse pointers, in source order. -/
def setTriangles (s : UState) (t a b c : Nat) : UState :=
  let x := { s.tri t with tl := a, tr := b, tc := c }
  let s1 := { s with tri := Function.update s.tri t x }
  let s2 := { s1 with tri := Function.update s1.tri a ({ s1.tri a with tr := t }) }
  let s3 := { s2 with tri := Function.update s2.tri b ({ s2.tri b with tl := t }) }
  { s3 with tri := Function.update s3.tri c ({ s3.tri c with tc := t }) }

/-- Triangle::setVertexRight (triangle.hpp): vr := v, and when the triangle
is UP the new right vertex gets this triangle as its left anchor. -/
def setVertexRight (s : UState) (t v : Nat) : UState :=
  let s1 := { s with tri := Function.update s.tri t ({ s.tri t with vr := v }) }
  if (s1.tri t).type = TriType.UP then vSetTriangleLeft s1 v t else s1

/-- Triangle::setVertices (triangle.hpp): set the three vertices, the base
time and the recomputed orientation; when the result is UP, update the
anchors of the left and right vertices. -/
def setVertices (s : UState) (t a b c : Nat) : UState :=
  let ty := typeUpd ((s.vtx a).time) ((s.vtx c).time)
  let x := { time := (s.vtx a).time, type := ty, tl := (s.tri t).tl,
             tr := (s.tri t).tr, tc := (s.tri t).tc, vl := a, vr := b,
             vc := c : TriangleD }
  let s1 := { s with tri := Function.update s.tri t x }
  if ty = TriType.UP then vSetTriangleLeft (vSetTriangleRight s1 a t) b t else s1

/-- Universe::isFourVertex (universe.cpp): the left anchor of v is the left
neighbor of the right anchor, and their center neighbors are likewise
horizontally adjacent. -/
def isFourVertex (s : UState) (v : Nat) : Bool :=
  decide ((s.tri ((s.vtx v).tl)).tr = (s.vtx v).tr)
    && decide ((s.tri ((s.tri ((s.vtx v).tl)).tc)).tr = (s.tri ((s.vtx v).tr)).tc)

/-- Universe::insertVertex (universe.cpp, the (2,4) move).  The fresh labels
returned by Vertex::create and Triangle::create are the parameters vNew, t1
and t2.  Statement order follows the source exactly. -/
def insertVertex (s : UState) (t vNew t1 t2 : Nat) : UState :=
  let tc := (s.tri t).tc
  let vr := (s.tri t).vr
  let time := (s.tri t).time
  -- Vertex::create, v->time = time
  let s := { s with liveV := insert vNew s.liveV }
  let s := { s with vtx := Function.update s.vtx vNew ({ s.vtx vNew with time := time }) }
  let s := { s with verticesFour := insert vNew s.verticesFour }
  let s := { s with sliceSizes := Function.update s.sliceSizes time (s.sliceSizes time + 1) }
  let s := setVertexRight s t vNew
  let s := setVertexRight s tc vNew
  -- Triangle::create for t1 and t2, then the bag additions
  let s := { s with liveT := insert t1 s.liveT }
  let s := { s with liveT := insert t2 s.liveT }
  let s := { s with trianglesAll := insert t1 s.trianglesAll }
  let s := { s with trianglesAll := insert t2 s.trianglesAll }
  let s := setVertices s t1 vNew vr ((s.tri t).vc)
  let s := setVertices s t2 vNew vr ((s.tri tc).vc)
  let s := setTriangles s t1 t ((s.tri t).tr) t2
  let s := setTriangles s t2 tc ((s.tri tc).tr) t1
  let s := if (s.tri t1).type ≠ (s.tri ((s.tri t1).tr)).type
    then { s with trianglesFlip := insert t1 (s.trianglesFlip.erase t) } else s
  if (s.tri t2).type ≠ (s.tri ((s.tri t2).tr)).type
    then { s with trianglesFlip := insert t2 (s.trianglesFlip.erase tc) } else s

/-- Universe::removeVertex (universe.cpp, the (4,2) move). -/
def removeVertex (s : UState) (v : Nat) : UState :=
  let tl := (s.vtx v).tl
  let trR := (s.vtx v).tr
  let tlc := (s.tri tl).tc
  let trc := (s.tri trR).tc
  let trn := (s.tri trR).tr
  let trcn := (s.tri trc).tr
  let s := setTriangleRight s tl trn
  let s := setTriangleRight s tlc trcn
  let s := setVertexRight s tl ((s.tri trR).vr)
  let s := setVertexRight s tlc ((s.tri trR).vr)
  let s := vSetTriangleLeft s ((s.tri trR).vr) tl
  let vt := (s.vtx v).time
  let s := { s with sliceSizes := Function.update s.sliceSizes vt (s.sliceSizes vt - 1) }
  let s := { s with trianglesAll := (s.trianglesAll.erase trR).erase trc }
  let s := if trR ∈ s.trianglesFlip
    then { s with trianglesFlip := insert tl (s.trianglesFlip.erase trR) } else s
  let s := if trc ∈ s.trianglesFlip
    then { s with trianglesFlip := insert tlc (s.trianglesFlip.erase trc) } else s
  let s := { s with liveT := (s.liveT.erase trR).erase trc }
  let s := { s with verticesFour := s.verticesFour.erase v }
  { s with liveV := s.liveV.erase v }

/-- Universe::flipLink (universe.cpp, the (2,2) move). -/
def flipLink (s : UState) (t : Nat) : UState :=
  let tr := (s.tri t).tr
  let tc := (s.tri t).tc
  let trc := (s.tri tr).tc
  let s := if (s.tri t).type = TriType.UP then
      vSetTriangleLeft (vSetTriangleRight s ((s.tri t).vl) tr) ((s.tri t).vr) tr
    else
      vSetTriangleLeft (vSetTriangleRight s ((s.tri tr).vl) t) ((s.tri tr).vr) t
  let s := setTriangleCenter s t trc
  let s := setTriangleCenter s tr tc
  let vl := (s.tri t).vl
  let vr := (s.tri t).vr
  let vc := (s.tri t).vc
  let vrr := (s.tri tr).vr
  let s := setVertices s t vc vrr vl
  let s := setVertices s tr vl vr vrr
  let s := if vl ∈ s.verticesFour
    then { s with verticesFour := s.verticesFour.erase vl } else s
  let s := if isFourVertex s vr
    then { s with verticesFour := insert vr s.verticesFour } else s
  let s := if isFourVertex s vc
    then { s with verticesFour := insert vc s.verticesFour } else s
  let s := if vrr ∈ s.verticesFour
    then { s with verticesFour := s.verticesFour.erase vrr } else s
  let s := if (s.tri t).tl ∈ s.trianglesFlip ∧ (s.tri t).type = (s.tri ((s.tri t).tl)).type
    then { s with trianglesFlip := s.trianglesFlip.erase ((s.tri t).tl) } else s
  let s := if tr ∈ s.trianglesFlip ∧ (s.tri tr).type = (s.tri ((s.tri tr).tr)).type
    then { s with trianglesFlip := s.trianglesFlip.erase tr } else s
  let s := if (s.tri t).tl ∉ s.trianglesFlip ∧ (s.tri t).type ≠ (s.tri ((s.tri t).tl)).type
    then { s with trianglesFlip := insert ((s.tri t).tl) s.trianglesFlip } else s
  if tr ∉ s.trianglesFlip ∧ (s.tri tr).type ≠ (s.tri ((s.tri tr).tr)).type
    then { s with trianglesFlip := insert tr s.trianglesFlip } else s

/-- Body of the triangle-creation loop of Universe::initialize for cell
(i, j): create the UP and DOWN triangles, set their vertices and add them
to trianglesAll and trianglesFlip. -/
def initCell (s : UState) (n i j : Nat) : UState :=
  let up := 2 * (i * 3 + j)
  let dn := 2 * (i * 3 + j) + 1
  let s := { s with liveT := insert up s.liveT }
  let s := setVertices s up (i * 3 + j) (i * 3 + (j + 1) % 3) (((i + 1) % n) * 3 + j)
  let s := { s with liveT := insert dn s.liveT }
  let s := setVertices s dn (((i + 1) % n) * 3 + j) (((i + 1) % n) * 3 + (j + 1) % 3)
    (i * 3 + (j + 1) % 3)
  let s := { s with trianglesAll := insert up s.trianglesAll }
  let s := { s with trianglesAll := insert dn s.trianglesAll }
  let s := { s with trianglesFlip := insert up s.trianglesFlip }
  { s with trianglesFlip := insert dn s.trianglesFlip }

/-- Body of the connectivity loop of Universe::initialize for cell (i, j). -/
def initConn (s : UState) (n i j : Nat) : UState :=
  let row := 2 * i * 3
  let col := 2 * j
  let s := setTriangles s (row + col) (row + (col + 5) % 6) (row + col + 1)
    ((row + col + 6 * n - 6 + 1) % (6 * n))
  setTriangles s (row + col + 1) (row + col) (row + (col + 2) % 6)
    ((row + col + 6) % (6 * n))

/-- The state with empty pools and bags. -/
def emptyState : UState :=
  { vtx := fun _ => { time := 0, tl := 0, tr := 0 }
    liveV := ∅
    tri := fun _ => { time := 0, type := TriType.UP, tl := 0, tr := 0, tc := 0,
                      vl := 0, vr := 0, vc := 0 }
    liveT := ∅
    trianglesAll := ∅
    verticesFour := ∅
    trianglesFlip := ∅
    sliceSizes := fun _ => 0
    nSlices := 0
    sphere := false }

/-- Universe::create(n) followed by Universe::initialize (universe.cpp):
build the initial toroidal strip of width 3 with n time slices.  Pool labels
follow allocation order: vertex number i gets label i; the UP triangle of
cell (i, j) gets label 2*(3*i+j) and the DOWN triangle the next label, as in
the initialTriangles array. -/
def initState (n : Nat) : UState :=
  let s := { emptyState with nSlices := n }
  let s := (List.range (3 * n)).foldl
    (fun s i =>
      let s := { s with liveV := insert i s.liveV }
      { s with vtx := Function.update s.vtx i ({ s.vtx i with time := i / 3 }) }) s
  let s := (List.range n).foldl
    (fun s i => { s with sliceSizes := Function.update s.sliceSizes i 3 }) s
  let s := (List.range n).foldl
    (fun s i => (List.range 3).foldl (fun s j => initCell s n i j) s) s
  (List.range n).foldl
    (fun s i => (List.range 3).foldl (fun s j => initConn s n i j) s) s

/-- Simulation::moveAdd (simulation.cpp), stripped of randomness: t is the
triangle drawn from trianglesAll; metRej stands for the Metropolis outcome
ar < 1 and r > ar, with the acceptance ratio ar given by addAR below; vNew,
t1, t2 are the fresh pool labels used on acceptance. -/
def moveAdd (s : UState) (metRej : Bool) (t vNew t1 t2 : Nat) : Bool × UState :=
  if s.trianglesAll = ∅ then (false, s)
  else if s.sphere ∧ (s.tri t).time = 0 then (false, s)
  else if metRej then (false, s)
  else (true, insertVertex s t vNew t1 t2)

/-- Simulation::moveDelete (simulation.cpp), stripped of randomness: metRej
stands for the Metropolis outcome ar < 1 and r > ar, with ar given by
deleteAR below; v is the vertex drawn from verticesFour.  The source checks
the Metropolis draw before picking v and testing the slice size. -/
def moveDelete (s : UState) (metRej : Bool) (v : Nat) : Bool × UState :=
  if s.verticesFour = ∅ then (false, s)
  else if metRej then (false, s)
  else if s.sliceSizes ((s.vtx v).time) < 4 then (false, s)
  else (true, removeVertex s v)

/-- Simulation::moveFlip (simulation.cpp), stripped of randomness: t is the
triangle drawn from trianglesFlip and metRej the Metropolis outcome. -/
def moveFlip (s : UState) (metRej : Bool) (t : Nat) : Bool × UState :=
  if s.trianglesFlip = ∅ then (false, s)
  else if metRej then (false, s)
  else (true, flipLink s t)

/-- States reachable from the initial torus construction by accepted moves. -/
inductive Reachable : UState → Prop where
  | init (n : Nat) : Reachable (initState n)
  | add (s : UState) (metRej : Bool) (t vNew t1 t2 : Nat) (hs : Reachable s)
      (h : (moveAdd s metRej t vNew t1 t2).fst = true) :
      Reachable (moveAdd s metRej t vNew t1 t2).snd
  | del (s : UState) (metRej : Bool) (v : Nat) (hs : Reachable s)
      (h : (moveDelete s metRej v).fst = true) :
      Reachable (moveDelete s metRej v).snd
  | flp (s : UState) (metRej : Bool) (t : Nat) (hs : Reachable s)
      (h : (moveFlip s metRej t).fst = true) :
      Reachable (moveFlip s metRej t).snd

/-- The consistency predicate on the flip bag checked by Universe::check
(universe.cpp, lines 240-246): a triangle of trianglesAll is in
trianglesFlip exactly when its type differs from the type of its right
neighbor. -/
def FlipInv (s : UState) : Prop :=
  ∀ l ∈ s.trianglesAll,
    (l ∈ s.trianglesFlip ↔ (s.tri l).type ≠ (s.tri ((s.tri l).tr)).type)

instance (s : UState) : Decidable (FlipInv s) := by
  unfold FlipInv; infer_instance

/-- The acceptance ratio of Simulation::moveAdd (simulation.cpp, lines
126-134): n0 is Vertex::size(), n04 the size of verticesFour, n2 the size of
trianglesAll. -/
noncomputable def addAR (n0 n04 n2 tV : Nat) (lam eps : ℝ) : ℝ :=
  let ar := (n0 : ℝ) / ((n04 : ℝ) + 1) * Real.exp (-(2 * lam))
  if 0 < tV then
    ar * (if n2 < tV then Real.exp (2 * eps) else 1 / Real.exp (2 * eps))
  else ar

/-- The acceptance ratio of Simulation::moveDelete (simulation.cpp, lines
176-185). -/
noncomputable def deleteAR (n0 n04 n2 tV : Nat) (lam eps : ℝ) : ℝ :=
  let ar := (n04 : ℝ) / ((n0 : ℝ) - 1) * Real.exp (2 * lam)
  if 0 < tV then
    ar * (if n2 < tV then 1 / Real.exp (2 * eps) else Real.exp (2 * eps))
  else ar

/-- The Metropolis acceptance outcome (simulation.cpp, lines 152-159): the
move is rejected exactly when ar < 1 and the uniform draw r exceeds ar. -/
def metAccept (ar r : ℝ) : Prop := ¬ (ar < 1 ∧ ar < r)

/-!  The Bag structure of bag.hpp, with its two arrays modelled as total
functions.  Array cells hold machine integers (labels or the EMPTY
sentinel -1), modelled as Int; array subscripts by a stored label use
Int.toNat, faithful whenever the subscript is a stored non-negative label. -/

/-- The representation of Bag (bag.hpp): the sparse indices array, the dense
elements array and the number of live entries. -/
structure BagM where
  indices : Nat → Int
  elements : Nat → Int
  size : Nat

/-- Bag::contains. -/
def BagM.contains (b : BagM) (x : Nat) : Bool := b.indices x != -1

/-- Bag::add: append obj at position size, record its position, grow. -/
def BagM.add (b : BagM) (x : Nat) : BagM :=
  { indices := Function.update b.indices x (b.size : Int)
    elements := Function.update b.elements b.size (x : Int)
    size := b.size + 1 }

/-- Bag::remove: shrink, move the last element into the removed slot, patch
the two arrays, in source order. -/
def BagM.remove (b : BagM) (x : Nat) : BagM :=
  let sz := b.size - 1
  let index := b.indices x
  let last := b.elements sz
  let elements := Function.update b.elements index.toNat last
  let elements := Function.update elements sz (-1)
  let indices := Function.update b.indices last.toNat index
  let indices := Function.update indices x (-1)
  { indices := indices, elements := elements, size := sz }


/-- One triangle line group of a geometry file: the three vertex indices
and the three neighbor indices, in the order written by
Universe::exportGeometry. -/
structure TriRec where
  vl : Nat
  vr : Nat
  vc : Nat
  tl : Nat
  tr : Nat
  tc : Nat

/-- The content of a geometry file: the vertex count, the vertex times in
write order, the triangle count and the triangle records in write order
(universe.cpp, exportGeometry / importGeometry). -/
structure GeomFile where
  nV : Nat
  times : List Nat
  nT : Nat
  tris : List TriRec

/-- Universe::exportGeometry (universe.cpp): vertices and triangles are
enumerated in bag order (the lists vs and ts); every stored label is
replaced by its index in the corresponding enumeration, exactly as the
vertexMap / triangleMap hash maps do. -/
def exportGeometry (s : UState) (vs ts : List Nat) : GeomFile :=
  { nV := vs.length
    times := vs.map (fun v => (s.vtx v).time)
    nT := ts.length
    tris := ts.map (fun t =>
      { vl := vs.indexOf ((s.tri t).vl), vr := vs.indexOf ((s.tri t).vr)
        vc := vs.indexOf ((s.tri t).vc), tl := ts.indexOf ((s.tri t).tl)
        tr := ts.indexOf ((s.tri t).tr), tc := ts.indexOf ((s.tri t).tc) }) }

/-- The vertex-creation step of Universe::importGeometry: Vertex::create
on an empty pool hands out the labels 0, 1, 2, ... in order, and the
time read from the file is stored. -/
def importVertexStep (g : GeomFile) (s : UState) (i : Nat) : UState :=
  let s := { s with liveV := insert i s.liveV }
  { s with vtx := Function.update s.vtx i ({ s.vtx i with time := g.times.getD i 0 }) }

/-- The triangle-creation step of Universe::importGeometry:
Triangle::create hands out the labels 0, 1, 2, ... in order, the vertex
and neighbor indices of the file are stored verbatim through setVertices
and setTriangles (the code relies on label = index in a fresh pool), and
the triangle is added to trianglesAll. -/
def importTriangle (g : GeomFile) (s : UState) (i : Nat) : UState :=
  let r := g.tris.getD i { vl := 0, vr := 0, vc := 0, tl := 0, tr := 0, tc := 0 }
  let s := { s with liveT := insert i s.liveT }
  let s := setVertices s i r.vl r.vr r.vc
  let s := setTriangles s i r.tl r.tr r.tc
  { s with trianglesAll := insert i s.trianglesAll }

/-- Universe::importGeometry (universe.cpp) into a fresh universe: create
the vertices with their times, set nSlices from the maximal time, create
the triangles with their connectivity, count the slice sizes, and fill
the verticesFour and trianglesFlip bags from the reconstructed records
(the bag loop's conditional adds produce exactly a filter / image of
trianglesAll). -/
def importGeometry (g : GeomFile) : UState :=
  let s := (List.range g.nV).foldl (importVertexStep g) emptyState
  let s := { s with nSlices := g.times.foldl max 0 + 1 }
  let s := (List.range g.nT).foldl (importTriangle g) s
  let s := { s with sliceSizes := fun τ => ((g.times.filter (fun x => x = τ)).length : Int) }
  let four := (s.trianglesAll.filter (fun t => (s.tri t).type = TriType.UP ∧
      (s.vtx ((s.tri t).vl)).tl = (s.tri ((s.vtx ((s.tri t).vl)).tr)).tl ∧
      (s.tri ((s.vtx ((s.tri t).vl)).tl)).tc
        = (s.tri ((s.tri ((s.vtx ((s.tri t).vl)).tr)).tc)).tl)).image
      (fun t => (s.tri t).vl)
  let flip := s.trianglesAll.filter (fun t => (s.tri t).type ≠ (s.tri ((s.tri t).tr)).type)
  { s with verticesFour := four, trianglesFlip := flip }

/-- A concrete four-triangle, single-slice configuration on which the
delete move is accepted: vertex 0 is an order-4 vertex of a slice of
size 4, all four triangles share a type so the flip bag is empty. -/
def delWitnessState : UState :=
  { vtx := fun v => if v = 0 then { time := 0, tl := 0, tr := 1 } else { time := 0, tl := 0, tr := 0 }
    liveV := {0, 1, 2}
    tri := fun l =>
      if l = 0 then { time := 0, type := TriType.UP, tl := 1, tr := 1, tc := 2, vl := 1, vr := 0, vc := 2 }
      else if l = 1 then { time := 0, type := TriType.UP, tl := 0, tr := 0, tc := 3, vl := 0, vr := 2, vc := 2 }
      else if l = 2 then { time := 0, type := TriType.UP, tl := 3, tr := 3, tc := 0, vl := 2, vr := 2, vc := 2 }
      else { time := 0, type := TriType.UP, tl := 2, tr := 2, tc := 1, vl := 2, vr := 2, vc := 2 }
    liveT := {0, 1, 2, 3}
    trianglesAll := {0, 1, 2, 3}
    verticesFour := {0}
    trianglesFlip := ∅
    sliceSizes := fun i => if i = 0 then 4 else 3
    nSlices := 1
    sphere := false }

/-!  Projection helpers: push the UState field projections through ite and
through the primitive mutators. -/

@[simp] theorem ite_vtx (c : Prop) [Decidable c] (a b : UState) :
    (ite c a b).vtx = ite c a.vtx b.vtx := by split <;> rfl

@[simp] theorem ite_liveV (c : Prop) [Decidable c] (a b : UState) :
    (ite c a b).liveV = ite c a.liveV b.liveV := by split <;> rfl

@[simp] theorem ite_tri (c : Prop) [Decidable c] (a b : UState) :
    (ite c a b).tri = ite c a.tri b.tri := by split <;> rfl

@[simp] theorem ite_liveT (c : Prop) [Decidable c] (a b : UState) :
    (ite c a b).liveT = ite c a.liveT b.liveT := by split <;> rfl

@[simp] theorem ite_trianglesAll (c : Prop) [Decidable c] (a b : UState) :
    (ite c a b).trianglesAll = ite c a.trianglesAll b.trianglesAll := by split <;> rfl

@[simp] theorem ite_verticesFour (c : Prop) [Decidable c] (a b : UState) :
    (ite c a b).verticesFour = ite c a.verticesFour b.verticesFour := by split <;> rfl

@[simp] theorem ite_trianglesFlip (c : Prop) [Decidable c] (a b : UState) :
    (ite c a b).trianglesFlip = ite c a.trianglesFlip b.trianglesFlip := by split <;> rfl

@[simp] theorem ite_sliceSizes (c : Prop) [Decidable c] (a b : UState) :
    (ite c a b).sliceSizes = ite c a.sliceSizes b.sliceSizes := by split <;> rfl

@[simp] theorem ite_nSlices (c : Prop) [Decidable c] (a b : UState) :
    (ite c a b).nSlices = ite c a.nSlices b.nSlices := by split <;> rfl

@[simp] theorem ite_sphere (c : Prop) [Decidable c] (a b : UState) :
    (ite c a b).sphere = ite c a.sphere b.sphere := by split <;> rfl

@[simp] theorem update_vtx_tl_time (f : Nat → VertexD) (v t w : Nat) :
    (Function.update f v ({ f v with tl := t }) w).time = (f w).time := by
  rcases eq_or_ne w v with h | h
  · subst h; simp
  · simp [Function.update_noteq h]

@[simp] theorem update_vtx_tr_time (f : Nat → VertexD) (v t w : Nat) :
    (Function.update f v ({ f v with tr := t }) w).time = (f w).time := by
  rcases eq_or_ne w v with h | h
  · subst h; simp
  · simp [Function.update_noteq h]

theorem vSetTriangleLeft_vtx (s : UState) (v t : Nat) :
    (vSetTriangleLeft s v t).vtx = Function.update s.vtx v ({ s.vtx v with tl := t }) := rfl

theorem vSetTriangleRight_vtx (s : UState) (v t : Nat) :
    (vSetTriangleRight s v t).vtx = Function.update s.vtx v ({ s.vtx v with tr := t }) := rfl

@[simp] theorem vSetTriangleLeft_vtx_time (s : UState) (v t w : Nat) :
    ((vSetTriangleLeft s v t).vtx w).time = (s.vtx w).time := by
  rw [vSetTriangleLeft_vtx]; exact update_vtx_tl_time _ _ _ _

@[simp] theorem vSetTriangleRight_vtx_time (s : UState) (v t w : Nat) :
    ((vSetTriangleRight s v t).vtx w).time = (s.vtx w).time := by
  rw [vSetTriangleRight_vtx]; exact update_vtx_tr_time _ _ _ _

@[simp] theorem vSetTriangleLeft_tri (s : UState) (v t : Nat) :
    (vSetTriangleLeft s v t).tri = s.tri := rfl

@[simp] theorem vSetTriangleRight_tri (s : UState) (v t : Nat) :
    (vSetTriangleRight s v t).tri = s.tri := rfl

@[simp] theorem vSetTriangleLeft_liveV (s : UState) (v t : Nat) :
    (vSetTriangleLeft s v t).liveV = s.liveV := rfl

@[simp] theorem vSetTriangleRight_liveV (s : UState) (v t : Nat) :
    (vSetTriangleRight s v t).liveV = s.liveV := rfl

@[simp] theorem vSetTriangleLeft_liveT (s : UState) (v t : Nat) :
    (vSetTriangleLeft s v t).liveT = s.liveT := rfl

@[simp] theorem vSetTriangleRight_liveT (s : UState) (v t : Nat) :
    (vSetTriangleRight s v t).liveT = s.liveT := rfl

@[simp] theorem vSetTriangleLeft_trianglesAll (s : UState) (v t : Nat) :
    (vSetTriangleLeft s v t).trianglesAll = s.trianglesAll := rfl

@[simp] theorem vSetTriangleRight_trianglesAll (s : UState) (v t : Nat) :
    (vSetTriangleRight s v t).trianglesAll = s.trianglesAll := rfl

@[simp] theorem vSetTriangleLeft_verticesFour (s : UState) (v t : Nat) :
    (vSetTriangleLeft s v t).verticesFour = s.verticesFour := rfl

@[simp] theorem vSetTriangleRight_verticesFour (s : UState) (v t : Nat) :
    (vSetTriangleRight s v t).verticesFour = s.verticesFour := rfl

@[simp] theorem vSetTriangleLeft_trianglesFlip (s : UState) (v t : Nat) :
    (vSetTriangleLeft s v t).trianglesFlip = s.trianglesFlip := rfl

@[simp] theorem vSetTriangleRight_trianglesFlip (s : UState) (v t : Nat) :
    (vSetTriangleRight s v t).trianglesFlip = s.trianglesFlip := rfl

@[simp] theorem vSetTriangleLeft_sliceSizes (s : UState) (v t : Nat) :
    (vSetTriangleLeft s v t).sliceSizes = s.sliceSizes := rfl

@[simp] theorem vSetTriangleRight_sliceSizes (s : UState) (v t : Nat) :
    (vSetTriangleRight s v t).sliceSizes = s.sliceSizes := rfl

@[simp] theorem vSetTriangleLeft_nSlices (s : UState) (v t : Nat) :
    (vSetTriangleLeft s v t).nSlices = s.nSlices := rfl

@[simp] theorem vSetTriangleRight_nSlices (s : UState) (v t : Nat) :
    (vSetTriangleRight s v t).nSlices = s.nSlices := rfl

@[simp] theorem vSetTriangleLeft_sphere (s : UState) (v t : Nat) :
    (vSetTriangleLeft s v t).sphere = s.sphere := rfl

@[simp] theorem vSetTriangleRight_sphere (s : UState) (v t : Nat) :
    (vSetTriangleRight s v t).sphere = s.sphere := rfl

@[simp] theorem setTriangleRight_tri (s : UState) (t u : Nat) :
    (setTriangleRight s t u).tri =
      Function.update (Function.update s.tri t ({ s.tri t with tr := u })) u
        ({ Function.update s.tri t ({ s.tri t with tr := u }) u with tl := t }) := rfl

@[simp] theorem setTriangleCenter_tri (s : UState) (t u : Nat) :
    (setTriangleCenter s t u).tri =
      Function.update (Function.update s.tri t ({ s.tri t with tc := u })) u
        ({ Function.update s.tri t ({ s.tri t with tc := u }) u with tc := t }) := rfl

@[simp] theorem setTriangleRight_vtx (s : UState) (t u : Nat) :
    (setTriangleRight s t u).vtx = s.vtx := rfl

@[simp] theorem setTriangleCenter_vtx (s : UState) (t u : Nat) :
    (setTriangleCenter s t u).vtx = s.vtx := rfl

@[simp] theorem setTriangleRight_liveV (s : UState) (t u : Nat) :
    (setTriangleRight s t u).liveV = s.liveV := rfl

@[simp] theorem setTriangleCenter_liveV (s : UState) (t u : Nat) :
    (setTriangleCenter s t u).liveV = s.liveV := rfl

@[simp] theorem setTriangleRight_liveT (s : UState) (t u : Nat) :
    (setTriangleRight s t u).liveT = s.liveT := rfl

@[simp] theorem setTriangleCenter_liveT (s : UState) (t u : Nat) :
    (setTriangleCenter s t u).liveT = s.liveT := rfl

@[simp] theorem setTriangleRight_trianglesAll (s : UState) (t u : Nat) :
    (setTriangleRight s t u).trianglesAll = s.trianglesAll := rfl

@[simp] theorem setTriangleCenter_trianglesAll (s : UState) (t u : Nat) :
    (setTriangleCenter s t u).trianglesAll = s.trianglesAll := rfl

@[simp] theorem setTriangleRight_verticesFour (s : UState) (t u : Nat) :
    (setTriangleRight s t u).verticesFour = s.verticesFour := rfl

@[simp] theorem setTriangleCenter_verticesFour (s : UState) (t u : Nat) :
    (setTriangleCenter s t u).verticesFour = s.verticesFour := rfl

@[simp] theorem setTriangleRight_trianglesFlip (s : UState) (t u : Nat) :
    (setTriangleRight s t u).trianglesFlip = s.trianglesFlip := rfl

@[simp] theorem setTriangleCenter_trianglesFlip (s : UState) (t u : Nat) :
    (setTriangleCenter s t u).trianglesFlip = s.trianglesFlip := rfl

@[simp] theorem setTriangleRight_sliceSizes (s : UState) (t u : Nat) :
    (setTriangleRight s t u).sliceSizes = s.sliceSizes := rfl

@[simp] theorem setTriangleCenter_sliceSizes (s : UState) (t u : Nat) :
    (setTriangleCenter s t u).sliceSizes = s.sliceSizes := rfl

@[simp] theorem setTriangleRight_nSlices (s : UState) (t u : Nat) :
    (setTriangleRight s t u).nSlices = s.nSlices := rfl

@[simp] theorem setTriangleCenter_nSlices (s : UState) (t u : Nat) :
    (setTriangleCenter s t u).nSlices = s.nSlices := rfl

@[simp] theorem setTriangleRight_sphere (s : UState) (t u : Nat) :
    (setTriangleRight s t u).sphere = s.sphere := rfl

@[simp] theorem setTriangleCenter_sphere (s : UState) (t u : Nat) :
    (setTriangleCenter s t u).sphere = s.sphere := rfl

theorem setTriangles_tri (s : UState) (t a b c : Nat) :
    (setTriangles s t a b c).tri =
      (fun f3 => Function.update f3 c ({ f3 c with tc := t }))
      ((fun f2 => Function.update f2 b ({ f2 b with tl := t }))
      ((fun f1 => Function.update f1 a ({ f1 a with tr := t }))
      (Function.update s.tri t ({ s.tri t with tl := a, tr := b, tc := c })))) := rfl

@[simp] theorem setTriangles_vtx (s : UState) (t a b c : Nat) :
    (setTriangles s t a b c).vtx = s.vtx := rfl

@[simp] theorem setTriangles_liveV (s : UState) (t a b c : Nat) :
    (setTriangles s t a b c).liveV = s.liveV := rfl

@[simp] theorem setTriangles_liveT (s : UState) (t a b c : Nat) :
    (setTriangles s t a b c).liveT = s.liveT := rfl

@[simp] theorem setTriangles_trianglesAll (s : UState) (t a b c : Nat) :
    (setTriangles s t a b c).trianglesAll = s.trianglesAll := rfl

@[simp] theorem setTriangles_verticesFour (s : UState) (t a b c : Nat) :
    (setTriangles s t a b c).verticesFour = s.verticesFour := rfl

@[simp] theorem setTriangles_trianglesFlip (s : UState) (t a b c : Nat) :
    (setTriangles s t a b c).trianglesFlip = s.trianglesFlip := rfl

@[simp] theorem setTriangles_sliceSizes (s : UState) (t a b c : Nat) :
    (setTriangles s t a b c).sliceSizes = s.sliceSizes := rfl

@[simp] theorem setTriangles_nSlices (s : UState) (t a b c : Nat) :
    (setTriangles s t a b c).nSlices = s.nSlices := rfl

@[simp] theorem setTriangles_sphere (s : UState) (t a b c : Nat) :
    (setTriangles s t a b c).sphere = s.sphere := rfl

@[simp] theorem setVertexRight_tri (s : UState) (t v : Nat) :
    (setVertexRight s t v).tri = Function.update s.tri t ({ s.tri t with vr := v }) := by
  unfold setVertexRight vSetTriangleLeft; dsimp only; split <;> rfl

@[simp] theorem setVertexRight_vtx_time (s : UState) (t v w : Nat) :
    ((setVertexRight s t v).vtx w).time = (s.vtx w).time := by
  unfold setVertexRight vSetTriangleLeft; dsimp only; split
  · exact update_vtx_tl_time _ _ _ _
  · rfl

@[simp] theorem setVertexRight_liveV (s : UState) (t v : Nat) :
    (setVertexRight s t v).liveV = s.liveV := by
  unfold setVertexRight vSetTriangleLeft; dsimp only; split <;> rfl

@[simp] theorem setVertexRight_liveT (s : UState) (t v : Nat) :
    (setVertexRight s t v).liveT = s.liveT := by
  unfold setVertexRight vSetTriangleLeft; dsimp only; split <;> rfl

@[simp] theorem setVertexRight_trianglesAll (s : UState) (t v : Nat) :
    (setVertexRight s t v).trianglesAll = s.trianglesAll := by
  unfold setVertexRight vSetTriangleLeft; dsimp only; split <;> rfl

@[simp] theorem setVertexRight_verticesFour (s : UState) (t v : Nat) :
    (setVertexRight s t v).verticesFour = s.verticesFour := by
  unfold setVertexRight vSetTriangleLeft; dsimp only; split <;> rfl

@[simp] theorem setVertexRight_trianglesFlip (s : UState) (t v : Nat) :
    (setVertexRight s t v).trianglesFlip = s.trianglesFlip := by
  unfold setVertexRight vSetTriangleLeft; dsimp only; split <;> rfl

@[simp] theorem setVertexRight_sliceSizes (s : UState) (t v : Nat) :
    (setVertexRight s t v).sliceSizes = s.sliceSizes := by
  unfold setVertexRight vSetTriangleLeft; dsimp only; split <;> rfl

@[simp] theorem setVertexRight_nSlices (s : UState) (t v : Nat) :
    (setVertexRight s t v).nSlices = s.nSlices := by
  unfold setVertexRight vSetTriangleLeft; dsimp only; split <;> rfl

@[simp] theorem setVertexRight_sphere (s : UState) (t v : Nat) :
    (setVertexRight s t v).sphere = s.sphere := by
  unfold setVertexRight vSetTriangleLeft; dsimp only; split <;> rfl

@[simp] theorem setVertices_tri (s : UState) (t a b c : Nat) :
    (setVertices s t a b c).tri = Function.update s.tri t
      { time := (s.vtx a).time, type := typeUpd ((s.vtx a).time) ((s.vtx c).time),
        tl := (s.tri t).tl, tr := (s.tri t).tr, tc := (s.tri t).tc,
        vl := a, vr := b, vc := c } := by
  unfold setVertices vSetTriangleLeft vSetTriangleRight; dsimp only; split <;> rfl

@[simp] theorem setVertices_vtx_time (s : UState) (t a b c w : Nat) :
    ((setVertices s t a b c).vtx w).time = (s.vtx w).time := by
  unfold setVertices vSetTriangleLeft vSetTriangleRight; dsimp only; split
  · dsimp only
    rcases eq_or_ne w b with rfl | hb
    · simp
    · rw [Function.update_noteq hb]
      rcases eq_or_ne w a with rfl | ha
      · simp
      · rw [Function.update_noteq ha]
  · rfl

@[simp] theorem setVertices_liveV (s : UState) (t a b c : Nat) :
    (setVertices s t a b c).liveV = s.liveV := by
  unfold setVertices vSetTriangleLeft vSetTriangleRight; dsimp only; split <;> rfl

@[simp] theorem setVertices_liveT (s : UState) (t a b c : Nat) :
    (setVertices s t a b c).liveT = s.liveT := by
  unfold setVertices vSetTriangleLeft vSetTriangleRight; dsimp only; split <;> rfl

@[simp] theorem setVertices_trianglesAll (s : UState) (t a b c : Nat) :
    (setVertices s t a b c).trianglesAll = s.trianglesAll := by
  unfold setVertices vSetTriangleLeft vSetTriangleRight; dsimp only; split <;> rfl

@[simp] theorem setVertices_verticesFour (s : UState) (t a b c : Nat) :
    (setVertices s t a b c).verticesFour = s.verticesFour := by
  unfold setVertices vSetTriangleLeft vSetTriangleRight; dsimp only; split <;> rfl

@[simp] theorem setVertices_trianglesFlip (s : UState) (t a b c : Nat) :
    (setVertices s t a b c).trianglesFlip = s.trianglesFlip := by
  unfold setVertices vSetTriangleLeft vSetTriangleRight; dsimp only; split <;> rfl

@[simp] theorem setVertices_sliceSizes (s : UState) (t a b c : Nat) :
    (setVertices s t a b c).sliceSizes = s.sliceSizes := by
  unfold setVertices vSetTriangleLeft vSetTriangleRight; dsimp only; split <;> rfl

@[simp] theorem setVertices_nSlices (s : UState) (t a b c : Nat) :
    (setVertices s t a b c).nSlices = s.nSlices := by
  unfold setVertices vSetTriangleLeft vSetTriangleRight; dsimp only; split <;> rfl

@[simp] theorem setVertices_sphere (s : UState) (t a b c : Nat) :
    (setVertices s t a b c).sphere = s.sphere := by
  unfold setVertices vSetTriangleLeft vSetTriangleRight; dsimp only; split <;> rfl

/-!  Field-level descriptions of the moves, used by the claim proofs. -/

theorem insertVertex_fields (s : UState) (t vNew t1 t2 : Nat) :
    (insertVertex s t vNew t1 t2).liveV = insert vNew s.liveV
      ∧ (insertVertex s t vNew t1 t2).liveT = insert t2 (insert t1 s.liveT)
      ∧ (insertVertex s t vNew t1 t2).trianglesAll = insert t2 (insert t1 s.trianglesAll)
      ∧ (insertVertex s t vNew t1 t2).verticesFour = insert vNew s.verticesFour
      ∧ (insertVertex s t vNew t1 t2).sliceSizes
          = Function.update s.sliceSizes ((s.tri t).time)
              (s.sliceSizes ((s.tri t).time) + 1)
      ∧ (insertVertex s t vNew t1 t2).nSlices = s.nSlices
      ∧ ((insertVertex s t vNew t1 t2).vtx vNew).time = (s.tri t).time := by
  unfold insertVertex
  lift_lets
  extract_lets tc vr tme a1 a2 a3 a4 a5 a6 a7 a8 a9 a10 a11 a12 a13 a14 a15
  refine ⟨?_, ?_, ?_, ?_, ?_, ?_, ?_⟩ <;>
  · try simp
    try simp only [a15]
    try simp
    try simp only [a14]
    try simp
    try simp only [a13]
    try simp
    try simp only [a12]
    try simp
    try simp only [a11]
    try simp
    try simp only [a10]
    try simp
    try simp only [a9]
    try simp
    try simp only [a8]
    try simp
    try simp only [a7]
    try simp
    try simp only [a6]
    try simp
    try simp only [a5]
    try simp
    try simp only [a4]
    try simp
    try simp only [a3]
    try simp
    try simp only [a2]
    try simp
    try simp only [a1]
    try simp
    try simp only [tc, vr, tme]
    try simp

theorem insertVertex_liveV (s : UState) (t vNew t1 t2 : Nat) :
    (insertVertex s t vNew t1 t2).liveV = insert vNew s.liveV :=
  (insertVertex_fields s t vNew t1 t2).1

theorem insertVertex_liveT (s : UState) (t vNew t1 t2 : Nat) :
    (insertVertex s t vNew t1 t2).liveT = insert t2 (insert t1 s.liveT) :=
  (insertVertex_fields s t vNew t1 t2).2.1

theorem insertVertex_trianglesAll (s : UState) (t vNew t1 t2 : Nat) :
    (insertVertex s t vNew t1 t2).trianglesAll = insert t2 (insert t1 s.trianglesAll) :=
  (insertVertex_fields s t vNew t1 t2).2.2.1

theorem insertVertex_verticesFour (s : UState) (t vNew t1 t2 : Nat) :
    (insertVertex s t vNew t1 t2).verticesFour = insert vNew s.verticesFour :=
  (insertVertex_fields s t vNew t1 t2).2.2.2.1

theorem insertVertex_sliceSizes (s : UState) (t vNew t1 t2 : Nat) :
    (insertVertex s t vNew t1 t2).sliceSizes
      = Function.update s.sliceSizes ((s.tri t).time)
          (s.sliceSizes ((s.tri t).time) + 1) :=
  (insertVertex_fields s t vNew t1 t2).2.2.2.2.1

theorem insertVertex_nSlices (s : UState) (t vNew t1 t2 : Nat) :
    (insertVertex s t vNew t1 t2).nSlices = s.nSlices :=
  (insertVertex_fields s t vNew t1 t2).2.2.2.2.2.1

theorem insertVertex_vtxNew_time (s : UState) (t vNew t1 t2 : Nat) :
    ((insertVertex s t vNew t1 t2).vtx vNew).time = (s.tri t).time :=
  (insertVertex_fields s t vNew t1 t2).2.2.2.2.2.2

theorem removeVertex_liveV (s : UState) (v : Nat) :
    (removeVertex s v).liveV = s.liveV.erase v := by
  simp [removeVertex]

theorem removeVertex_liveT (s : UState) (v : Nat) :
    (removeVertex s v).liveT
      = (s.liveT.erase ((s.vtx v).tr)).erase ((s.tri ((s.vtx v).tr)).tc) := by
  simp [removeVertex]

theorem removeVertex_trianglesAll (s : UState) (v : Nat) :
    (removeVertex s v).trianglesAll
      = (s.trianglesAll.erase ((s.vtx v).tr)).erase ((s.tri ((s.vtx v).tr)).tc) := by
  simp [removeVertex]

theorem removeVertex_sliceSizes (s : UState) (v : Nat) :
    (removeVertex s v).sliceSizes
      = Function.update s.sliceSizes ((s.vtx v).time)
          (s.sliceSizes ((s.vtx v).time) - 1) := by
  simp [removeVertex]

theorem removeVertex_nSlices (s : UState) (v : Nat) :
    (removeVertex s v).nSlices = s.nSlices := by
  simp [removeVertex]

theorem moveAdd_accept (s : UState) (metRej : Bool) (t vNew t1 t2 : Nat)
    (h : (moveAdd s metRej t vNew t1 t2).fst = true) :
    (moveAdd s metRej t vNew t1 t2).snd = insertVertex s t vNew t1 t2 := by
  unfold moveAdd at *
  split_ifs at h ⊢ <;> simp_all

theorem moveDelete_accept (s : UState) (metRej : Bool) (v : Nat)
    (h : (moveDelete s metRej v).fst = true) :
    (moveDelete s metRej v).snd = removeVertex s v
      ∧ ¬ (s.sliceSizes ((s.vtx v).time) < 4) := by
  unfold moveDelete at *
  split_ifs at h ⊢ <;> simp_all

theorem moveFlip_accept (s : UState) (metRej : Bool) (t : Nat)
    (h : (moveFlip s metRej t).fst = true) :
    (moveFlip s metRej t).snd = flipLink s t := by
  unfold moveFlip at *
  split_ifs at h ⊢ <;> simp_all

theorem flipLink_liveV (s : UState) (t : Nat) :
    (flipLink s t).liveV = s.liveV := by
  simp [flipLink]

theorem flipLink_liveT (s : UState) (t : Nat) :
    (flipLink s t).liveT = s.liveT := by
  simp [flipLink]

theorem flipLink_trianglesAll (s : UState) (t : Nat) :
    (flipLink s t).trianglesAll = s.trianglesAll := by
  simp [flipLink]

theorem flipLink_sliceSizes (s : UState) (t : Nat) :
    (flipLink s t).sliceSizes = s.sliceSizes := by
  simp [flipLink]

theorem flipLink_nSlices (s : UState) (t : Nat) :
    (flipLink s t).nSlices = s.nSlices := by
  simp [flipLink]

/-- C10: for every state and every triangle, flipLink creates and destroys
no vertex and no triangle: the set of live vertices, the set of live
triangles, the trianglesAll bag and every entry of sliceSizes are exactly
unchanged (only neighbor pointers, vertex assignments, types, anchors and
the verticesFour and trianglesFlip bags are touched). -/
theorem claim10 (s : UState) (t : Nat) :
    (flipLink s t).liveV = s.liveV ∧ (flipLink s t).liveT = s.liveT
      ∧ (flipLink s t).trianglesAll = s.trianglesAll
      ∧ ∀ τ, (flipLink s t).sliceSizes τ = s.sliceSizes τ :=
  ⟨flipLink_liveV s t, flipLink_liveT s t, flipLink_trianglesAll s t,
    fun τ => by rw [flipLink_sliceSizes]⟩

/-- C3: every rejected delete move leaves the state unchanged, and in
particular when the picked vertex v sits on a slice with fewer than 4
vertices the move returns false with the state unchanged. -/
theorem claim3 :
    (∀ s metRej v, (moveDelete s metRej v).fst = false → (moveDelete s metRej v).snd = s)
      ∧ (∀ s metRej v, s.sliceSizes ((s.vtx v).time) < 4 →
          (moveDelete s metRej v).fst = false ∧ (moveDelete s metRej v).snd = s) := by
  constructor
  · intro s metRej v h
    unfold moveDelete at *
    split_ifs at h ⊢ <;> simp_all
  · intro s metRej v h
    unfold moveDelete
    split_ifs <;> simp_all

/-- C3 witness: on the initial 4-slice torus every slice has 3 < 4 vertices,
and the delete move indeed returns false and leaves the state unchanged. -/
theorem claim3_witness :
    (initState 4).sliceSizes (((initState 4).vtx 0).time) < 4
      ∧ (moveDelete (initState 4) false 0).fst = false
      ∧ (moveDelete (initState 4) false 0).snd = initState 4 :=
  ⟨by decide, (claim3.2 (initState 4) false 0 (by decide)).1,
    (claim3.2 (initState 4) false 0 (by decide)).2⟩

/-- C4: with a positive target volume, the add acceptance ratio computed by
moveAdd equals (N0/(N04+1)) * exp(-2 lam) times exp(2 eps) when
N2 < targetVolume and times exp(-2 eps) otherwise, and the Metropolis rule
accepts whenever the ratio is at least 1 and otherwise accepts exactly when
the uniform draw r is at most the ratio. -/
theorem claim4 (s : UState) (tV : Nat) (lam eps : ℝ) (htV : 0 < tV) :
    addAR s.liveV.card s.verticesFour.card s.trianglesAll.card tV lam eps
        = ((s.liveV.card : ℝ) / ((s.verticesFour.card : ℝ) + 1)) * Real.exp (-(2 * lam))
          * (if s.trianglesAll.card < tV then Real.exp (2 * eps) else Real.exp (-(2 * eps)))
      ∧ (∀ r : ℝ,
          1 ≤ addAR s.liveV.card s.verticesFour.card s.trianglesAll.card tV lam eps →
          metAccept (addAR s.liveV.card s.verticesFour.card s.trianglesAll.card tV lam eps) r)
      ∧ (∀ r : ℝ,
          addAR s.liveV.card s.verticesFour.card s.trianglesAll.card tV lam eps < 1 →
          (metAccept (addAR s.liveV.card s.verticesFour.card s.trianglesAll.card tV lam eps) r
            ↔ r ≤ addAR s.liveV.card s.verticesFour.card s.trianglesAll.card tV lam eps)) := by
  refine ⟨?_, fun r h1 => ?_, fun r h1 => ?_⟩
  · unfold addAR
    dsimp only
    rw [if_pos htV]
    rcases lt_or_ge s.trianglesAll.card tV with h | h
    · rw [if_pos h, if_pos h]
    · rw [if_neg (not_lt.mpr h), if_neg (not_lt.mpr h)]
      simp [Real.exp_neg, one_div]
  · rintro ⟨h2, _⟩
    linarith
  · unfold metAccept
    constructor
    · intro h2
      by_contra h3
      exact h2 ⟨h1, lt_of_not_le h3⟩
    · rintro h2 ⟨_, h4⟩
      linarith

/-- C4 witness: the theorem applied to the initial 4-slice torus with
targetVolume 40, lambda = log 2 and epsilon = 1/50. -/
theorem claim4_witness :
    0 < 40
      ∧ (addAR (initState 4).liveV.card (initState 4).verticesFour.card
            (initState 4).trianglesAll.card 40 (Real.log 2) (1 / 50)
          = (((initState 4).liveV.card : ℝ) / (((initState 4).verticesFour.card : ℝ) + 1))
              * Real.exp (-(2 * Real.log 2))
              * (if (initState 4).trianglesAll.card < 40 then Real.exp (2 * (1 / 50))
                 else Real.exp (-(2 * (1 / 50))))
        ∧ (∀ r : ℝ,
            1 ≤ addAR (initState 4).liveV.card (initState 4).verticesFour.card
                (initState 4).trianglesAll.card 40 (Real.log 2) (1 / 50) →
            metAccept (addAR (initState 4).liveV.card (initState 4).verticesFour.card
                (initState 4).trianglesAll.card 40 (Real.log 2) (1 / 50)) r)
        ∧ (∀ r : ℝ,
            addAR (initState 4).liveV.card (initState 4).verticesFour.card
                (initState 4).trianglesAll.card 40 (Real.log 2) (1 / 50) < 1 →
            (metAccept (addAR (initState 4).liveV.card (initState 4).verticesFour.card
                (initState 4).trianglesAll.card 40 (Real.log 2) (1 / 50)) r
              ↔ r ≤ addAR (initState 4).liveV.card (initState 4).verticesFour.card
                  (initState 4).trianglesAll.card 40 (Real.log 2) (1 / 50)))) :=
  ⟨by norm_num, claim4 (initState 4) 40 (Real.log 2) (1 / 50) (by norm_num)⟩

/-- The freshly constructed empty bag: all indices EMPTY, size 0. -/
def bag0 : BagM :=
  { indices := fun _ => -1, elements := fun _ => -1, size := 0 }

/-- C5: adding a label that is not in the bag and then removing it restores
the bag as a set: contains agrees with the original on every label and the
size is unchanged. -/
theorem claim5 (b : BagM) (x : Nat) (h : b.contains x = false) :
    (∀ l : Nat, ((b.add x).remove x).contains l = b.contains l)
      ∧ ((b.add x).remove x).size = b.size := by
  constructor
  · intro l
    unfold BagM.contains BagM.add BagM.remove at *
    dsimp only
    rcases eq_or_ne l x with rfl | hl
    · simpa using h.symm
    · simp [Function.update_same, Function.update_noteq hl]
  · unfold BagM.add BagM.remove
    dsimp only
    omega

/-- C5 witness: the empty bag and label 5. -/
theorem claim5_witness :
    bag0.contains 5 = false
      ∧ (∀ l : Nat, ((bag0.add 5).remove 5).contains l = bag0.contains l)
      ∧ ((bag0.add 5).remove 5).size = bag0.size :=
  ⟨rfl, (claim5 bag0 5 rfl).1, (claim5 bag0 5 rfl).2⟩

/-- C8 counterexample: for nSlices = 4 the initial torus construction
creates 3 * 4 = 12 vertices, not 24 as the claim states. -/
theorem claim8_cex :
    (initState 4).liveV.card = 12 ∧ ¬ ((initState 4).liveV.card = 24) := by decide

/-- C8 (amended): for nSlices = 4 in torus mode, the initial construction
produces 12 vertices and 24 triangles, every triangle is in trianglesFlip,
sliceSizes equals [3,3,3,3], and verticesFour is empty. -/
theorem claim8 :
    (initState 4).liveV.card = 12
      ∧ (initState 4).liveT.card = 24
      ∧ (initState 4).trianglesAll.card = 24
      ∧ (initState 4).trianglesFlip = (initState 4).trianglesAll
      ∧ (List.range 4).map (initState 4).sliceSizes = [3, 3, 3, 3]
      ∧ (initState 4).verticesFour = ∅ := by decide

/-- A sphere-mode state whose top strip is that of the 3-slice construction:
both caps hold 3 vertices; triangle 7 is a DOWN triangle whose base time is
nSlices - 1 = 2. -/
def sphereTop : UState := { initState 3 with sphere := true }

/-- C7 code bug: moveAdd in sphere mode only rejects triangles at time 0
(simulation.cpp, lines 144-149).  On the DOWN triangle 7 at base time
nSlices - 1 = 2 the move passes the guard and, once the Metropolis draw
accepts, increments sliceSizes[nSlices - 1] from 3 to 4, breaking the
top-cap half of the invariant; the bottom cap stays at 3. -/
theorem claim7_bug :
    sphereTop.sphere = true ∧ sphereTop.nSlices = 3
      ∧ sphereTop.sliceSizes 0 = 3 ∧ sphereTop.sliceSizes 2 = 3
      ∧ (sphereTop.tri 7).type = TriType.DOWN ∧ (sphereTop.tri 7).time = 2
      ∧ 7 ∈ sphereTop.trianglesAll
      ∧ (moveAdd sphereTop false 7 9 18 19).fst = true
      ∧ ((moveAdd sphereTop false 7 9 18 19).snd).sliceSizes 2 = 4
      ∧ ((moveAdd sphereTop false 7 9 18 19).snd).sliceSizes 0 = 3 := by
  have hne : ¬ (sphereTop.trianglesAll = ∅) := by decide
  have hguard : ¬ (sphereTop.sphere ∧ (sphereTop.tri 7).time = 0) := by decide
  have hfst : (moveAdd sphereTop false 7 9 18 19).fst = true := by
    unfold moveAdd
    rw [if_neg hne, if_neg hguard]
    simp
  have hsnd : (moveAdd sphereTop false 7 9 18 19).snd = insertVertex sphereTop 7 9 18 19 :=
    moveAdd_accept _ _ _ _ _ _ hfst
  have htime : (sphereTop.tri 7).time = 2 := by decide
  refine ⟨by decide, by decide, by decide, by decide, by decide, htime, by decide, hfst, ?_, ?_⟩
  · rw [hsnd, insertVertex_sliceSizes, htime, Function.update_same]
    decide
  · rw [hsnd, insertVertex_sliceSizes, htime, Function.update_noteq (by decide)]
    decide

/-- C2: whenever insertVertex executes on a triangle t with fresh pool
labels, it creates exactly one vertex whose time is t.time and exactly two
triangles, increments sliceSizes[t.time] by one leaving every other slice
alone, grows trianglesAll by exactly 2, and puts the new vertex in
verticesFour. -/
theorem claim2 (s : UState) (t vNew t1 t2 : Nat)
    (hv : vNew ∉ s.liveV) (ht1 : t1 ∉ s.liveT) (ht2 : t2 ∉ s.liveT)
    (ha1 : t1 ∉ s.trianglesAll) (ha2 : t2 ∉ s.trianglesAll) (h12 : t1 ≠ t2) :
    ((insertVertex s t vNew t1 t2).vtx vNew).time = (s.tri t).time
      ∧ vNew ∈ (insertVertex s t vNew t1 t2).liveV
      ∧ (insertVertex s t vNew t1 t2).liveV.card = s.liveV.card + 1
      ∧ (insertVertex s t vNew t1 t2).liveT.card = s.liveT.card + 2
      ∧ (insertVertex s t vNew t1 t2).trianglesAll.card = s.trianglesAll.card + 2
      ∧ (insertVertex s t vNew t1 t2).sliceSizes ((s.tri t).time)
          = s.sliceSizes ((s.tri t).time) + 1
      ∧ (∀ τ, τ ≠ (s.tri t).time →
          (insertVertex s t vNew t1 t2).sliceSizes τ = s.sliceSizes τ)
      ∧ vNew ∈ (insertVertex s t vNew t1 t2).verticesFour := by
  refine ⟨insertVertex_vtxNew_time s t vNew t1 t2, ?_, ?_, ?_, ?_, ?_, ?_, ?_⟩
  · rw [insertVertex_liveV]; exact Finset.mem_insert_self _ _
  · rw [insertVertex_liveV, Finset.card_insert_of_not_mem hv]
  · rw [insertVertex_liveT,
      Finset.card_insert_of_not_mem (by simp [ht2, Ne.symm h12]),
      Finset.card_insert_of_not_mem ht1]
  · rw [insertVertex_trianglesAll,
      Finset.card_insert_of_not_mem (by simp [ha2, Ne.symm h12]),
      Finset.card_insert_of_not_mem ha1]
  · rw [insertVertex_sliceSizes, Function.update_same]
  · intro τ hτ
    rw [insertVertex_sliceSizes, Function.update_noteq hτ]
  · rw [insertVertex_verticesFour]; exact Finset.mem_insert_self _ _

/-- C2 witness: the initial 4-slice torus, triangle 0, fresh labels 12, 24
and 25. -/
theorem claim2_witness :
    (12 ∉ (initState 4).liveV ∧ 24 ∉ (initState 4).liveT ∧ 25 ∉ (initState 4).liveT
        ∧ 24 ∉ (initState 4).trianglesAll ∧ 25 ∉ (initState 4).trianglesAll ∧ 24 ≠ 25)
      ∧ (((insertVertex (initState 4) 0 12 24 25).vtx 12).time = ((initState 4).tri 0).time
          ∧ 12 ∈ (insertVertex (initState 4) 0 12 24 25).liveV
          ∧ (insertVertex (initState 4) 0 12 24 25).liveV.card = (initState 4).liveV.card + 1
          ∧ (insertVertex (initState 4) 0 12 24 25).liveT.card = (initState 4).liveT.card + 2
          ∧ (insertVertex (initState 4) 0 12 24 25).trianglesAll.card
              = (initState 4).trianglesAll.card + 2
          ∧ (insertVertex (initState 4) 0 12 24 25).sliceSizes (((initState 4).tri 0).time)
              = (initState 4).sliceSizes (((initState 4).tri 0).time) + 1
          ∧ (∀ τ, τ ≠ ((initState 4).tri 0).time →
              (insertVertex (initState 4) 0 12 24 25).sliceSizes τ
                = (initState 4).sliceSizes τ)
          ∧ 12 ∈ (insertVertex (initState 4) 0 12 24 25).verticesFour) :=
  ⟨⟨by decide, by decide, by decide, by decide, by decide, by decide⟩,
    claim2 (initState 4) 0 12 24 25 (by decide) (by decide) (by decide)
      (by decide) (by decide) (by decide)⟩

/-!  Values of the initial construction needed for the reachability claim. -/

theorem foldl_sliceSizes_invariant {α : Type} (g : UState → α → UState)
    (hg : ∀ s a, (g s a).sliceSizes = s.sliceSizes) (l : List α) (s : UState) :
    (l.foldl g s).sliceSizes = s.sliceSizes := by
  induction l generalizing s with
  | nil => rfl
  | cons a l ih => rw [List.foldl_cons, ih, hg]

theorem foldl_nSlices_invariant {α : Type} (g : UState → α → UState)
    (hg : ∀ s a, (g s a).nSlices = s.nSlices) (l : List α) (s : UState) :
    (l.foldl g s).nSlices = s.nSlices := by
  induction l generalizing s with
  | nil => rfl
  | cons a l ih => rw [List.foldl_cons, ih, hg]

theorem initCell_sliceSizes (s : UState) (n i j : Nat) :
    (initCell s n i j).sliceSizes = s.sliceSizes := by
  simp [initCell]

theorem initConn_sliceSizes (s : UState) (n i j : Nat) :
    (initConn s n i j).sliceSizes = s.sliceSizes := by
  simp [initConn]

theorem initCell_nSlices (s : UState) (n i j : Nat) :
    (initCell s n i j).nSlices = s.nSlices := by
  simp [initCell]

theorem initConn_nSlices (s : UState) (n i j : Nat) :
    (initConn s n i j).nSlices = s.nSlices := by
  simp [initConn]

theorem sliceFold_val (n : Nat) (s : UState) (τ : Nat) :
    ((List.range n).foldl
        (fun s i => { s with sliceSizes := Function.update s.sliceSizes i 3 }) s).sliceSizes τ
      = if τ < n then 3 else s.sliceSizes τ := by
  induction n generalizing s with
  | zero => simp
  | succ n ih =>
    rw [List.range_succ, List.foldl_append, List.foldl_cons, List.foldl_nil]
    rcases eq_or_ne τ n with rfl | hne
    · simp [Function.update_same]
    · show (Function.update _ n 3) τ = _
      rw [Function.update_noteq hne, ih]
      rcases lt_or_ge τ n with h | h
      · rw [if_pos h, if_pos (by omega)]
      · rw [if_neg (by omega), if_neg (by omega)]

theorem initState_nSlices (n : Nat) : (initState n).nSlices = n := by
  unfold initState
  refine (foldl_nSlices_invariant _ ?_ _ _).trans
    ((foldl_nSlices_invariant _ ?_ _ _).trans
      ((foldl_nSlices_invariant _ ?_ _ _).trans
        (foldl_nSlices_invariant _ ?_ _ _)))
  · exact fun s i => foldl_nSlices_invariant _ (fun s j => initConn_nSlices s n i j) _ s
  · exact fun s i => foldl_nSlices_invariant _ (fun s j => initCell_nSlices s n i j) _ s
  · exact fun s i => rfl
  · exact fun s i => rfl

theorem initState_sliceSizes (n τ : Nat) :
    (initState n).sliceSizes τ = if τ < n then 3 else 0 := by
  unfold initState
  refine (congrFun ((foldl_sliceSizes_invariant _ ?_ _ _).trans
      (foldl_sliceSizes_invariant _ ?_ _ _)) τ).trans ?_
  · exact fun s i => foldl_sliceSizes_invariant _ (fun s j => initConn_sliceSizes s n i j) _ s
  · exact fun s i => foldl_sliceSizes_invariant _ (fun s j => initCell_sliceSizes s n i j) _ s
  · rw [sliceFold_val]
    by_cases h : τ < n
    · rw [if_pos h, if_pos h]
    · rw [if_neg h, if_neg h]
      refine (congrFun (foldl_sliceSizes_invariant _ ?_ _ _) τ).trans ?_
      · exact fun s i => rfl
      · rfl

/-- C9: in every state reachable from the initial construction by accepted
moves, every slice inside the time range keeps at least 3 vertices: the
construction starts each slice at 3, an accepted add only increments one
slice, an accepted delete requires at least 4 on the slice it decrements,
and a flip changes no slice size. -/
theorem claim9 (s : UState) (hs : Reachable s) :
    ∀ τ, τ < s.nSlices → 3 ≤ s.sliceSizes τ := by
  induction hs with
  | init n =>
    intro τ hτ
    rw [initState_nSlices] at hτ
    rw [initState_sliceSizes, if_pos hτ]
  | add s metRej t vNew t1 t2 hs h ih =>
    intro τ hτ
    rw [moveAdd_accept s metRej t vNew t1 t2 h] at hτ ⊢
    rw [insertVertex_nSlices] at hτ
    rw [insertVertex_sliceSizes]
    rcases eq_or_ne τ ((s.tri t).time) with rfl | hne
    · rw [Function.update_same]
      have := ih _ hτ
      omega
    · rw [Function.update_noteq hne]
      exact ih _ hτ
  | del s metRej v hs h ih =>
    intro τ hτ
    obtain ⟨hsnd, hslice⟩ := moveDelete_accept s metRej v h
    rw [hsnd] at hτ ⊢
    rw [removeVertex_nSlices] at hτ
    rw [removeVertex_sliceSizes]
    rcases eq_or_ne τ ((s.vtx v).time) with rfl | hne
    · rw [Function.update_same]
      omega
    · rw [Function.update_noteq hne]
      exact ih _ hτ
  | flp s metRej t hs h ih =>
    intro τ hτ
    rw [moveFlip_accept s metRej t h] at hτ ⊢
    rw [flipLink_nSlices] at hτ
    rw [flipLink_sliceSizes]
    exact ih _ hτ

/-- C9 witness: the initial 4-slice torus is reachable and slice 0 holds at
least 3 vertices. -/
theorem claim9_witness :
    0 < (initState 4).nSlices ∧ 3 ≤ (initState 4).sliceSizes 0 :=
  ⟨by decide, claim9 (initState 4) (Reachable.init 4) 0 (by decide)⟩



/-!  Flip-bag invariant preservation (claim C1). -/

theorem insertVertex_flipdata (s : UState) (t vNew t1 t2 : Nat)
    (hne1 : t ≠ (s.tri t).tc) (hne2 : t ≠ (s.tri t).tr)
    (hne3 : t ≠ (s.tri ((s.tri t).tc)).tr)
    (hne4 : (s.tri t).tc ≠ (s.tri t).tr)
    (hne5 : (s.tri t).tc ≠ (s.tri ((s.tri t).tc)).tr)
    (hne6 : (s.tri t).tr ≠ (s.tri ((s.tri t).tc)).tr)
    (ht1t : t1 ≠ t) (ht1tc : t1 ≠ (s.tri t).tc)
    (ht1trn : t1 ≠ (s.tri t).tr) (ht1trcn : t1 ≠ (s.tri ((s.tri t).tc)).tr)
    (ht2t : t2 ≠ t) (ht2tc : t2 ≠ (s.tri t).tc)
    (ht2trn : t2 ≠ (s.tri t).tr) (ht2trcn : t2 ≠ (s.tri ((s.tri t).tc)).tr)
    (h12 : t1 ≠ t2)
    (hvc1 : (s.tri t).vc ≠ vNew) (hvc2 : (s.tri ((s.tri t).tc)).vc ≠ vNew) :
    ((insertVertex s t vNew t1 t2).tri t).tr = t1
      ∧ ((insertVertex s t vNew t1 t2).tri ((s.tri t).tc)).tr = t2
      ∧ ((insertVertex s t vNew t1 t2).tri t1).tr = (s.tri t).tr
      ∧ ((insertVertex s t vNew t1 t2).tri t2).tr = (s.tri ((s.tri t).tc)).tr
      ∧ (∀ w, w ≠ t → w ≠ (s.tri t).tc → w ≠ t1 → w ≠ t2 →
          ((insertVertex s t vNew t1 t2).tri w).tr = (s.tri w).tr)
      ∧ ((insertVertex s t vNew t1 t2).tri t1).type
          = typeUpd ((s.tri t).time) ((s.vtx ((s.tri t).vc)).time)
      ∧ ((insertVertex s t vNew t1 t2).tri t2).type
          = typeUpd ((s.tri t).time) ((s.vtx ((s.tri ((s.tri t).tc)).vc)).time)
      ∧ (∀ w, w ≠ t1 → w ≠ t2 →
          ((insertVertex s t vNew t1 t2).tri w).type = (s.tri w).type)
      ∧ (insertVertex s t vNew t1 t2).trianglesFlip
          = (if typeUpd ((s.tri t).time) ((s.vtx ((s.tri ((s.tri t).tc)).vc)).time)
                ≠ (s.tri ((s.tri ((s.tri t).tc)).tr)).type
             then insert t2
               (((if typeUpd ((s.tri t).time) ((s.vtx ((s.tri t).vc)).time)
                     ≠ (s.tri ((s.tri t).tr)).type
                  then insert t1 (s.trianglesFlip.erase t) else s.trianglesFlip)).erase
                 ((s.tri t).tc))
             else (if typeUpd ((s.tri t).time) ((s.vtx ((s.tri t).vc)).time)
                       ≠ (s.tri ((s.tri t).tr)).type
                   then insert t1 (s.trianglesFlip.erase t) else s.trianglesFlip)) := by
  unfold insertVertex
  lift_lets
  extract_lets tc vr tme a1 a2 a3 a4 a5 a6 a7 a8 a9 a10 a11 a12 a13 a14 a15 a16
  have htc : tc = (s.tri t).tc := rfl
  have htme : tme = (s.tri t).time := rfl
  rw [← htc] at hne1 hne4 hne5 hne6 ht1tc ht1trcn ht2tc ht2trcn hvc2 ⊢
  rw [← htme]
  have hF : a15.tri
      = Function.update (Function.update (Function.update (Function.update
          (Function.update (Function.update (Function.update (Function.update
            (Function.update (Function.update (Function.update (Function.update
              s.tri
              t ({ s.tri t with vr := vNew }))
              tc ({ s.tri tc with vr := vNew }))
              t1 ({ time := tme, type := typeUpd tme ((s.vtx ((s.tri t).vc)).time),
                    tl := (s.tri t1).tl, tr := (s.tri t1).tr, tc := (s.tri t1).tc,
                    vl := vNew, vr := vr, vc := (s.tri t).vc }))
              t2 ({ time := tme, type := typeUpd tme ((s.vtx ((s.tri tc).vc)).time),
                    tl := (s.tri t2).tl, tr := (s.tri t2).tr, tc := (s.tri t2).tc,
                    vl := vNew, vr := vr, vc := (s.tri tc).vc }))
            t1 ({ time := tme, type := typeUpd tme ((s.vtx ((s.tri t).vc)).time),
                  tl := t, tr := (s.tri t).tr, tc := t2,
                  vl := vNew, vr := vr, vc := (s.tri t).vc }))
            t ({ s.tri t with vr := vNew, tr := t1 }))
            ((s.tri t).tr) ({ s.tri ((s.tri t).tr) with tl := t1 }))
            t2 ({ time := tme, type := typeUpd tme ((s.vtx ((s.tri tc).vc)).time),
                  tl := (s.tri t2).tl, tr := (s.tri t2).tr, tc := t1,
                  vl := vNew, vr := vr, vc := (s.tri tc).vc }))
          t2 ({ time := tme, type := typeUpd tme ((s.vtx ((s.tri tc).vc)).time),
                tl := tc, tr := (s.tri tc).tr, tc := t1,
                vl := vNew, vr := vr, vc := (s.tri tc).vc }))
          tc ({ s.tri tc with vr := vNew, tr := t2 }))
          ((s.tri tc).tr) ({ s.tri ((s.tri tc).tr) with tl := t2 }))
          t1 ({ time := tme, type := typeUpd tme ((s.vtx ((s.tri t).vc)).time),
                tl := t, tr := (s.tri t).tr, tc := t2,
                vl := vNew, vr := vr, vc := (s.tri t).vc }) := by
    simp only [a15, a14, a13, a12, a7, a6,
      setTriangles_tri, setVertices_tri, setVertexRight_tri,
      setVertices_vtx_time, setVertexRight_vtx_time, setTriangles_vtx,
      Function.update_apply, Function.update_same,
      hne1, hne2, hne3, hne4, hne5, hne6, ht1t, ht1tc, ht1trn, ht1trcn, ht2t, ht2tc, ht2trn, ht2trcn, h12, hvc1, hvc2, Ne.symm hne1, Ne.symm hne2, Ne.symm hne3, Ne.symm hne4, Ne.symm hne5, Ne.symm hne6, Ne.symm ht1t, Ne.symm ht1tc, Ne.symm ht1trn, Ne.symm ht1trcn, Ne.symm ht2t, Ne.symm ht2tc, Ne.symm ht2trn, Ne.symm ht2trcn, Ne.symm h12, Ne.symm hvc1, Ne.symm hvc2, if_true, if_false, ite_true, ite_false]
  have hFlip : a15.trianglesFlip = s.trianglesFlip := by
    simp only [a15, a14, a13, a12, a7, a6, setTriangles_trianglesFlip,
      setVertices_trianglesFlip, setVertexRight_trianglesFlip]
  refine ⟨?_, ?_, ?_, ?_, ?_, ?_, ?_, ?_, ?_⟩
  · simp only [a16, ite_tri, ite_self]
    rw [hF]
    simp only [Function.update_same, Function.update_apply, eq_self_iff_true, if_true, if_false, ite_true, ite_false, hne1, hne2, hne3, hne4, hne5, hne6, ht1t, ht1tc, ht1trn, ht1trcn, ht2t, ht2tc, ht2trn, ht2trcn, h12, hvc1, hvc2, Ne.symm hne1, Ne.symm hne2, Ne.symm hne3, Ne.symm hne4, Ne.symm hne5, Ne.symm hne6, Ne.symm ht1t, Ne.symm ht1tc, Ne.symm ht1trn, Ne.symm ht1trcn, Ne.symm ht2t, Ne.symm ht2tc, Ne.symm ht2trn, Ne.symm ht2trcn, Ne.symm h12, Ne.symm hvc1, Ne.symm hvc2]
  · simp only [a16, ite_tri, ite_self]
    rw [hF]
    simp only [Function.update_same, Function.update_apply, eq_self_iff_true, if_true, if_false, ite_true, ite_false, hne1, hne2, hne3, hne4, hne5, hne6, ht1t, ht1tc, ht1trn, ht1trcn, ht2t, ht2tc, ht2trn, ht2trcn, h12, hvc1, hvc2, Ne.symm hne1, Ne.symm hne2, Ne.symm hne3, Ne.symm hne4, Ne.symm hne5, Ne.symm hne6, Ne.symm ht1t, Ne.symm ht1tc, Ne.symm ht1trn, Ne.symm ht1trcn, Ne.symm ht2t, Ne.symm ht2tc, Ne.symm ht2trn, Ne.symm ht2trcn, Ne.symm h12, Ne.symm hvc1, Ne.symm hvc2]
  · simp only [a16, ite_tri, ite_self]
    rw [hF]
    simp only [Function.update_same, Function.update_apply, eq_self_iff_true, if_true, if_false, ite_true, ite_false, hne1, hne2, hne3, hne4, hne5, hne6, ht1t, ht1tc, ht1trn, ht1trcn, ht2t, ht2tc, ht2trn, ht2trcn, h12, hvc1, hvc2, Ne.symm hne1, Ne.symm hne2, Ne.symm hne3, Ne.symm hne4, Ne.symm hne5, Ne.symm hne6, Ne.symm ht1t, Ne.symm ht1tc, Ne.symm ht1trn, Ne.symm ht1trcn, Ne.symm ht2t, Ne.symm ht2tc, Ne.symm ht2trn, Ne.symm ht2trcn, Ne.symm h12, Ne.symm hvc1, Ne.symm hvc2]
  · simp only [a16, ite_tri, ite_self]
    rw [hF]
    simp only [Function.update_same, Function.update_apply, eq_self_iff_true, if_true, if_false, ite_true, ite_false, hne1, hne2, hne3, hne4, hne5, hne6, ht1t, ht1tc, ht1trn, ht1trcn, ht2t, ht2tc, ht2trn, ht2trcn, h12, hvc1, hvc2, Ne.symm hne1, Ne.symm hne2, Ne.symm hne3, Ne.symm hne4, Ne.symm hne5, Ne.symm hne6, Ne.symm ht1t, Ne.symm ht1tc, Ne.symm ht1trn, Ne.symm ht1trcn, Ne.symm ht2t, Ne.symm ht2tc, Ne.symm ht2trn, Ne.symm ht2trcn, Ne.symm h12, Ne.symm hvc1, Ne.symm hvc2]
  · intro w n1 n2 n3 n4
    simp only [a16, ite_tri, ite_self]
    rw [hF]
    rcases eq_or_ne w ((s.tri t).tr) with rfl | n5
    · simp only [Function.update_same, Function.update_apply, eq_self_iff_true, if_true, if_false, ite_true, ite_false, hne1, hne2, hne3, hne4, hne5, hne6, ht1t, ht1tc, ht1trn, ht1trcn, ht2t, ht2tc, ht2trn, ht2trcn, h12, hvc1, hvc2, Ne.symm hne1, Ne.symm hne2, Ne.symm hne3, Ne.symm hne4, Ne.symm hne5, Ne.symm hne6, Ne.symm ht1t, Ne.symm ht1tc, Ne.symm ht1trn, Ne.symm ht1trcn, Ne.symm ht2t, Ne.symm ht2tc, Ne.symm ht2trn, Ne.symm ht2trcn, Ne.symm h12, Ne.symm hvc1, Ne.symm hvc2, n1, n2, n3, n4, Ne.symm n1, Ne.symm n2, Ne.symm n3, Ne.symm n4]
    rcases eq_or_ne w ((s.tri tc).tr) with rfl | n6
    · simp only [Function.update_same, Function.update_apply, eq_self_iff_true, if_true, if_false, ite_true, ite_false, hne1, hne2, hne3, hne4, hne5, hne6, ht1t, ht1tc, ht1trn, ht1trcn, ht2t, ht2tc, ht2trn, ht2trcn, h12, hvc1, hvc2, Ne.symm hne1, Ne.symm hne2, Ne.symm hne3, Ne.symm hne4, Ne.symm hne5, Ne.symm hne6, Ne.symm ht1t, Ne.symm ht1tc, Ne.symm ht1trn, Ne.symm ht1trcn, Ne.symm ht2t, Ne.symm ht2tc, Ne.symm ht2trn, Ne.symm ht2trcn, Ne.symm h12, Ne.symm hvc1, Ne.symm hvc2, n1, n2, n3, n4, Ne.symm n1, Ne.symm n2, Ne.symm n3, Ne.symm n4]
    · simp only [Function.update_same, Function.update_apply, eq_self_iff_true, if_true, if_false, ite_true, ite_false, hne1, hne2, hne3, hne4, hne5, hne6, ht1t, ht1tc, ht1trn, ht1trcn, ht2t, ht2tc, ht2trn, ht2trcn, h12, hvc1, hvc2, Ne.symm hne1, Ne.symm hne2, Ne.symm hne3, Ne.symm hne4, Ne.symm hne5, Ne.symm hne6, Ne.symm ht1t, Ne.symm ht1tc, Ne.symm ht1trn, Ne.symm ht1trcn, Ne.symm ht2t, Ne.symm ht2tc, Ne.symm ht2trn, Ne.symm ht2trcn, Ne.symm h12, Ne.symm hvc1, Ne.symm hvc2, n1, n2, n3, n4, n5, n6, Ne.symm n1, Ne.symm n2, Ne.symm n3,
        Ne.symm n4, Ne.symm n5, Ne.symm n6]
  · simp only [a16, ite_tri, ite_self]
    rw [hF]
    simp only [Function.update_same, Function.update_apply, eq_self_iff_true, if_true, if_false, ite_true, ite_false, hne1, hne2, hne3, hne4, hne5, hne6, ht1t, ht1tc, ht1trn, ht1trcn, ht2t, ht2tc, ht2trn, ht2trcn, h12, hvc1, hvc2, Ne.symm hne1, Ne.symm hne2, Ne.symm hne3, Ne.symm hne4, Ne.symm hne5, Ne.symm hne6, Ne.symm ht1t, Ne.symm ht1tc, Ne.symm ht1trn, Ne.symm ht1trcn, Ne.symm ht2t, Ne.symm ht2tc, Ne.symm ht2trn, Ne.symm ht2trcn, Ne.symm h12, Ne.symm hvc1, Ne.symm hvc2]
  · simp only [a16, ite_tri, ite_self]
    rw [hF]
    simp only [Function.update_same, Function.update_apply, eq_self_iff_true, if_true, if_false, ite_true, ite_false, hne1, hne2, hne3, hne4, hne5, hne6, ht1t, ht1tc, ht1trn, ht1trcn, ht2t, ht2tc, ht2trn, ht2trcn, h12, hvc1, hvc2, Ne.symm hne1, Ne.symm hne2, Ne.symm hne3, Ne.symm hne4, Ne.symm hne5, Ne.symm hne6, Ne.symm ht1t, Ne.symm ht1tc, Ne.symm ht1trn, Ne.symm ht1trcn, Ne.symm ht2t, Ne.symm ht2tc, Ne.symm ht2trn, Ne.symm ht2trcn, Ne.symm h12, Ne.symm hvc1, Ne.symm hvc2]
  · intro w n1 n2
    simp only [a16, ite_tri, ite_self]
    rw [hF]
    rcases eq_or_ne w t with rfl | m1
    · simp only [Function.update_same, Function.update_apply, eq_self_iff_true, if_true, if_false, ite_true, ite_false, hne1, hne2, hne3, hne4, hne5, hne6, ht1t, ht1tc, ht1trn, ht1trcn, ht2t, ht2tc, ht2trn, ht2trcn, h12, hvc1, hvc2, Ne.symm hne1, Ne.symm hne2, Ne.symm hne3, Ne.symm hne4, Ne.symm hne5, Ne.symm hne6, Ne.symm ht1t, Ne.symm ht1tc, Ne.symm ht1trn, Ne.symm ht1trcn, Ne.symm ht2t, Ne.symm ht2tc, Ne.symm ht2trn, Ne.symm ht2trcn, Ne.symm h12, Ne.symm hvc1, Ne.symm hvc2, n1, n2, Ne.symm n1, Ne.symm n2]
    rcases eq_or_ne w tc with rfl | m2
    · simp only [Function.update_same, Function.update_apply, eq_self_iff_true, if_true, if_false, ite_true, ite_false, hne1, hne2, hne3, hne4, hne5, hne6, ht1t, ht1tc, ht1trn, ht1trcn, ht2t, ht2tc, ht2trn, ht2trcn, h12, hvc1, hvc2, Ne.symm hne1, Ne.symm hne2, Ne.symm hne3, Ne.symm hne4, Ne.symm hne5, Ne.symm hne6, Ne.symm ht1t, Ne.symm ht1tc, Ne.symm ht1trn, Ne.symm ht1trcn, Ne.symm ht2t, Ne.symm ht2tc, Ne.symm ht2trn, Ne.symm ht2trcn, Ne.symm h12, Ne.symm hvc1, Ne.symm hvc2, n1, n2, Ne.symm n1, Ne.symm n2]
    rcases eq_or_ne w ((s.tri t).tr) with rfl | m3
    · simp only [Function.update_same, Function.update_apply, eq_self_iff_true, if_true, if_false, ite_true, ite_false, hne1, hne2, hne3, hne4, hne5, hne6, ht1t, ht1tc, ht1trn, ht1trcn, ht2t, ht2tc, ht2trn, ht2trcn, h12, hvc1, hvc2, Ne.symm hne1, Ne.symm hne2, Ne.symm hne3, Ne.symm hne4, Ne.symm hne5, Ne.symm hne6, Ne.symm ht1t, Ne.symm ht1tc, Ne.symm ht1trn, Ne.symm ht1trcn, Ne.symm ht2t, Ne.symm ht2tc, Ne.symm ht2trn, Ne.symm ht2trcn, Ne.symm h12, Ne.symm hvc1, Ne.symm hvc2, n1, n2, Ne.symm n1, Ne.symm n2]
    rcases eq_or_ne w ((s.tri tc).tr) with rfl | m4
    · simp only [Function.update_same, Function.update_apply, eq_self_iff_true, if_true, if_false, ite_true, ite_false, hne1, hne2, hne3, hne4, hne5, hne6, ht1t, ht1tc, ht1trn, ht1trcn, ht2t, ht2tc, ht2trn, ht2trcn, h12, hvc1, hvc2, Ne.symm hne1, Ne.symm hne2, Ne.symm hne3, Ne.symm hne4, Ne.symm hne5, Ne.symm hne6, Ne.symm ht1t, Ne.symm ht1tc, Ne.symm ht1trn, Ne.symm ht1trcn, Ne.symm ht2t, Ne.symm ht2tc, Ne.symm ht2trn, Ne.symm ht2trcn, Ne.symm h12, Ne.symm hvc1, Ne.symm hvc2, n1, n2, Ne.symm n1, Ne.symm n2]
    · simp only [Function.update_same, Function.update_apply, eq_self_iff_true, if_true, if_false, ite_true, ite_false, hne1, hne2, hne3, hne4, hne5, hne6, ht1t, ht1tc, ht1trn, ht1trcn, ht2t, ht2tc, ht2trn, ht2trcn, h12, hvc1, hvc2, Ne.symm hne1, Ne.symm hne2, Ne.symm hne3, Ne.symm hne4, Ne.symm hne5, Ne.symm hne6, Ne.symm ht1t, Ne.symm ht1tc, Ne.symm ht1trn, Ne.symm ht1trcn, Ne.symm ht2t, Ne.symm ht2tc, Ne.symm ht2trn, Ne.symm ht2trcn, Ne.symm h12, Ne.symm hvc1, Ne.symm hvc2, n1, n2, m1, m2, m3, m4, Ne.symm n1, Ne.symm n2,
        Ne.symm m1, Ne.symm m2, Ne.symm m3, Ne.symm m4]
  · simp only [ite_trianglesFlip, ite_tri, ite_self]
    simp only [a16, ite_trianglesFlip, ite_tri, ite_self]
    simp only [hF, hFlip]
    simp only [Function.update_same, Function.update_apply, eq_self_iff_true, if_true, if_false, ite_true, ite_false, hne1, hne2, hne3, hne4, hne5, hne6, ht1t, ht1tc, ht1trn, ht1trcn, ht2t, ht2tc, ht2trn, ht2trcn, h12, hvc1, hvc2, Ne.symm hne1, Ne.symm hne2, Ne.symm hne3, Ne.symm hne4, Ne.symm hne5, Ne.symm hne6, Ne.symm ht1t, Ne.symm ht1tc, Ne.symm ht1trn, Ne.symm ht1trcn, Ne.symm ht2t, Ne.symm ht2tc, Ne.symm ht2trn, Ne.symm ht2trcn, Ne.symm h12, Ne.symm hvc1, Ne.symm hvc2]

theorem flipInv_insertVertex (s : UState) (t vNew t1 t2 : Nat)
    (hinv : FlipInv s)
    (hsub : s.trianglesFlip ⊆ s.trianglesAll)
    (hclos : ∀ l ∈ s.trianglesAll, (s.tri l).tr ∈ s.trianglesAll)
    (htA : t ∈ s.trianglesAll) (htcA : (s.tri t).tc ∈ s.trianglesAll)
    (htrnA : (s.tri t).tr ∈ s.trianglesAll)
    (htrcnA : (s.tri ((s.tri t).tc)).tr ∈ s.trianglesAll)
    (hne1 : t ≠ (s.tri t).tc) (hne2 : t ≠ (s.tri t).tr)
    (hne3 : t ≠ (s.tri ((s.tri t).tc)).tr)
    (hne4 : (s.tri t).tc ≠ (s.tri t).tr)
    (hne5 : (s.tri t).tc ≠ (s.tri ((s.tri t).tc)).tr)
    (hne6 : (s.tri t).tr ≠ (s.tri ((s.tri t).tc)).tr)
    (ht1A : t1 ∉ s.trianglesAll) (ht2A : t2 ∉ s.trianglesAll) (h12 : t1 ≠ t2)
    (hvN : vNew ∉ s.liveV) (hvc1L : (s.tri t).vc ∈ s.liveV)
    (hvc2L : (s.tri ((s.tri t).tc)).vc ∈ s.liveV)
    (htyT : typeUpd ((s.tri t).time) ((s.vtx ((s.tri t).vc)).time) = (s.tri t).type)
    (htyTc : typeUpd ((s.tri t).time) ((s.vtx ((s.tri ((s.tri t).tc)).vc)).time)
        = (s.tri ((s.tri t).tc)).type) :
    FlipInv (insertVertex s t vNew t1 t2) := by
  have ht1t : t1 ≠ t := fun h => ht1A (h ▸ htA)
  have ht1tc : t1 ≠ (s.tri t).tc := fun h => ht1A (h ▸ htcA)
  have ht1trn : t1 ≠ (s.tri t).tr := fun h => ht1A (h ▸ htrnA)
  have ht1trcn : t1 ≠ (s.tri ((s.tri t).tc)).tr := fun h => ht1A (h ▸ htrcnA)
  have ht2t : t2 ≠ t := fun h => ht2A (h ▸ htA)
  have ht2tc : t2 ≠ (s.tri t).tc := fun h => ht2A (h ▸ htcA)
  have ht2trn : t2 ≠ (s.tri t).tr := fun h => ht2A (h ▸ htrnA)
  have ht2trcn : t2 ≠ (s.tri ((s.tri t).tc)).tr := fun h => ht2A (h ▸ htrcnA)
  have hvc1 : (s.tri t).vc ≠ vNew := fun h => hvN (h ▸ hvc1L)
  have hvc2 : (s.tri ((s.tri t).tc)).vc ≠ vNew := fun h => hvN (h ▸ hvc2L)
  obtain ⟨P1, P2, P3, P4, P5, P6, P7, P8, P9⟩ :=
    insertVertex_flipdata s t vNew t1 t2 hne1 hne2 hne3 hne4 hne5 hne6
      ht1t ht1tc ht1trn ht1trcn ht2t ht2tc ht2trn ht2trcn h12 hvc1 hvc2
  intro l hl
  rw [insertVertex_trianglesAll] at hl
  rw [P9]
  rcases Finset.mem_insert.mp hl with rfl | hl1
  · -- the new triangle t2
    have hlflip : l ∉ s.trianglesFlip := fun h => ht2A (hsub h)
    rw [P4, P7, P8 _ (Ne.symm ht1trcn) (Ne.symm ht2trcn)]
    by_cases hc2 : typeUpd ((s.tri t).time) ((s.vtx ((s.tri ((s.tri t).tc)).vc)).time)
        ≠ (s.tri ((s.tri ((s.tri t).tc)).tr)).type
    · rw [if_pos hc2]
      simp [hc2]
    · rw [if_neg hc2]
      by_cases hc1 : typeUpd ((s.tri t).time) ((s.vtx ((s.tri t).vc)).time)
          ≠ (s.tri ((s.tri t).tr)).type
      · rw [if_pos hc1]
        simp [Ne.symm h12, hlflip, hc2]
      · rw [if_neg hc1]
        simp [hlflip, hc2]
  rcases Finset.mem_insert.mp hl1 with rfl | hl2
  · -- the new triangle t1
    have hlflip : l ∉ s.trianglesFlip := fun h => ht1A (hsub h)
    rw [P3, P6, P8 _ (Ne.symm ht1trn) (Ne.symm ht2trn)]
    by_cases hc1 : typeUpd ((s.tri t).time) ((s.vtx ((s.tri t).vc)).time)
        ≠ (s.tri ((s.tri t).tr)).type
    · by_cases hc2 : typeUpd ((s.tri t).time) ((s.vtx ((s.tri ((s.tri t).tc)).vc)).time)
          ≠ (s.tri ((s.tri ((s.tri t).tc)).tr)).type
      · rw [if_pos hc2, if_pos hc1]
        simp [h12, ht1tc, hc1]
      · rw [if_neg hc2, if_pos hc1]
        simp [hc1]
    · by_cases hc2 : typeUpd ((s.tri t).time) ((s.vtx ((s.tri ((s.tri t).tc)).vc)).time)
          ≠ (s.tri ((s.tri ((s.tri t).tc)).tr)).type
      · rw [if_pos hc2, if_neg hc1]
        simp [h12, ht1tc, hlflip, hc1]
      · rw [if_neg hc2, if_neg hc1]
        simp [hlflip, hc1]
  rcases eq_or_ne l t with rfl | hlt
  · -- the split triangle t keeps type and gains right neighbor t1 of the same type
    rw [P1, P8 _ (Ne.symm ht1t) (Ne.symm ht2t), P6]
    have hr : ¬ ((s.tri l).type ≠ typeUpd ((s.tri l).time) ((s.vtx ((s.tri l).vc)).time)) := by
      rw [htyT]
      exact fun h => h rfl
    have hiff : (typeUpd ((s.tri l).time) ((s.vtx ((s.tri l).vc)).time)
        ≠ (s.tri ((s.tri l).tr)).type) ↔ l ∈ s.trianglesFlip := by
      rw [htyT]
      exact (hinv l htA).symm
    simp only [hr, iff_false]
    by_cases hc2 : typeUpd ((s.tri l).time) ((s.vtx ((s.tri ((s.tri l).tc)).vc)).time)
        ≠ (s.tri ((s.tri ((s.tri l).tc)).tr)).type
    · rw [if_pos hc2]
      by_cases hc1 : typeUpd ((s.tri l).time) ((s.vtx ((s.tri l).vc)).time)
          ≠ (s.tri ((s.tri l).tr)).type
      · rw [if_pos hc1]
        simp [Ne.symm ht2t, Ne.symm ht1t]
      · rw [if_neg hc1]
        have hnf : l ∉ s.trianglesFlip := fun h => hc1 (hiff.mpr h)
        simp [Ne.symm ht2t, hnf]
    · rw [if_neg hc2]
      by_cases hc1 : typeUpd ((s.tri l).time) ((s.vtx ((s.tri l).vc)).time)
          ≠ (s.tri ((s.tri l).tr)).type
      · rw [if_pos hc1]
        simp [Ne.symm ht1t]
      · rw [if_neg hc1]
        have hnf : l ∉ s.trianglesFlip := fun h => hc1 (hiff.mpr h)
        simp [hnf]
  rcases eq_or_ne l ((s.tri t).tc) with heq | hltc
  · -- the center neighbor keeps type and gains right neighbor t2 of the same type
    subst heq
    rw [P2, P8 _ (Ne.symm ht1tc) (Ne.symm ht2tc), P7]
    have hr : ¬ ((s.tri ((s.tri t).tc)).type
        ≠ typeUpd ((s.tri t).time) ((s.vtx ((s.tri ((s.tri t).tc)).vc)).time)) := by
      rw [htyTc]
      exact fun h => h rfl
    have hiff : (typeUpd ((s.tri t).time) ((s.vtx ((s.tri ((s.tri t).tc)).vc)).time)
        ≠ (s.tri ((s.tri ((s.tri t).tc)).tr)).type) ↔ (s.tri t).tc ∈ s.trianglesFlip := by
      rw [htyTc]
      exact (hinv _ htcA).symm
    simp only [hr, iff_false]
    by_cases hc2 : typeUpd ((s.tri t).time) ((s.vtx ((s.tri ((s.tri t).tc)).vc)).time)
        ≠ (s.tri ((s.tri ((s.tri t).tc)).tr)).type
    · rw [if_pos hc2]
      simp [Ne.symm ht2tc]
    · rw [if_neg hc2]
      have hnf : (s.tri t).tc ∉ s.trianglesFlip := fun h => hc2 (hiff.mpr h)
      by_cases hc1 : typeUpd ((s.tri t).time) ((s.vtx ((s.tri t).vc)).time)
          ≠ (s.tri ((s.tri t).tr)).type
      · rw [if_pos hc1]
        simp [Ne.symm ht1tc, hnf]
      · rw [if_neg hc1]
        simp [hnf]
  · -- every other live triangle
    have hlt1 : l ≠ t1 := fun h => ht1A (h ▸ hl2)
    have hlt2 : l ≠ t2 := fun h => ht2A (h ▸ hl2)
    have htr1 : (s.tri l).tr ≠ t1 := fun h => ht1A (h ▸ hclos l hl2)
    have htr2 : (s.tri l).tr ≠ t2 := fun h => ht2A (h ▸ hclos l hl2)
    rw [P5 l hlt hltc hlt1 hlt2, P8 l hlt1 hlt2, P8 _ htr1 htr2, ← hinv l hl2]
    by_cases hc2 : typeUpd ((s.tri t).time) ((s.vtx ((s.tri ((s.tri t).tc)).vc)).time)
        ≠ (s.tri ((s.tri ((s.tri t).tc)).tr)).type
    · rw [if_pos hc2]
      by_cases hc1 : typeUpd ((s.tri t).time) ((s.vtx ((s.tri t).vc)).time)
          ≠ (s.tri ((s.tri t).tr)).type
      · rw [if_pos hc1]
        simp [hlt2, hltc, hlt1, hlt]
      · rw [if_neg hc1]
        simp [hlt2, hltc]
    · rw [if_neg hc2]
      by_cases hc1 : typeUpd ((s.tri t).time) ((s.vtx ((s.tri t).vc)).time)
          ≠ (s.tri ((s.tri t).tr)).type
      · rw [if_pos hc1]
        simp [hlt1, hlt]
      · rw [if_neg hc1]

/-- A pointwise function update whose new record keeps the type field does
not change any type field. -/
theorem update_type_pres (f : Nat → TriangleD) (a : Nat) (r : TriangleD) (m : Nat)
    (hr : r.type = (f a).type) :
    (Function.update f a r m).type = (f m).type := by
  rcases eq_or_ne m a with rfl | h
  · simp [hr]
  · simp [Function.update_noteq h]

/-- A pointwise function update whose new record keeps the tr field does
not change any tr field. -/
theorem update_tr_pres (f : Nat → TriangleD) (a : Nat) (r : TriangleD) (m : Nat)
    (hr : r.tr = (f a).tr) :
    (Function.update f a r m).tr = (f m).tr := by
  rcases eq_or_ne m a with rfl | h
  · simp [hr]
  · simp [Function.update_noteq h]

/-- A pointwise function update whose new record keeps the tl field does
not change any tl field. -/
theorem update_tl_pres (f : Nat → TriangleD) (a : Nat) (r : TriangleD) (m : Nat)
    (hr : r.tl = (f a).tl) :
    (Function.update f a r m).tl = (f m).tl := by
  rcases eq_or_ne m a with rfl | h
  · simp [hr]
  · simp [Function.update_noteq h]

/-- Triangle::setTriangleRight never changes a type field. -/
theorem setTriangleRight_tri_type (s : UState) (t u m : Nat) :
    ((setTriangleRight s t u).tri m).type = (s.tri m).type := by
  rw [setTriangleRight_tri]
  simp only [update_type_pres]

/-- Triangle::setTriangleCenter never changes a type field. -/
theorem setTriangleCenter_tri_type (s : UState) (t u m : Nat) :
    ((setTriangleCenter s t u).tri m).type = (s.tri m).type := by
  rw [setTriangleCenter_tri]
  simp only [update_type_pres]

/-- Triangle::setTriangleCenter never changes a tr field. -/
theorem setTriangleCenter_tri_tr (s : UState) (t u m : Nat) :
    ((setTriangleCenter s t u).tri m).tr = (s.tri m).tr := by
  rw [setTriangleCenter_tri]
  simp only [update_tr_pres]

/-- Triangle::setTriangleCenter never changes a tl field. -/
theorem setTriangleCenter_tri_tl (s : UState) (t u m : Nat) :
    ((setTriangleCenter s t u).tri m).tl = (s.tri m).tl := by
  rw [setTriangleCenter_tri]
  simp only [update_tl_pres]

/-- Triangle::setVertexRight never changes a type field. -/
theorem setVertexRight_tri_type (s : UState) (t v m : Nat) :
    ((setVertexRight s t v).tri m).type = (s.tri m).type := by
  rw [setVertexRight_tri]
  simp only [update_type_pres]

/-- Triangle::setVertexRight never changes a tr field. -/
theorem setVertexRight_tri_tr (s : UState) (t v m : Nat) :
    ((setVertexRight s t v).tri m).tr = (s.tri m).tr := by
  rw [setVertexRight_tri]
  simp only [update_tr_pres]

/-- The right-neighbor field written by Triangle::setTriangleRight: t gets
the new neighbor u, everybody else keeps theirs. -/
theorem setTriangleRight_tri_tr (s : UState) (t u m : Nat) :
    ((setTriangleRight s t u).tri m).tr = if m = t then u else (s.tri m).tr := by
  rw [setTriangleRight_tri]
  simp only [update_tr_pres]
  rcases eq_or_ne m t with rfl | h
  · simp
  · simp [Function.update_noteq h, h]

/-- The type field written by Triangle::setVertices: t gets the recomputed
orientation, everybody else keeps theirs. -/
theorem setVertices_tri_type (s : UState) (t a b c m : Nat) :
    ((setVertices s t a b c).tri m).type =
      if m = t then typeUpd ((s.vtx a).time) ((s.vtx c).time) else (s.tri m).type := by
  rw [setVertices_tri]
  rcases eq_or_ne m t with rfl | h
  · simp
  · simp [Function.update_noteq h, h]

/-- Triangle::setVertices never changes a tr field. -/
theorem setVertices_tri_tr (s : UState) (t a b c m : Nat) :
    ((setVertices s t a b c).tri m).tr = (s.tri m).tr := by
  rw [setVertices_tri]
  rcases eq_or_ne m t with rfl | h
  · simp
  · simp [Function.update_noteq h]

/-- Triangle::setVertices never changes a tl field. -/
theorem setVertices_tri_tl (s : UState) (t a b c m : Nat) :
    ((setVertices s t a b c).tri m).tl = (s.tri m).tl := by
  rw [setVertices_tri]
  rcases eq_or_ne m t with rfl | h
  · simp
  · simp [Function.update_noteq h]

/-- The center-neighbor field written by Triangle::setTriangleCenter:
both endpoints point at each other, everybody else keeps theirs.  The
second write wins when t = u. -/
theorem setTriangleCenter_tri_tc (s : UState) (t u m : Nat) :
    ((setTriangleCenter s t u).tri m).tc =
      if m = u then t else if m = t then u else (s.tri m).tc := by
  rw [setTriangleCenter_tri]
  rcases eq_or_ne m u with rfl | h
  · simp
  · rw [Function.update_noteq h]
    rcases eq_or_ne m t with rfl | h2
    · simp [h]
    · simp [Function.update_noteq h2, h, h2]

/-- What Universe::removeVertex does to the triangle records and the flip
bag: types are untouched everywhere, the right neighbors of tl and tlc
become the former right neighbors of tr and trc, every other right
neighbor is preserved, and the flip bag is rewritten by the two
conditional transfers of the source. -/
theorem removeVertex_flipdata (s : UState) (v : Nat)
    (h1 : (s.vtx v).tl ≠ (s.tri ((s.vtx v).tl)).tc) :
    (∀ m, ((removeVertex s v).tri m).type = (s.tri m).type)
    ∧ ((removeVertex s v).tri ((s.vtx v).tl)).tr = (s.tri ((s.vtx v).tr)).tr
    ∧ ((removeVertex s v).tri ((s.tri ((s.vtx v).tl)).tc)).tr
        = (s.tri ((s.tri ((s.vtx v).tr)).tc)).tr
    ∧ (∀ w, w ≠ (s.vtx v).tl → w ≠ (s.tri ((s.vtx v).tl)).tc →
        ((removeVertex s v).tri w).tr = (s.tri w).tr)
    ∧ (removeVertex s v).trianglesFlip =
        (if (s.tri ((s.vtx v).tr)).tc ∈
            (if (s.vtx v).tr ∈ s.trianglesFlip
              then insert ((s.vtx v).tl) (s.trianglesFlip.erase ((s.vtx v).tr))
              else s.trianglesFlip)
          then insert ((s.tri ((s.vtx v).tl)).tc)
            ((if (s.vtx v).tr ∈ s.trianglesFlip
              then insert ((s.vtx v).tl) (s.trianglesFlip.erase ((s.vtx v).tr))
              else s.trianglesFlip).erase ((s.tri ((s.vtx v).tr)).tc))
          else
            (if (s.vtx v).tr ∈ s.trianglesFlip
              then insert ((s.vtx v).tl) (s.trianglesFlip.erase ((s.vtx v).tr))
              else s.trianglesFlip)) := by
  refine ⟨?_, ?_, ?_, ?_, ?_⟩
  · intro m
    simp only [removeVertex, ite_tri, setTriangleRight_tri_type, setVertexRight_tri_type,
      vSetTriangleLeft_tri, ite_self]
  · simp only [removeVertex, ite_tri, setVertexRight_tri_tr, vSetTriangleLeft_tri,
      ite_self, setTriangleRight_tri_tr, if_neg h1, eq_self_iff_true, ite_true]
  · simp only [removeVertex, ite_tri, setVertexRight_tri_tr, vSetTriangleLeft_tri,
      ite_self, setTriangleRight_tri_tr, eq_self_iff_true, ite_true]
  · intro w hw1 hw2
    simp only [removeVertex, ite_tri, setVertexRight_tri_tr, vSetTriangleLeft_tri,
      ite_self, setTriangleRight_tri_tr, if_neg hw1, if_neg hw2]
  · simp [removeVertex]

/-- Universe::removeVertex preserves the flip-bag invariant, under the
structural facts that hold at any order-4 vertex of a well-formed
triangulation: the four incident triangles are live, tl and tr are
mutually horizontal neighbors (isFourVertex), the two upward triangles
share a type, the two downward ones likewise, and the four labels are
pairwise distinct where used. -/
theorem flipInv_removeVertex (s : UState) (v : Nat)
    (hinv : FlipInv s)
    (htlA : (s.vtx v).tl ∈ s.trianglesAll)
    (htrA : (s.vtx v).tr ∈ s.trianglesAll)
    (htlcA : (s.tri ((s.vtx v).tl)).tc ∈ s.trianglesAll)
    (htrcA : (s.tri ((s.vtx v).tr)).tc ∈ s.trianglesAll)
    (hfour1 : (s.tri ((s.vtx v).tl)).tr = (s.vtx v).tr)
    (hfour2 : (s.tri ((s.tri ((s.vtx v).tl)).tc)).tr = (s.tri ((s.vtx v).tr)).tc)
    (htltype : (s.tri ((s.vtx v).tl)).type = (s.tri ((s.vtx v).tr)).type)
    (htlctype : (s.tri ((s.tri ((s.vtx v).tl)).tc)).type
        = (s.tri ((s.tri ((s.vtx v).tr)).tc)).type)
    (h1 : (s.vtx v).tl ≠ (s.tri ((s.vtx v).tl)).tc)
    (h2 : (s.vtx v).tl ≠ (s.tri ((s.vtx v).tr)).tc)
    (h3 : (s.vtx v).tr ≠ (s.tri ((s.vtx v).tr)).tc) :
    FlipInv (removeVertex s v) := by
  obtain ⟨R1, R2, R3, R4, R5⟩ := removeVertex_flipdata s v h1
  intro l hl
  rw [removeVertex_trianglesAll] at hl
  have hltrc : l ≠ (s.tri ((s.vtx v).tr)).tc := (Finset.mem_erase.mp hl).1
  have hl' := (Finset.mem_erase.mp hl).2
  have hltr : l ≠ (s.vtx v).tr := (Finset.mem_erase.mp hl').1
  have hlA : l ∈ s.trianglesAll := (Finset.mem_erase.mp hl').2
  rw [R5]
  simp only [R1]
  rcases eq_or_ne l ((s.vtx v).tl) with heq | hltl
  · -- the left upward triangle inherits tr's right neighbor and flip status
    subst heq
    rw [R2]
    have hiff : ((s.tri ((s.vtx v).tl)).type ≠ (s.tri ((s.tri ((s.vtx v).tr)).tr)).type)
        ↔ (s.vtx v).tr ∈ s.trianglesFlip := by
      rw [htltype]
      exact (hinv _ htrA).symm
    rw [hiff]
    have htlflip : (s.vtx v).tl ∉ s.trianglesFlip := by
      intro h
      have h' := (hinv _ htlA).mp h
      rw [hfour1, htltype] at h'
      exact h' rfl
    by_cases hc1 : (s.vtx v).tr ∈ s.trianglesFlip
    · rw [if_pos hc1]
      by_cases hc2 : (s.tri ((s.vtx v).tr)).tc
          ∈ insert ((s.vtx v).tl) (s.trianglesFlip.erase ((s.vtx v).tr))
      · rw [if_pos hc2]
        simp [h1, h2, hc1]
      · rw [if_neg hc2]
        simp [hc1]
    · rw [if_neg hc1]
      by_cases hc2 : (s.tri ((s.vtx v).tr)).tc ∈ s.trianglesFlip
      · rw [if_pos hc2]
        simp [h1, htlflip, hc1]
      · rw [if_neg hc2]
        simp [htlflip, hc1]
  rcases eq_or_ne l ((s.tri ((s.vtx v).tl)).tc) with heq | hltlc
  · -- the left downward triangle inherits trc's right neighbor and status
    subst heq
    rw [R3]
    have hiff : ((s.tri ((s.tri ((s.vtx v).tl)).tc)).type
          ≠ (s.tri ((s.tri ((s.tri ((s.vtx v).tr)).tc)).tr)).type)
        ↔ (s.tri ((s.vtx v).tr)).tc ∈ s.trianglesFlip := by
      rw [htlctype]
      exact (hinv _ htrcA).symm
    rw [hiff]
    have htlcflip : (s.tri ((s.vtx v).tl)).tc ∉ s.trianglesFlip := by
      intro h
      have h' := (hinv _ htlcA).mp h
      rw [hfour2, htlctype] at h'
      exact h' rfl
    by_cases hc1 : (s.vtx v).tr ∈ s.trianglesFlip
    · rw [if_pos hc1]
      by_cases hc2 : (s.tri ((s.vtx v).tr)).tc ∈ s.trianglesFlip
      · have hm : (s.tri ((s.vtx v).tr)).tc
            ∈ insert ((s.vtx v).tl) (s.trianglesFlip.erase ((s.vtx v).tr)) :=
          Finset.mem_insert_of_mem (Finset.mem_erase.mpr ⟨Ne.symm h3, hc2⟩)
        rw [if_pos hm]
        simp [hc2]
      · have hm : (s.tri ((s.vtx v).tr)).tc
            ∉ insert ((s.vtx v).tl) (s.trianglesFlip.erase ((s.vtx v).tr)) := by
          simp [Ne.symm h2, hc2]
        rw [if_neg hm]
        simp [Ne.symm h1, htlcflip, hc2]
    · rw [if_neg hc1]
      by_cases hc2 : (s.tri ((s.vtx v).tr)).tc ∈ s.trianglesFlip
      · rw [if_pos hc2]
        simp [hc2]
      · rw [if_neg hc2]
        simp [htlcflip, hc2]
  · -- every other remaining triangle keeps its neighbor and its status
    rw [R4 l hltl hltlc, ← hinv l hlA]
    by_cases hc1 : (s.vtx v).tr ∈ s.trianglesFlip
    · rw [if_pos hc1]
      by_cases hc2 : (s.tri ((s.vtx v).tr)).tc
          ∈ insert ((s.vtx v).tl) (s.trianglesFlip.erase ((s.vtx v).tr))
      · rw [if_pos hc2]
        simp [hltlc, hltrc, hltl, hltr]
      · rw [if_neg hc2]
        simp [hltl, hltr]
    · rw [if_neg hc1]
      by_cases hc2 : (s.tri ((s.vtx v).tr)).tc ∈ s.trianglesFlip
      · rw [if_pos hc2]
        simp [hltlc, hltrc]
      · rw [if_neg hc2]

/-- A pointwise function update whose new record keeps the vc field does
not change any vc field. -/
theorem update_vc_pres (f : Nat → TriangleD) (a : Nat) (r : TriangleD) (m : Nat)
    (hr : r.vc = (f a).vc) :
    (Function.update f a r m).vc = (f m).vc := by
  rcases eq_or_ne m a with rfl | h
  · simp [hr]
  · simp [Function.update_noteq h]

/-- A pointwise function update whose new record keeps the vl field does
not change any vl field. -/
theorem update_vl_pres (f : Nat → TriangleD) (a : Nat) (r : TriangleD) (m : Nat)
    (hr : r.vl = (f a).vl) :
    (Function.update f a r m).vl = (f m).vl := by
  rcases eq_or_ne m a with rfl | h
  · simp [hr]
  · simp [Function.update_noteq h]

/-- A pointwise function update whose new record keeps the vr field does
not change any vr field. -/
theorem update_vr_pres (f : Nat → TriangleD) (a : Nat) (r : TriangleD) (m : Nat)
    (hr : r.vr = (f a).vr) :
    (Function.update f a r m).vr = (f m).vr := by
  rcases eq_or_ne m a with rfl | h
  · simp [hr]
  · simp [Function.update_noteq h]

/-- Triangle::setTriangleCenter never changes a center vertex. -/
theorem setTriangleCenter_tri_vc (s : UState) (t u m : Nat) :
    ((setTriangleCenter s t u).tri m).vc = (s.tri m).vc := by
  rw [setTriangleCenter_tri]
  simp only [update_vc_pres]

/-- Triangle::setTriangleCenter never changes a left vertex. -/
theorem setTriangleCenter_tri_vl (s : UState) (t u m : Nat) :
    ((setTriangleCenter s t u).tri m).vl = (s.tri m).vl := by
  rw [setTriangleCenter_tri]
  simp only [update_vl_pres]

/-- Triangle::setTriangleCenter never changes a right vertex. -/
theorem setTriangleCenter_tri_vr (s : UState) (t u m : Nat) :
    ((setTriangleCenter s t u).tri m).vr = (s.tri m).vr := by
  rw [setTriangleCenter_tri]
  simp only [update_vr_pres]

/-- Vertex times through an ite of states. -/
theorem ite_vtx_time (c : Prop) [Decidable c] (a b : UState) (w : Nat) :
    (((ite c a b).vtx w)).time = ite c ((a.vtx w).time) ((b.vtx w).time) := by
  split <;> rfl

/-- What Universe::flipLink does to the right neighbors, the types and the
flip bag: right neighbors are untouched, t and its right neighbor get the
two recomputed orientations, all other types are untouched, and the flip
bag is rewritten by the four conditional updates of the source. -/
theorem flipLink_flipdata (s : UState) (t : Nat)
    (hnt : t ≠ (s.tri t).tr)
    (htlnt : (s.tri t).tl ≠ t)
    (htlntr : (s.tri t).tl ≠ (s.tri t).tr)
    (htrrnt : (s.tri ((s.tri t).tr)).tr ≠ t)
    (htrrntr : (s.tri ((s.tri t).tr)).tr ≠ (s.tri t).tr) :
    (∀ m, ((flipLink s t).tri m).tr = (s.tri m).tr)
    ∧ ((flipLink s t).tri t).type
        = typeUpd ((s.vtx ((s.tri t).vc)).time) ((s.vtx ((s.tri t).vl)).time)
    ∧ ((flipLink s t).tri ((s.tri t).tr)).type
        = typeUpd ((s.vtx ((s.tri t).vl)).time) ((s.vtx ((s.tri ((s.tri t).tr)).vr)).time)
    ∧ (∀ w, w ≠ t → w ≠ (s.tri t).tr → ((flipLink s t).tri w).type = (s.tri w).type)
    ∧ (flipLink s t).trianglesFlip =
        (fun F3 => if (s.tri t).tr ∉ F3 ∧
            typeUpd ((s.vtx ((s.tri t).vl)).time) ((s.vtx ((s.tri ((s.tri t).tr)).vr)).time)
              ≠ (s.tri ((s.tri ((s.tri t).tr)).tr)).type
          then insert ((s.tri t).tr) F3 else F3)
        ((fun F2 => if (s.tri t).tl ∉ F2 ∧
            typeUpd ((s.vtx ((s.tri t).vc)).time) ((s.vtx ((s.tri t).vl)).time)
              ≠ (s.tri ((s.tri t).tl)).type
          then insert ((s.tri t).tl) F2 else F2)
        ((fun F1 => if (s.tri t).tr ∈ F1 ∧
            typeUpd ((s.vtx ((s.tri t).vl)).time) ((s.vtx ((s.tri ((s.tri t).tr)).vr)).time)
              = (s.tri ((s.tri ((s.tri t).tr)).tr)).type
          then F1.erase ((s.tri t).tr) else F1)
        (if (s.tri t).tl ∈ s.trianglesFlip ∧
            typeUpd ((s.vtx ((s.tri t).vc)).time) ((s.vtx ((s.tri t).vl)).time)
              = (s.tri ((s.tri t).tl)).type
          then s.trianglesFlip.erase ((s.tri t).tl) else s.trianglesFlip))) := by
  refine ⟨?_, ?_, ?_, ?_, ?_⟩
  · intro m
    simp only [flipLink, ite_tri, ite_self, vSetTriangleLeft_tri, vSetTriangleRight_tri,
      setVertices_tri_tr, setTriangleCenter_tri_tr]
  · simp only [flipLink, ite_tri, ite_self, ite_vtx_time, vSetTriangleLeft_tri,
      vSetTriangleRight_tri, vSetTriangleLeft_vtx_time, vSetTriangleRight_vtx_time,
      setTriangleCenter_vtx, setVertices_vtx_time,
      setTriangleCenter_tri_type, setTriangleCenter_tri_tr, setTriangleCenter_tri_tl,
      setTriangleCenter_tri_vc, setTriangleCenter_tri_vl, setTriangleCenter_tri_vr,
      setVertices_tri_type, setVertices_tri_tr, setVertices_tri_tl,
      hnt, eq_self_iff_true, ite_true, ite_false]
  · simp only [flipLink, ite_tri, ite_self, ite_vtx_time, vSetTriangleLeft_tri,
      vSetTriangleRight_tri, vSetTriangleLeft_vtx_time, vSetTriangleRight_vtx_time,
      setTriangleCenter_vtx, setVertices_vtx_time,
      setTriangleCenter_tri_type, setTriangleCenter_tri_tr, setTriangleCenter_tri_tl,
      setTriangleCenter_tri_vc, setTriangleCenter_tri_vl, setTriangleCenter_tri_vr,
      setVertices_tri_type, setVertices_tri_tr, setVertices_tri_tl,
      hnt, eq_self_iff_true, ite_true, ite_false]
  · intro w hw1 hw2
    simp only [flipLink, ite_tri, ite_self, ite_vtx_time, vSetTriangleLeft_tri,
      vSetTriangleRight_tri, vSetTriangleLeft_vtx_time, vSetTriangleRight_vtx_time,
      setTriangleCenter_vtx, setVertices_vtx_time,
      setTriangleCenter_tri_type, setTriangleCenter_tri_tr, setTriangleCenter_tri_tl,
      setTriangleCenter_tri_vc, setTriangleCenter_tri_vl, setTriangleCenter_tri_vr,
      setVertices_tri_type, setVertices_tri_tr, setVertices_tri_tl,
      hw1, hw2, eq_self_iff_true, ite_true, ite_false]
  · simp only [flipLink, ite_tri, ite_trianglesFlip, ite_self, ite_vtx_time,
      vSetTriangleLeft_tri, vSetTriangleRight_tri, vSetTriangleLeft_vtx_time,
      vSetTriangleRight_vtx_time, setTriangleCenter_vtx, setVertices_vtx_time,
      vSetTriangleLeft_trianglesFlip, vSetTriangleRight_trianglesFlip,
      setTriangleCenter_trianglesFlip, setVertices_trianglesFlip,
      setTriangleCenter_tri_type, setTriangleCenter_tri_tr, setTriangleCenter_tri_tl,
      setTriangleCenter_tri_vc, setTriangleCenter_tri_vl, setTriangleCenter_tri_vr,
      setVertices_tri_type, setVertices_tri_tr, setVertices_tri_tl,
      hnt, htlnt, htlntr, htrrnt, htrrntr, eq_self_iff_true, ite_true, ite_false]

/-- Membership of the left neighbor a in the four-stage flip-bag update:
it ends up in the bag exactly when its type differs from the new type of
its right neighbor (the negation of the removal condition P). -/
theorem flipBag_mem_tl (F0 : Finset Nat) (a b : Nat) (P Q : Prop)
    [Decidable P] [Decidable Q] (hab : a ≠ b) :
    (a ∈ (if b ∉ (if a ∉ (if b ∈ (if a ∈ F0 ∧ P then F0.erase a else F0) ∧ Q then (if a ∈ F0 ∧ P then F0.erase a else F0).erase b else (if a ∈ F0 ∧ P then F0.erase a else F0)) ∧ ¬ P then insert a (if b ∈ (if a ∈ F0 ∧ P then F0.erase a else F0) ∧ Q then (if a ∈ F0 ∧ P then F0.erase a else F0).erase b else (if a ∈ F0 ∧ P then F0.erase a else F0)) else (if b ∈ (if a ∈ F0 ∧ P then F0.erase a else F0) ∧ Q then (if a ∈ F0 ∧ P then F0.erase a else F0).erase b else (if a ∈ F0 ∧ P then F0.erase a else F0))) ∧ ¬ Q then insert b (if a ∉ (if b ∈ (if a ∈ F0 ∧ P then F0.erase a else F0) ∧ Q then (if a ∈ F0 ∧ P then F0.erase a else F0).erase b else (if a ∈ F0 ∧ P then F0.erase a else F0)) ∧ ¬ P then insert a (if b ∈ (if a ∈ F0 ∧ P then F0.erase a else F0) ∧ Q then (if a ∈ F0 ∧ P then F0.erase a else F0).erase b else (if a ∈ F0 ∧ P then F0.erase a else F0)) else (if b ∈ (if a ∈ F0 ∧ P then F0.erase a else F0) ∧ Q then (if a ∈ F0 ∧ P then F0.erase a else F0).erase b else (if a ∈ F0 ∧ P then F0.erase a else F0))) else (if a ∉ (if b ∈ (if a ∈ F0 ∧ P then F0.erase a else F0) ∧ Q then (if a ∈ F0 ∧ P then F0.erase a else F0).erase b else (if a ∈ F0 ∧ P then F0.erase a else F0)) ∧ ¬ P then insert a (if b ∈ (if a ∈ F0 ∧ P then F0.erase a else F0) ∧ Q then (if a ∈ F0 ∧ P then F0.erase a else F0).erase b else (if a ∈ F0 ∧ P then F0.erase a else F0)) else (if b ∈ (if a ∈ F0 ∧ P then F0.erase a else F0) ∧ Q then (if a ∈ F0 ∧ P then F0.erase a else F0).erase b else (if a ∈ F0 ∧ P then F0.erase a else F0))))) ↔ ¬ P := by
  split_ifs <;>
    try simp_all [Finset.mem_insert, Finset.mem_erase, hab, Ne.symm hab]
  all_goals tauto

/-- Membership of the right neighbor b in the four-stage flip-bag update:
it ends up in the bag exactly when the negation of its removal condition
Q holds. -/
theorem flipBag_mem_tr (F0 : Finset Nat) (a b : Nat) (P Q : Prop)
    [Decidable P] [Decidable Q] (hab : a ≠ b) :
    (b ∈ (if b ∉ (if a ∉ (if b ∈ (if a ∈ F0 ∧ P then F0.erase a else F0) ∧ Q then (if a ∈ F0 ∧ P then F0.erase a else F0).erase b else (if a ∈ F0 ∧ P then F0.erase a else F0)) ∧ ¬ P then insert a (if b ∈ (if a ∈ F0 ∧ P then F0.erase a else F0) ∧ Q then (if a ∈ F0 ∧ P then F0.erase a else F0).erase b else (if a ∈ F0 ∧ P then F0.erase a else F0)) else (if b ∈ (if a ∈ F0 ∧ P then F0.erase a else F0) ∧ Q then (if a ∈ F0 ∧ P then F0.erase a else F0).erase b else (if a ∈ F0 ∧ P then F0.erase a else F0))) ∧ ¬ Q then insert b (if a ∉ (if b ∈ (if a ∈ F0 ∧ P then F0.erase a else F0) ∧ Q then (if a ∈ F0 ∧ P then F0.erase a else F0).erase b else (if a ∈ F0 ∧ P then F0.erase a else F0)) ∧ ¬ P then insert a (if b ∈ (if a ∈ F0 ∧ P then F0.erase a else F0) ∧ Q then (if a ∈ F0 ∧ P then F0.erase a else F0).erase b else (if a ∈ F0 ∧ P then F0.erase a else F0)) else (if b ∈ (if a ∈ F0 ∧ P then F0.erase a else F0) ∧ Q then (if a ∈ F0 ∧ P then F0.erase a else F0).erase b else (if a ∈ F0 ∧ P then F0.erase a else F0))) else (if a ∉ (if b ∈ (if a ∈ F0 ∧ P then F0.erase a else F0) ∧ Q then (if a ∈ F0 ∧ P then F0.erase a else F0).erase b else (if a ∈ F0 ∧ P then F0.erase a else F0)) ∧ ¬ P then insert a (if b ∈ (if a ∈ F0 ∧ P then F0.erase a else F0) ∧ Q then (if a ∈ F0 ∧ P then F0.erase a else F0).erase b else (if a ∈ F0 ∧ P then F0.erase a else F0)) else (if b ∈ (if a ∈ F0 ∧ P then F0.erase a else F0) ∧ Q then (if a ∈ F0 ∧ P then F0.erase a else F0).erase b else (if a ∈ F0 ∧ P then F0.erase a else F0))))) ↔ ¬ Q := by
  split_ifs <;>
    try simp_all [Finset.mem_insert, Finset.mem_erase, hab, Ne.symm hab]
  all_goals tauto

/-- Any label other than a and b is untouched by the four-stage flip-bag
update. -/
theorem flipBag_mem_other (F0 : Finset Nat) (a b x : Nat) (P Q : Prop)
    [Decidable P] [Decidable Q] (hxa : x ≠ a) (hxb : x ≠ b) :
    (x ∈ (if b ∉ (if a ∉ (if b ∈ (if a ∈ F0 ∧ P then F0.erase a else F0) ∧ Q then (if a ∈ F0 ∧ P then F0.erase a else F0).erase b else (if a ∈ F0 ∧ P then F0.erase a else F0)) ∧ ¬ P then insert a (if b ∈ (if a ∈ F0 ∧ P then F0.erase a else F0) ∧ Q then (if a ∈ F0 ∧ P then F0.erase a else F0).erase b else (if a ∈ F0 ∧ P then F0.erase a else F0)) else (if b ∈ (if a ∈ F0 ∧ P then F0.erase a else F0) ∧ Q then (if a ∈ F0 ∧ P then F0.erase a else F0).erase b else (if a ∈ F0 ∧ P then F0.erase a else F0))) ∧ ¬ Q then insert b (if a ∉ (if b ∈ (if a ∈ F0 ∧ P then F0.erase a else F0) ∧ Q then (if a ∈ F0 ∧ P then F0.erase a else F0).erase b else (if a ∈ F0 ∧ P then F0.erase a else F0)) ∧ ¬ P then insert a (if b ∈ (if a ∈ F0 ∧ P then F0.erase a else F0) ∧ Q then (if a ∈ F0 ∧ P then F0.erase a else F0).erase b else (if a ∈ F0 ∧ P then F0.erase a else F0)) else (if b ∈ (if a ∈ F0 ∧ P then F0.erase a else F0) ∧ Q then (if a ∈ F0 ∧ P then F0.erase a else F0).erase b else (if a ∈ F0 ∧ P then F0.erase a else F0))) else (if a ∉ (if b ∈ (if a ∈ F0 ∧ P then F0.erase a else F0) ∧ Q then (if a ∈ F0 ∧ P then F0.erase a else F0).erase b else (if a ∈ F0 ∧ P then F0.erase a else F0)) ∧ ¬ P then insert a (if b ∈ (if a ∈ F0 ∧ P then F0.erase a else F0) ∧ Q then (if a ∈ F0 ∧ P then F0.erase a else F0).erase b else (if a ∈ F0 ∧ P then F0.erase a else F0)) else (if b ∈ (if a ∈ F0 ∧ P then F0.erase a else F0) ∧ Q then (if a ∈ F0 ∧ P then F0.erase a else F0).erase b else (if a ∈ F0 ∧ P then F0.erase a else F0))))) ↔ x ∈ F0 := by
  split_ifs <;>
    simp_all [Finset.mem_insert, Finset.mem_erase, hxa, hxb]

set_option linter.constructorNameAsVariable false

/-- Universe::flipLink preserves the flip-bag invariant, under the
structural facts of a well-formed flippable configuration: the four
triangles in play are live and suitably distinct, left and right
horizontal neighbors are mutual, the recomputed orientations swap the
types of t and its right neighbor, and right neighbors are unique. -/
theorem flipInv_flipLink (s : UState) (t : Nat)
    (hinv : FlipInv s)
    (htA : t ∈ s.trianglesAll)
    (htlnA : (s.tri t).tl ∈ s.trianglesAll)
    (htrA : (s.tri t).tr ∈ s.trianglesAll)
    (htrrA : (s.tri ((s.tri t).tr)).tr ∈ s.trianglesAll)
    (hnt : t ≠ (s.tri t).tr)
    (htlnt : (s.tri t).tl ≠ t)
    (htlntr : (s.tri t).tl ≠ (s.tri t).tr)
    (htrrnt : (s.tri ((s.tri t).tr)).tr ≠ t)
    (htrrntr : (s.tri ((s.tri t).tr)).tr ≠ (s.tri t).tr)
    (htlr : (s.tri ((s.tri t).tl)).tr = t)
    (hty1 : typeUpd ((s.vtx ((s.tri t).vc)).time) ((s.vtx ((s.tri t).vl)).time)
        = (s.tri ((s.tri t).tr)).type)
    (hty2 : typeUpd ((s.vtx ((s.tri t).vl)).time) ((s.vtx ((s.tri ((s.tri t).tr)).vr)).time)
        = (s.tri t).type)
    (huniq1 : ∀ l ∈ s.trianglesAll, (s.tri l).tr = t → l = (s.tri t).tl)
    (huniq2 : ∀ l ∈ s.trianglesAll, (s.tri l).tr = (s.tri t).tr → l = t) :
    FlipInv (flipLink s t) := by
  obtain ⟨G1, G2, G3, G4, G5⟩ := flipLink_flipdata s t hnt htlnt htlntr htrrnt htrrntr
  intro l hl
  rw [flipLink_trianglesAll] at hl
  rw [G5]
  simp only [G1]
  rcases eq_or_ne l t with heq | hlt
  · -- t itself: its type and its right neighbor's type swap, so its status
    -- is unchanged, and none of the four bag updates touches t
    rw [heq, G2, G3]
    have h2 : t ∈ s.trianglesFlip ↔
        (typeUpd ((s.vtx ((s.tri t).vc)).time) ((s.vtx ((s.tri t).vl)).time)
          ≠ typeUpd ((s.vtx ((s.tri t).vl)).time)
              ((s.vtx ((s.tri ((s.tri t).tr)).vr)).time)) := by
      rw [hty1, hty2, ne_comm]
      exact hinv t htA
    exact (flipBag_mem_other s.trianglesFlip ((s.tri t).tl) ((s.tri t).tr) t
      (typeUpd ((s.vtx ((s.tri t).vc)).time) ((s.vtx ((s.tri t).vl)).time)
        = (s.tri ((s.tri t).tl)).type)
      (typeUpd ((s.vtx ((s.tri t).vl)).time) ((s.vtx ((s.tri ((s.tri t).tr)).vr)).time)
        = (s.tri ((s.tri ((s.tri t).tr)).tr)).type)
      (Ne.symm htlnt) hnt).trans h2
  rcases eq_or_ne l ((s.tri t).tl) with heq | hltln
  · -- the left neighbor of t: its right neighbor t changes type to the old
    -- type of t's right neighbor, and stages one and three of the bag
    -- update settle its membership accordingly
    rw [heq, htlr, G2, G4 _ htlnt htlntr]
    exact (flipBag_mem_tl s.trianglesFlip ((s.tri t).tl) ((s.tri t).tr)
      (typeUpd ((s.vtx ((s.tri t).vc)).time) ((s.vtx ((s.tri t).vl)).time)
        = (s.tri ((s.tri t).tl)).type)
      (typeUpd ((s.vtx ((s.tri t).vl)).time) ((s.vtx ((s.tri ((s.tri t).tr)).vr)).time)
        = (s.tri ((s.tri ((s.tri t).tr)).tr)).type)
      htlntr).trans ne_comm
  rcases eq_or_ne l ((s.tri t).tr) with heq | hltrn
  · -- the right neighbor of t: it takes the old type of t, its own right
    -- neighbor keeps its type, and stages two and four settle its
    -- membership
    rw [heq, G3, G4 _ htrrnt htrrntr]
    exact flipBag_mem_tr s.trianglesFlip ((s.tri t).tl) ((s.tri t).tr)
      (typeUpd ((s.vtx ((s.tri t).vc)).time) ((s.vtx ((s.tri t).vl)).time)
        = (s.tri ((s.tri t).tl)).type)
      (typeUpd ((s.vtx ((s.tri t).vl)).time) ((s.vtx ((s.tri ((s.tri t).tr)).vr)).time)
        = (s.tri ((s.tri ((s.tri t).tr)).tr)).type)
      htlntr
  · -- every other triangle keeps its type, its right neighbor keeps its
    -- type by right-neighbor uniqueness, and its membership is untouched
    have hrnet : (s.tri l).tr ≠ t := fun h => hltln (huniq1 l hl h)
    have hrnetr : (s.tri l).tr ≠ (s.tri t).tr := fun h => hlt (huniq2 l hl h)
    rw [G4 l hlt hltrn, G4 _ hrnet hrnetr]
    exact (flipBag_mem_other s.trianglesFlip ((s.tri t).tl) ((s.tri t).tr) l
      (typeUpd ((s.vtx ((s.tri t).vc)).time) ((s.vtx ((s.tri t).vl)).time)
        = (s.tri ((s.tri t).tl)).type)
      (typeUpd ((s.vtx ((s.tri t).vl)).time) ((s.vtx ((s.tri ((s.tri t).tr)).vr)).time)
        = (s.tri ((s.tri ((s.tri t).tr)).tr)).type)
      hltln hltrn).trans (hinv l hl)

/-- C1: for every live triangle l, l is in the trianglesFlip bag exactly
when its type differs from the type of its right neighbor (FlipInv), and
this equivalence is preserved by every accepted add, delete and flip move,
under the structural well-formedness facts of the configuration each move
operates on (live labels, mutual neighbor pointers, fresh pool labels,
matching orientations). -/
theorem claim1 :
    (∀ (s : UState) (metRej : Bool) (t vNew t1 t2 : Nat),
      FlipInv s →
      s.trianglesFlip ⊆ s.trianglesAll →
      (∀ l ∈ s.trianglesAll, (s.tri l).tr ∈ s.trianglesAll) →
      t ∈ s.trianglesAll → (s.tri t).tc ∈ s.trianglesAll →
      (s.tri t).tr ∈ s.trianglesAll → (s.tri ((s.tri t).tc)).tr ∈ s.trianglesAll →
      t ≠ (s.tri t).tc → t ≠ (s.tri t).tr → t ≠ (s.tri ((s.tri t).tc)).tr →
      (s.tri t).tc ≠ (s.tri t).tr → (s.tri t).tc ≠ (s.tri ((s.tri t).tc)).tr →
      (s.tri t).tr ≠ (s.tri ((s.tri t).tc)).tr →
      t1 ∉ s.trianglesAll → t2 ∉ s.trianglesAll → t1 ≠ t2 →
      vNew ∉ s.liveV → (s.tri t).vc ∈ s.liveV → (s.tri ((s.tri t).tc)).vc ∈ s.liveV →
      typeUpd ((s.tri t).time) ((s.vtx ((s.tri t).vc)).time) = (s.tri t).type →
      typeUpd ((s.tri t).time) ((s.vtx ((s.tri ((s.tri t).tc)).vc)).time)
        = (s.tri ((s.tri t).tc)).type →
      (moveAdd s metRej t vNew t1 t2).fst = true →
      FlipInv (moveAdd s metRej t vNew t1 t2).snd)
    ∧ (∀ (s : UState) (metRej : Bool) (v : Nat),
      FlipInv s →
      (s.vtx v).tl ∈ s.trianglesAll → (s.vtx v).tr ∈ s.trianglesAll →
      (s.tri ((s.vtx v).tl)).tc ∈ s.trianglesAll →
      (s.tri ((s.vtx v).tr)).tc ∈ s.trianglesAll →
      (s.tri ((s.vtx v).tl)).tr = (s.vtx v).tr →
      (s.tri ((s.tri ((s.vtx v).tl)).tc)).tr = (s.tri ((s.vtx v).tr)).tc →
      (s.tri ((s.vtx v).tl)).type = (s.tri ((s.vtx v).tr)).type →
      (s.tri ((s.tri ((s.vtx v).tl)).tc)).type
        = (s.tri ((s.tri ((s.vtx v).tr)).tc)).type →
      (s.vtx v).tl ≠ (s.tri ((s.vtx v).tl)).tc →
      (s.vtx v).tl ≠ (s.tri ((s.vtx v).tr)).tc →
      (s.vtx v).tr ≠ (s.tri ((s.vtx v).tr)).tc →
      (moveDelete s metRej v).fst = true →
      FlipInv (moveDelete s metRej v).snd)
    ∧ (∀ (s : UState) (metRej : Bool) (t : Nat),
      FlipInv s →
      t ∈ s.trianglesAll →
      (s.tri t).tl ∈ s.trianglesAll → (s.tri t).tr ∈ s.trianglesAll →
      (s.tri ((s.tri t).tr)).tr ∈ s.trianglesAll →
      t ≠ (s.tri t).tr → (s.tri t).tl ≠ t → (s.tri t).tl ≠ (s.tri t).tr →
      (s.tri ((s.tri t).tr)).tr ≠ t → (s.tri ((s.tri t).tr)).tr ≠ (s.tri t).tr →
      (s.tri ((s.tri t).tl)).tr = t →
      typeUpd ((s.vtx ((s.tri t).vc)).time) ((s.vtx ((s.tri t).vl)).time)
        = (s.tri ((s.tri t).tr)).type →
      typeUpd ((s.vtx ((s.tri t).vl)).time) ((s.vtx ((s.tri ((s.tri t).tr)).vr)).time)
        = (s.tri t).type →
      (∀ l ∈ s.trianglesAll, (s.tri l).tr = t → l = (s.tri t).tl) →
      (∀ l ∈ s.trianglesAll, (s.tri l).tr = (s.tri t).tr → l = t) →
      (moveFlip s metRej t).fst = true →
      FlipInv (moveFlip s metRej t).snd) := by
  refine ⟨?_, ?_, ?_⟩
  · intro s metRej t vNew t1 t2 hinv hsub hclos htA htcA htrnA htrcnA hne1 hne2 hne3
      hne4 hne5 hne6 ht1A ht2A h12 hvN hvc1 hvc2 hty1 hty2 hacc
    rw [moveAdd_accept s metRej t vNew t1 t2 hacc]
    exact flipInv_insertVertex s t vNew t1 t2 hinv hsub hclos htA htcA htrnA htrcnA
      hne1 hne2 hne3 hne4 hne5 hne6 ht1A ht2A h12 hvN hvc1 hvc2 hty1 hty2
  · intro s metRej v hinv htlA htrA htlcA htrcA hfour1 hfour2 htltype htlctype
      h1 h2 h3 hacc
    rw [(moveDelete_accept s metRej v hacc).1]
    exact flipInv_removeVertex s v hinv htlA htrA htlcA htrcA hfour1 hfour2
      htltype htlctype h1 h2 h3
  · intro s metRej t hinv htA htlnA htrA htrrA hnt htlnt htlntr htrrnt htrrntr
      htlr hty1 hty2 huniq1 huniq2 hacc
    rw [moveFlip_accept s metRej t hacc]
    exact flipInv_flipLink s t hinv htA htlnA htrA htrrA hnt htlnt htlntr htrrnt
      htrrntr htlr hty1 hty2 huniq1 huniq2

theorem claim1_witness :
    FlipInv (moveAdd (initState 4) false 0 12 24 25).snd
    ∧ FlipInv (moveDelete delWitnessState false 0).snd
    ∧ FlipInv (moveFlip (initState 4) false 0).snd := by
  have hA : FlipInv (initState 4)
      ∧ (initState 4).trianglesFlip ⊆ (initState 4).trianglesAll
      ∧ (∀ l ∈ (initState 4).trianglesAll, ((initState 4).tri l).tr ∈ (initState 4).trianglesAll)
      ∧ 0 ∈ (initState 4).trianglesAll
      ∧ ((initState 4).tri 0).tc ∈ (initState 4).trianglesAll
      ∧ ((initState 4).tri 0).tr ∈ (initState 4).trianglesAll
      ∧ ((initState 4).tri (((initState 4).tri 0).tc)).tr ∈ (initState 4).trianglesAll
      ∧ (0 : Nat) ≠ ((initState 4).tri 0).tc
      ∧ (0 : Nat) ≠ ((initState 4).tri 0).tr
      ∧ (0 : Nat) ≠ ((initState 4).tri (((initState 4).tri 0).tc)).tr
      ∧ ((initState 4).tri 0).tc ≠ ((initState 4).tri 0).tr
      ∧ ((initState 4).tri 0).tc ≠ ((initState 4).tri (((initState 4).tri 0).tc)).tr
      ∧ ((initState 4).tri 0).tr ≠ ((initState 4).tri (((initState 4).tri 0).tc)).tr
      ∧ (24 : Nat) ∉ (initState 4).trianglesAll
      ∧ (25 : Nat) ∉ (initState 4).trianglesAll
      ∧ (24 : Nat) ≠ 25
      ∧ (12 : Nat) ∉ (initState 4).liveV
      ∧ ((initState 4).tri 0).vc ∈ (initState 4).liveV
      ∧ ((initState 4).tri (((initState 4).tri 0).tc)).vc ∈ (initState 4).liveV
      ∧ typeUpd (((initState 4).tri 0).time) (((initState 4).vtx (((initState 4).tri 0).vc)).time) = ((initState 4).tri 0).type
      ∧ typeUpd (((initState 4).tri 0).time) (((initState 4).vtx (((initState 4).tri (((initState 4).tri 0).tc)).vc)).time) = ((initState 4).tri (((initState 4).tri 0).tc)).type
      ∧ (moveAdd (initState 4) false 0 12 24 25).fst = true := by decide
  obtain ⟨a1, a2, a3, a4, a5, a6, a7, a8, a9, a10, a11, a12, a13, a14, a15, a16, a17, a18, a19, a20, a21, a22⟩ := hA
  have hD : FlipInv delWitnessState
      ∧ (delWitnessState.vtx 0).tl ∈ delWitnessState.trianglesAll
      ∧ (delWitnessState.vtx 0).tr ∈ delWitnessState.trianglesAll
      ∧ (delWitnessState.tri ((delWitnessState.vtx 0).tl)).tc ∈ delWitnessState.trianglesAll
      ∧ (delWitnessState.tri ((delWitnessState.vtx 0).tr)).tc ∈ delWitnessState.trianglesAll
      ∧ (delWitnessState.tri ((delWitnessState.vtx 0).tl)).tr = (delWitnessState.vtx 0).tr
      ∧ (delWitnessState.tri ((delWitnessState.tri ((delWitnessState.vtx 0).tl)).tc)).tr = (delWitnessState.tri ((delWitnessState.vtx 0).tr)).tc
      ∧ (delWitnessState.tri ((delWitnessState.vtx 0).tl)).type = (delWitnessState.tri ((delWitnessState.vtx 0).tr)).type
      ∧ (delWitnessState.tri ((delWitnessState.tri ((delWitnessState.vtx 0).tl)).tc)).type = (delWitnessState.tri ((delWitnessState.tri ((delWitnessState.vtx 0).tr)).tc)).type
      ∧ (delWitnessState.vtx 0).tl ≠ (delWitnessState.tri ((delWitnessState.vtx 0).tl)).tc
      ∧ (delWitnessState.vtx 0).tl ≠ (delWitnessState.tri ((delWitnessState.vtx 0).tr)).tc
      ∧ (delWitnessState.vtx 0).tr ≠ (delWitnessState.tri ((delWitnessState.vtx 0).tr)).tc
      ∧ (moveDelete delWitnessState false 0).fst = true := by decide
  obtain ⟨d1, d2, d3, d4, d5, d6, d7, d8, d9, d10, d11, d12, d13⟩ := hD
  have hF : FlipInv (initState 4)
      ∧ 0 ∈ (initState 4).trianglesAll
      ∧ ((initState 4).tri 0).tl ∈ (initState 4).trianglesAll
      ∧ ((initState 4).tri 0).tr ∈ (initState 4).trianglesAll
      ∧ ((initState 4).tri (((initState 4).tri 0).tr)).tr ∈ (initState 4).trianglesAll
      ∧ (0 : Nat) ≠ ((initState 4).tri 0).tr
      ∧ ((initState 4).tri 0).tl ≠ 0
      ∧ ((initState 4).tri 0).tl ≠ ((initState 4).tri 0).tr
      ∧ ((initState 4).tri (((initState 4).tri 0).tr)).tr ≠ 0
      ∧ ((initState 4).tri (((initState 4).tri 0).tr)).tr ≠ ((initState 4).tri 0).tr
      ∧ ((initState 4).tri (((initState 4).tri 0).tl)).tr = 0
      ∧ typeUpd (((initState 4).vtx (((initState 4).tri 0).vc)).time) (((initState 4).vtx (((initState 4).tri 0).vl)).time) = ((initState 4).tri (((initState 4).tri 0).tr)).type
      ∧ typeUpd (((initState 4).vtx (((initState 4).tri 0).vl)).time) (((initState 4).vtx (((initState 4).tri (((initState 4).tri 0).tr)).vr)).time) = ((initState 4).tri 0).type
      ∧ (∀ l ∈ (initState 4).trianglesAll, ((initState 4).tri l).tr = 0 → l = ((initState 4).tri 0).tl)
      ∧ (∀ l ∈ (initState 4).trianglesAll, ((initState 4).tri l).tr = ((initState 4).tri 0).tr → l = 0)
      ∧ (moveFlip (initState 4) false 0).fst = true := by decide
  obtain ⟨f1, f2, f3, f4, f5, f6, f7, f8, f9, f10, f11, f12, f13, f14, f15, f16⟩ := hF
  exact ⟨claim1.1 (initState 4) false 0 12 24 25 a1 a2 a3 a4 a5 a6 a7 a8 a9 a10 a11 a12 a13 a14 a15 a16 a17 a18 a19 a20 a21 a22,
    claim1.2.1 delWitnessState false 0 d1 d2 d3 d4 d5 d6 d7 d8 d9 d10 d11 d12 d13,
    claim1.2.2 (initState 4) false 0 f1 f2 f3 f4 f5 f6 f7 f8 f9 f10 f11 f12 f13 f14 f15 f16⟩

/-!  Geometry export / import roundtrip (claim C6). -/

/-- A pointwise function update whose new record keeps the tc field does
not change any tc field. -/
theorem update_tc_pres (f : Nat → TriangleD) (a : Nat) (r : TriangleD) (m : Nat)
    (hr : r.tc = (f a).tc) :
    (Function.update f a r m).tc = (f m).tc := by
  rcases eq_or_ne m a with rfl | h
  · simp [hr]
  · simp [Function.update_noteq h]

/-- A pointwise function update whose new record keeps the time field does
not change any time field. -/
theorem update_time_pres (f : Nat → TriangleD) (a : Nat) (r : TriangleD) (m : Nat)
    (hr : r.time = (f a).time) :
    (Function.update f a r m).time = (f m).time := by
  rcases eq_or_ne m a with rfl | h
  · simp [hr]
  · simp [Function.update_noteq h]

/-- The vl field written by Triangle::setVertices. -/
theorem setVertices_tri_vl (s : UState) (t a b c m : Nat) :
    ((setVertices s t a b c).tri m).vl = if m = t then a else (s.tri m).vl := by
  rw [setVertices_tri]
  rcases eq_or_ne m t with rfl | h
  · simp
  · simp [Function.update_noteq h, h]

/-- The vr field written by Triangle::setVertices. -/
theorem setVertices_tri_vr (s : UState) (t a b c m : Nat) :
    ((setVertices s t a b c).tri m).vr = if m = t then b else (s.tri m).vr := by
  rw [setVertices_tri]
  rcases eq_or_ne m t with rfl | h
  · simp
  · simp [Function.update_noteq h, h]

/-- The vc field written by Triangle::setVertices. -/
theorem setVertices_tri_vc (s : UState) (t a b c m : Nat) :
    ((setVertices s t a b c).tri m).vc = if m = t then c else (s.tri m).vc := by
  rw [setVertices_tri]
  rcases eq_or_ne m t with rfl | h
  · simp
  · simp [Function.update_noteq h, h]

/-- The time field written by Triangle::setVertices. -/
theorem setVertices_tri_time (s : UState) (t a b c m : Nat) :
    ((setVertices s t a b c).tri m).time
      = if m = t then (s.vtx a).time else (s.tri m).time := by
  rw [setVertices_tri]
  rcases eq_or_ne m t with rfl | h
  · simp
  · simp [Function.update_noteq h, h]

/-- The tc field written by Triangle::setVertices is preserved. -/
theorem setVertices_tri_tc (s : UState) (t a b c m : Nat) :
    ((setVertices s t a b c).tri m).tc = (s.tri m).tc := by
  rw [setVertices_tri]
  rcases eq_or_ne m t with rfl | h
  · simp
  · simp [Function.update_noteq h]

/-- An update whose record literally copies the type field of the point it
replaces preserves every type field. -/
theorem update_mk_type (f : Nat → TriangleD) (a m x1 x2 x3 x4 x5 x6 x7 : Nat) :
    (Function.update f a { time := x1, type := (f a).type, tl := x2, tr := x3, tc := x4, vl := x5, vr := x6, vc := x7 } m).type = (f m).type := by
  rcases eq_or_ne m a with rfl | h
  · simp
  · simp [Function.update_noteq h]

/-- An update whose record literally copies the time field of the point it
replaces preserves every time field. -/
theorem update_mk_time (f : Nat → TriangleD) (a m : Nat) (y : TriType)
    (x2 x3 x4 x5 x6 x7 : Nat) :
    (Function.update f a { time := (f a).time, type := y, tl := x2, tr := x3, tc := x4, vl := x5, vr := x6, vc := x7 } m).time = (f m).time := by
  rcases eq_or_ne m a with rfl | h
  · simp
  · simp [Function.update_noteq h]

/-- An update whose record literally copies the vl field of the point it
replaces preserves every vl field. -/
theorem update_mk_vl (f : Nat → TriangleD) (a m x1 : Nat) (y : TriType)
    (x3 x4 x5 x6 x7 : Nat) :
    (Function.update f a { time := x1, type := y, tl := x3, tr := x4, tc := x5, vl := (f a).vl, vr := x6, vc := x7 } m).vl = (f m).vl := by
  rcases eq_or_ne m a with rfl | h
  · simp
  · simp [Function.update_noteq h]

/-- An update whose record literally copies the vr field of the point it
replaces preserves every vr field. -/
theorem update_mk_vr (f : Nat → TriangleD) (a m x1 : Nat) (y : TriType)
    (x3 x4 x5 x6 x7 : Nat) :
    (Function.update f a { time := x1, type := y, tl := x3, tr := x4, tc := x5, vl := x6, vr := (f a).vr, vc := x7 } m).vr = (f m).vr := by
  rcases eq_or_ne m a with rfl | h
  · simp
  · simp [Function.update_noteq h]

/-- An update whose record literally copies the vc field of the point it
replaces preserves every vc field. -/
theorem update_mk_vc (f : Nat → TriangleD) (a m x1 : Nat) (y : TriType)
    (x3 x4 x5 x6 x7 : Nat) :
    (Function.update f a { time := x1, type := y, tl := x3, tr := x4, tc := x5, vl := x6, vr := x7, vc := (f a).vc } m).vc = (f m).vc := by
  rcases eq_or_ne m a with rfl | h
  · simp
  · simp [Function.update_noteq h]

/-- The tl field written by Triangle::setTriangles: the main write puts a,
the reverse write of the right neighbor b wins at b. -/
theorem setTriangles_tri_tl (s : UState) (t a b c m : Nat) :
    ((setTriangles s t a b c).tri m).tl =
      if m = b then t else if m = t then a else (s.tri m).tl := by
  rw [setTriangles_tri]
  dsimp only
  simp only [update_tl_pres]
  rcases eq_or_ne m b with rfl | hb
  · simp
  · rw [Function.update_noteq hb, if_neg hb]
    simp only [update_tl_pres]
    rcases eq_or_ne m t with rfl | ht
    · simp
    · rw [Function.update_noteq ht, if_neg ht]

/-- The tr field written by Triangle::setTriangles: the main write puts b,
the reverse write of the left neighbor a wins at a. -/
theorem setTriangles_tri_tr (s : UState) (t a b c m : Nat) :
    ((setTriangles s t a b c).tri m).tr =
      if m = a then t else if m = t then b else (s.tri m).tr := by
  rw [setTriangles_tri]
  dsimp only
  simp only [update_tr_pres]
  rcases eq_or_ne m a with rfl | ha
  · simp
  · rw [Function.update_noteq ha, if_neg ha]
    rcases eq_or_ne m t with rfl | ht
    · simp
    · rw [Function.update_noteq ht, if_neg ht]

/-- The tc field written by Triangle::setTriangles: the main write puts c,
the reverse write of the center neighbor c wins at c. -/
theorem setTriangles_tri_tc (s : UState) (t a b c m : Nat) :
    ((setTriangles s t a b c).tri m).tc =
      if m = c then t else if m = t then c else (s.tri m).tc := by
  rw [setTriangles_tri]
  dsimp only
  rcases eq_or_ne m c with rfl | hc
  · simp
  · rw [Function.update_noteq hc, if_neg hc]
    simp only [update_tc_pres]
    rcases eq_or_ne m t with rfl | ht
    · simp
    · rw [Function.update_noteq ht, if_neg ht]

/-- Triangle::setTriangles never changes a type field. -/
theorem setTriangles_tri_type (s : UState) (t a b c m : Nat) :
    ((setTriangles s t a b c).tri m).type = (s.tri m).type := by
  rw [setTriangles_tri]
  dsimp only
  rw [update_mk_type, update_mk_type, update_mk_type, update_mk_type]

/-- Triangle::setTriangles never changes a time field. -/
theorem setTriangles_tri_time (s : UState) (t a b c m : Nat) :
    ((setTriangles s t a b c).tri m).time = (s.tri m).time := by
  rw [setTriangles_tri]
  dsimp only
  rw [update_mk_time, update_mk_time, update_mk_time, update_mk_time]

/-- Triangle::setTriangles never changes a vl field. -/
theorem setTriangles_tri_vl (s : UState) (t a b c m : Nat) :
    ((setTriangles s t a b c).tri m).vl = (s.tri m).vl := by
  rw [setTriangles_tri]
  dsimp only
  rw [update_mk_vl, update_mk_vl, update_mk_vl, update_mk_vl]

/-- Triangle::setTriangles never changes a vr field. -/
theorem setTriangles_tri_vr (s : UState) (t a b c m : Nat) :
    ((setTriangles s t a b c).tri m).vr = (s.tri m).vr := by
  rw [setTriangles_tri]
  dsimp only
  rw [update_mk_vr, update_mk_vr, update_mk_vr, update_mk_vr]

/-- Triangle::setTriangles never changes a vc field. -/
theorem setTriangles_tri_vc (s : UState) (t a b c m : Nat) :
    ((setTriangles s t a b c).tri m).vc = (s.tri m).vc := by
  rw [setTriangles_tri]
  dsimp only
  rw [update_mk_vc, update_mk_vc, update_mk_vc, update_mk_vc]

/-- The right anchor written by Triangle::setVertices: when the recomputed
orientation is UP the left vertex a gets t as its right anchor. -/
theorem update_vtx_mk_tr (f : Nat → VertexD) (a m x1 x2 : Nat) :
    (Function.update f a { time := x1, tl := x2, tr := (f a).tr } m).tr = (f m).tr := by
  rcases eq_or_ne m a with rfl | h
  · simp
  · simp [Function.update_noteq h]

theorem update_vtx_mk_tl (f : Nat → VertexD) (a m x1 x2 : Nat) :
    (Function.update f a { time := x1, tl := (f a).tl, tr := x2 } m).tl = (f m).tl := by
  rcases eq_or_ne m a with rfl | h
  · simp
  · simp [Function.update_noteq h]

theorem setVertices_vtx_tr (s : UState) (t a b c w : Nat) :
    ((setVertices s t a b c).vtx w).tr =
      if typeUpd ((s.vtx a).time) ((s.vtx c).time) = TriType.UP ∧ w = a then t
      else (s.vtx w).tr := by
  unfold setVertices vSetTriangleLeft vSetTriangleRight
  dsimp only
  split
  · rename_i hty
    dsimp only
    rw [update_vtx_mk_tr]
    rcases eq_or_ne w a with rfl | hwa
    · rw [Function.update_same]
      simp [hty]
    · rw [Function.update_noteq hwa]
      simp [hwa]
  · rename_i hty
    simp [hty]

/-- The left anchor written by Triangle::setVertices: when the recomputed
orientation is UP the right vertex b gets t as its left anchor. -/
theorem setVertices_vtx_tl (s : UState) (t a b c w : Nat) :
    ((setVertices s t a b c).vtx w).tl =
      if typeUpd ((s.vtx a).time) ((s.vtx c).time) = TriType.UP ∧ w = b then t
      else (s.vtx w).tl := by
  unfold setVertices vSetTriangleLeft vSetTriangleRight
  dsimp only
  split
  · rename_i hty
    dsimp only
    rcases eq_or_ne w b with rfl | hb
    · rw [Function.update_same]
      simp [hty]
    · rw [Function.update_noteq hb]
      rw [update_vtx_mk_tl]
      simp [hty, hb]
  · rename_i hty
    simp [hty]

/-- Vertex records after the vertex-creation loop of importGeometry: the
first nV labels carry the file times, anchors start at zero. -/
theorem importVertexFold_vtx (g : GeomFile) (k a : Nat) :
    (((List.range k).foldl (importVertexStep g) emptyState).vtx a)
      = if a < k then { time := g.times.getD a 0, tl := 0, tr := 0 }
        else { time := 0, tl := 0, tr := 0 } := by
  induction k with
  | zero =>
    simp [emptyState]
  | succ n ih =>
    rw [List.range_succ, List.foldl_append]
    simp only [List.foldl_cons, List.foldl_nil, importVertexStep]
    rcases eq_or_ne a n with rfl | h
    · rw [Function.update_same]
      rw [ih]
      rcases Nat.lt_or_ge a a with h2 | h2
      · exact absurd h2 (lt_irrefl a)
      · simp [Nat.lt_irrefl, Nat.lt_succ_self]
    · rw [Function.update_noteq h, ih]
      rcases Nat.lt_or_ge a n with h2 | h2
      · simp [h2, Nat.lt_succ_of_lt h2]
      · have : ¬ a < n := Nat.not_lt.mpr h2
        have h3 : ¬ a < n + 1 := by
          intro hlt
          rcases Nat.lt_succ_iff_lt_or_eq.mp hlt with h4 | h4
          · exact this h4
          · exact h h4
        simp [this, h3]

/-- The triangle records are untouched by the vertex-creation loop. -/
theorem importVertexFold_tri (g : GeomFile) (k : Nat) :
    (((List.range k).foldl (importVertexStep g) emptyState)).tri = emptyState.tri := by
  induction k with
  | zero => rfl
  | succ n ih =>
    rw [List.range_succ, List.foldl_append]
    simp only [List.foldl_cons, List.foldl_nil, importVertexStep]
    exact ih

/-- The bags are untouched by the vertex-creation loop. -/
theorem importVertexFold_bags (g : GeomFile) (k : Nat) :
    (((List.range k).foldl (importVertexStep g) emptyState)).trianglesAll
        = emptyState.trianglesAll
      ∧ (((List.range k).foldl (importVertexStep g) emptyState)).liveT = emptyState.liveT := by
  induction k with
  | zero => exact ⟨rfl, rfl⟩
  | succ n ih =>
    rw [List.range_succ, List.foldl_append]
    simp only [List.foldl_cons, List.foldl_nil, importVertexStep]
    exact ih

/-- A position below the length reads a member of the list. -/
theorem listGetD_mem (l : List Nat) (i : Nat) (h : i < l.length) : l.getD i 0 ∈ l := by
  rw [List.getD_eq_getElem l 0 h]
  exact List.getElem_mem h

/-- Reading back at the index of a member gives the member. -/
theorem listGetD_indexOf (l : List Nat) (x : Nat) (h : x ∈ l) :
    l.getD (l.indexOf x) 0 = x := by
  rw [List.getD_eq_getElem l 0 (List.indexOf_lt_length.mpr h)]
  exact List.getElem_indexOf (List.indexOf_lt_length.mpr h)

/-- On a duplicate-free list the index of the i-th entry is i. -/
theorem listIndexOf_getD (l : List Nat) (hnd : l.Nodup) (i : Nat) (h : i < l.length) :
    l.indexOf (l.getD i 0) = i := by
  rw [List.getD_eq_getElem l 0 h]
  exact List.indexOf_getElem hnd i h

/-- indexOf is injective on members. -/
theorem listIndexOf_inj (l : List Nat) (x y : Nat) (hx : x ∈ l) (hy : y ∈ l)
    (h : l.indexOf x = l.indexOf y) : x = y := by
  rw [← listGetD_indexOf l x hx, ← listGetD_indexOf l y hy, h]

/-- getD through map. -/
theorem listMap_getD {β : Type} (l : List Nat) (f : Nat → β) (d : β) (i : Nat)
    (h : i < l.length) : (l.map f).getD i d = f (l.getD i 0) := by
  rw [List.getD_eq_getElem _ d (by simpa using h), List.getD_eq_getElem l 0 h]
  simp

/-- Field-level description of one triangle-creation step of
importGeometry: the new triangle n stores the file record verbatim, the
reverse pointers of setTriangles rewrite the neighbors named in the
record, the left vertex of an upward triangle gets n as its right anchor
and the right vertex gets n as its left anchor, and everything else is
untouched. -/
theorem importTriangle_fields (g : GeomFile) (sk : UState) (n : Nat) (rec : TriRec)
    (hr : g.tris.getD n { vl := 0, vr := 0, vc := 0, tl := 0, tr := 0, tc := 0 } = rec) :
    (∀ a, ((importTriangle g sk n).vtx a).time = (sk.vtx a).time)
    ∧ (importTriangle g sk n).trianglesAll = insert n sk.trianglesAll
    ∧ (∀ i, ((importTriangle g sk n).tri i).time
        = if i = n then (sk.vtx rec.vl).time else (sk.tri i).time)
    ∧ (∀ i, ((importTriangle g sk n).tri i).type
        = if i = n then typeUpd ((sk.vtx rec.vl).time) ((sk.vtx rec.vc).time)
          else (sk.tri i).type)
    ∧ (∀ i, ((importTriangle g sk n).tri i).tl
        = if i = rec.tr then n else if i = n then rec.tl else (sk.tri i).tl)
    ∧ (∀ i, ((importTriangle g sk n).tri i).tr
        = if i = rec.tl then n else if i = n then rec.tr else (sk.tri i).tr)
    ∧ (∀ i, ((importTriangle g sk n).tri i).tc
        = if i = rec.tc then n else if i = n then rec.tc else (sk.tri i).tc)
    ∧ (∀ i, ((importTriangle g sk n).tri i).vl
        = if i = n then rec.vl else (sk.tri i).vl)
    ∧ (∀ i, ((importTriangle g sk n).tri i).vr
        = if i = n then rec.vr else (sk.tri i).vr)
    ∧ (∀ i, ((importTriangle g sk n).tri i).vc
        = if i = n then rec.vc else (sk.tri i).vc)
    ∧ (∀ a, ((importTriangle g sk n).vtx a).tr
        = if typeUpd ((sk.vtx rec.vl).time) ((sk.vtx rec.vc).time) = TriType.UP ∧ a = rec.vl
          then n else (sk.vtx a).tr)
    ∧ (∀ a, ((importTriangle g sk n).vtx a).tl
        = if typeUpd ((sk.vtx rec.vl).time) ((sk.vtx rec.vc).time) = TriType.UP ∧ a = rec.vr
          then n else (sk.vtx a).tl) := by
  refine ⟨?_, ?_, ?_, ?_, ?_, ?_, ?_, ?_, ?_, ?_, ?_, ?_⟩
  · intro a
    simp only [importTriangle, hr, setTriangles_vtx, setVertices_vtx_time]
  · simp only [importTriangle, hr, setTriangles_trianglesAll, setVertices_trianglesAll]
  · intro i
    simp only [importTriangle, hr, setTriangles_tri_time, setVertices_tri_time]
  · intro i
    simp only [importTriangle, hr, setTriangles_tri_type, setVertices_tri_type]
  · intro i
    simp only [importTriangle, hr, setTriangles_tri_tl, setVertices_tri_tl]
  · intro i
    simp only [importTriangle, hr, setTriangles_tri_tr, setVertices_tri_tr]
  · intro i
    simp only [importTriangle, hr, setTriangles_tri_tc, setVertices_tri_tc]
  · intro i
    simp only [importTriangle, hr, setTriangles_tri_vl, setVertices_tri_vl]
  · intro i
    simp only [importTriangle, hr, setTriangles_tri_vr, setVertices_tri_vr]
  · intro i
    simp only [importTriangle, hr, setTriangles_tri_vc, setVertices_tri_vc]
  · intro a
    simp only [importTriangle, hr, setTriangles_vtx, setVertices_vtx_tr]
  · intro a
    simp only [importTriangle, hr, setTriangles_vtx, setVertices_vtx_tl]

/-- The invariant of the triangle-creation loop of importGeometry on an
exported file: after k steps, vertex times are unchanged, the first k
triangle records hold the index translation of the corresponding original
records (the reverse-pointer writes of later steps agree with the already
stored values by neighbor mutuality), the vertex anchors point at the
translated original anchors as soon as the anchor triangle has been
processed, and trianglesAll is the set of processed labels. -/
theorem importTriangleFold_inv (s : UState) (vs ts : List Nat) (sb : UState)
    (hvsnd : vs.Nodup) (htsnd : ts.Nodup)
    (hvsmem : ∀ x, x ∈ vs ↔ x ∈ s.liveV)
    (htsmem : ∀ x, x ∈ ts ↔ x ∈ s.trianglesAll)
    (hclosv : ∀ t ∈ s.trianglesAll, (s.tri t).vl ∈ s.liveV ∧ (s.tri t).vr ∈ s.liveV
        ∧ (s.tri t).vc ∈ s.liveV)
    (hclost : ∀ t ∈ s.trianglesAll, (s.tri t).tl ∈ s.trianglesAll
        ∧ (s.tri t).tr ∈ s.trianglesAll ∧ (s.tri t).tc ∈ s.trianglesAll)
    (hmut : ∀ t ∈ s.trianglesAll, (s.tri ((s.tri t).tl)).tr = t
        ∧ (s.tri ((s.tri t).tr)).tl = t ∧ (s.tri ((s.tri t).tc)).tc = t)
    (htype : ∀ t ∈ s.trianglesAll,
        typeUpd ((s.vtx ((s.tri t).vl)).time) ((s.vtx ((s.tri t).vc)).time) = (s.tri t).type)
    (hanch : ∀ v ∈ s.liveV, (s.vtx v).tl ∈ s.trianglesAll
        ∧ (s.tri ((s.vtx v).tl)).type = TriType.UP ∧ (s.tri ((s.vtx v).tl)).vr = v
        ∧ (s.vtx v).tr ∈ s.trianglesAll
        ∧ (s.tri ((s.vtx v).tr)).type = TriType.UP ∧ (s.tri ((s.vtx v).tr)).vl = v)
    (huplv : ∀ t ∈ s.trianglesAll, (s.tri t).type = TriType.UP →
        (s.vtx ((s.tri t).vl)).tr = t ∧ (s.vtx ((s.tri t).vr)).tl = t)
    (hvtime : ∀ a, a < vs.length → (sb.vtx a).time = (s.vtx (vs.getD a 0)).time)
    (hvanchb : ∀ a, (sb.vtx a).tl = 0 ∧ (sb.vtx a).tr = 0) :
    ∀ k, k ≤ ts.length →
      (∀ a, (((List.range k).foldl (importTriangle (exportGeometry s vs ts)) sb).vtx a).time = (sb.vtx a).time)
      ∧ (∀ i, i < k →
          ((((List.range k).foldl (importTriangle (exportGeometry s vs ts)) sb).tri i).time = (s.vtx ((s.tri (ts.getD i 0)).vl)).time)
          ∧ ((((List.range k).foldl (importTriangle (exportGeometry s vs ts)) sb).tri i).type = (s.tri (ts.getD i 0)).type)
          ∧ ((((List.range k).foldl (importTriangle (exportGeometry s vs ts)) sb).tri i).tl = ts.indexOf ((s.tri (ts.getD i 0)).tl))
          ∧ ((((List.range k).foldl (importTriangle (exportGeometry s vs ts)) sb).tri i).tr = ts.indexOf ((s.tri (ts.getD i 0)).tr))
          ∧ ((((List.range k).foldl (importTriangle (exportGeometry s vs ts)) sb).tri i).tc = ts.indexOf ((s.tri (ts.getD i 0)).tc))
          ∧ ((((List.range k).foldl (importTriangle (exportGeometry s vs ts)) sb).tri i).vl = vs.indexOf ((s.tri (ts.getD i 0)).vl))
          ∧ ((((List.range k).foldl (importTriangle (exportGeometry s vs ts)) sb).tri i).vr = vs.indexOf ((s.tri (ts.getD i 0)).vr))
          ∧ ((((List.range k).foldl (importTriangle (exportGeometry s vs ts)) sb).tri i).vc = vs.indexOf ((s.tri (ts.getD i 0)).vc)))
      ∧ (∀ a, a < vs.length →
          ((((List.range k).foldl (importTriangle (exportGeometry s vs ts)) sb).vtx a).tr
            = if ts.indexOf ((s.vtx (vs.getD a 0)).tr) < k
              then ts.indexOf ((s.vtx (vs.getD a 0)).tr) else 0)
          ∧ ((((List.range k).foldl (importTriangle (exportGeometry s vs ts)) sb).vtx a).tl
            = if ts.indexOf ((s.vtx (vs.getD a 0)).tl) < k
              then ts.indexOf ((s.vtx (vs.getD a 0)).tl) else 0))
      ∧ ((List.range k).foldl (importTriangle (exportGeometry s vs ts)) sb).trianglesAll = sb.trianglesAll ∪ Finset.range k := by
  intro k
  induction k with
  | zero =>
    intro _
    refine ⟨fun a => rfl, fun i hi => absurd hi (Nat.not_lt_zero i), fun a ha => ?_, ?_⟩
    · exact ⟨by rw [if_neg (Nat.not_lt_zero _)]; exact (hvanchb a).2,
        by rw [if_neg (Nat.not_lt_zero _)]; exact (hvanchb a).1⟩
    · simp
  | succ n ih =>
    intro hk1
    have hklt : n < ts.length := hk1
    obtain ⟨IH1, IH2, IH3, IH4⟩ := ih (Nat.le_of_succ_le hk1)
    -- facts about the n-th original triangle
    have htkts : (ts.getD n 0) ∈ ts := listGetD_mem ts n hklt
    have htkA : (ts.getD n 0) ∈ s.trianglesAll := (htsmem _).mp htkts
    have hvlL : (s.tri (ts.getD n 0)).vl ∈ s.liveV := (hclosv _ htkA).1
    have hvrL : (s.tri (ts.getD n 0)).vr ∈ s.liveV := (hclosv _ htkA).2.1
    have hvcL : (s.tri (ts.getD n 0)).vc ∈ s.liveV := (hclosv _ htkA).2.2
    have hvlvs : (s.tri (ts.getD n 0)).vl ∈ vs := (hvsmem _).mpr hvlL
    have hvrvs : (s.tri (ts.getD n 0)).vr ∈ vs := (hvsmem _).mpr hvrL
    have hvcvs : (s.tri (ts.getD n 0)).vc ∈ vs := (hvsmem _).mpr hvcL
    have hAlt : vs.indexOf ((s.tri (ts.getD n 0)).vl) < vs.length := List.indexOf_lt_length.mpr hvlvs
    have hBlt : vs.indexOf ((s.tri (ts.getD n 0)).vr) < vs.length := List.indexOf_lt_length.mpr hvrvs
    have hClt : vs.indexOf ((s.tri (ts.getD n 0)).vc) < vs.length := List.indexOf_lt_length.mpr hvcvs
    have htlA : (s.tri (ts.getD n 0)).tl ∈ s.trianglesAll := (hclost _ htkA).1
    have htrA : (s.tri (ts.getD n 0)).tr ∈ s.trianglesAll := (hclost _ htkA).2.1
    have htcA : (s.tri (ts.getD n 0)).tc ∈ s.trianglesAll := (hclost _ htkA).2.2
    have htlts : (s.tri (ts.getD n 0)).tl ∈ ts := (htsmem _).mpr htlA
    have htrts : (s.tri (ts.getD n 0)).tr ∈ ts := (htsmem _).mpr htrA
    have htcts : (s.tri (ts.getD n 0)).tc ∈ ts := (htsmem _).mpr htcA
    have hidxn : ts.indexOf (ts.getD n 0) = n := listIndexOf_getD ts htsnd n hklt
    have hrec : (exportGeometry s vs ts).tris.getD n
        { vl := 0, vr := 0, vc := 0, tl := 0, tr := 0, tc := 0 } =
        { vl := vs.indexOf ((s.tri (ts.getD n 0)).vl), vr := vs.indexOf ((s.tri (ts.getD n 0)).vr), vc := vs.indexOf ((s.tri (ts.getD n 0)).vc), tl := ts.indexOf ((s.tri (ts.getD n 0)).tl), tr := ts.indexOf ((s.tri (ts.getD n 0)).tr), tc := ts.indexOf ((s.tri (ts.getD n 0)).tc) } := by
      show (ts.map _).getD n _ = _
      rw [listMap_getD ts _ _ n hklt]
    rw [List.range_succ, List.foldl_append, List.foldl_cons, List.foldl_nil]
    obtain ⟨S1, S2, S3, S4, S5, S6, S7, S8, S9, S10, S11, S12⟩ :=
      importTriangle_fields (exportGeometry s vs ts)
        ((List.range n).foldl (importTriangle (exportGeometry s vs ts)) sb) n _ hrec
    dsimp only at S3 S4 S5 S6 S7 S8 S9 S10 S11 S12
    -- the orientation recomputed at step n is the original type
    have htrans : typeUpd
        ((((List.range n).foldl (importTriangle (exportGeometry s vs ts)) sb).vtx
          (vs.indexOf ((s.tri (ts.getD n 0)).vl))).time)
        ((((List.range n).foldl (importTriangle (exportGeometry s vs ts)) sb).vtx
          (vs.indexOf ((s.tri (ts.getD n 0)).vc))).time) = (s.tri (ts.getD n 0)).type := by
      rw [IH1, IH1, hvtime _ hAlt, hvtime _ hClt,
        listGetD_indexOf vs _ hvlvs, listGetD_indexOf vs _ hvcvs]
      exact htype _ htkA
    refine ⟨?_, ?_, ?_, ?_⟩
    · intro a
      rw [S1 a]
      exact IH1 a
    · intro i hi
      rcases Nat.lt_succ_iff_lt_or_eq.mp hi with hin | rfl
      · -- previously processed triangles: reverse pointers agree by mutuality
        have hine : i ≠ n := Nat.ne_of_lt hin
        have hTIts : (ts.getD i 0) ∈ ts := listGetD_mem ts i (lt_trans hin hklt)
        have hTIA : (ts.getD i 0) ∈ s.trianglesAll := (htsmem _).mp hTIts
        have hidxi : ts.indexOf (ts.getD i 0) = i := listIndexOf_getD ts htsnd i (lt_trans hin hklt)
        obtain ⟨T1, T2, T3, T4, T5, T6, T7, T8⟩ := IH2 i hin
        refine ⟨?_, ?_, ?_, ?_, ?_, ?_, ?_, ?_⟩
        · rw [S3 i, if_neg hine]
          exact T1
        · rw [S4 i, if_neg hine]
          exact T2
        · rw [S5 i]
          by_cases hc : i = ts.indexOf ((s.tri (ts.getD n 0)).tr)
          · rw [if_pos hc]
            have h1 : (ts.getD i 0) = (s.tri (ts.getD n 0)).tr :=
              listIndexOf_inj ts _ _ hTIts htrts (by rw [hidxi, hc])
            have h2 : (s.tri (ts.getD i 0)).tl = (ts.getD n 0) := by
              rw [h1]
              exact (hmut _ htkA).2.1
            rw [h2, hidxn]
          · rw [if_neg hc, if_neg hine]
            exact T3
        · rw [S6 i]
          by_cases hc : i = ts.indexOf ((s.tri (ts.getD n 0)).tl)
          · rw [if_pos hc]
            have h1 : (ts.getD i 0) = (s.tri (ts.getD n 0)).tl :=
              listIndexOf_inj ts _ _ hTIts htlts (by rw [hidxi, hc])
            have h2 : (s.tri (ts.getD i 0)).tr = (ts.getD n 0) := by
              rw [h1]
              exact (hmut _ htkA).1
            rw [h2, hidxn]
          · rw [if_neg hc, if_neg hine]
            exact T4
        · rw [S7 i]
          by_cases hc : i = ts.indexOf ((s.tri (ts.getD n 0)).tc)
          · rw [if_pos hc]
            have h1 : (ts.getD i 0) = (s.tri (ts.getD n 0)).tc :=
              listIndexOf_inj ts _ _ hTIts htcts (by rw [hidxi, hc])
            have h2 : (s.tri (ts.getD i 0)).tc = (ts.getD n 0) := by
              rw [h1]
              exact (hmut _ htkA).2.2
            rw [h2, hidxn]
          · rw [if_neg hc, if_neg hine]
            exact T5
        · rw [S8 i, if_neg hine]
          exact T6
        · rw [S9 i, if_neg hine]
          exact T7
        · rw [S10 i, if_neg hine]
          exact T8
      · -- the fresh triangle n stores the translated record
        refine ⟨?_, ?_, ?_, ?_, ?_, ?_, ?_, ?_⟩
        · rw [S3 i, if_pos rfl, IH1, hvtime _ hAlt, listGetD_indexOf vs _ hvlvs]
        · rw [S4 i, if_pos rfl]
          rw [IH1, IH1, hvtime _ hAlt, hvtime _ hClt,
            listGetD_indexOf vs _ hvlvs, listGetD_indexOf vs _ hvcvs]
          exact htype _ htkA
        · rw [S5 i]
          by_cases hc : i = ts.indexOf ((s.tri (ts.getD i 0)).tr)
          · rw [if_pos hc]
            have h1 : (s.tri (ts.getD i 0)).tr = (ts.getD i 0) :=
              listIndexOf_inj ts _ _ htrts htkts (by rw [← hc, hidxn])
            have h2 : (s.tri (ts.getD i 0)).tl = (ts.getD i 0) := by
              have h3 := (hmut _ htkA).2.1
              rw [h1] at h3
              exact h3
            rw [h2, hidxn]
          · rw [if_neg hc, if_pos rfl]
        · rw [S6 i]
          by_cases hc : i = ts.indexOf ((s.tri (ts.getD i 0)).tl)
          · rw [if_pos hc]
            have h1 : (s.tri (ts.getD i 0)).tl = (ts.getD i 0) :=
              listIndexOf_inj ts _ _ htlts htkts (by rw [← hc, hidxn])
            have h2 : (s.tri (ts.getD i 0)).tr = (ts.getD i 0) := by
              have h3 := (hmut _ htkA).1
              rw [h1] at h3
              exact h3
            rw [h2, hidxn]
          · rw [if_neg hc, if_pos rfl]
        · rw [S7 i]
          by_cases hc : i = ts.indexOf ((s.tri (ts.getD i 0)).tc)
          · rw [if_pos hc]
            exact hc
          · rw [if_neg hc, if_pos rfl]
        · rw [S8 i, if_pos rfl]
        · rw [S9 i, if_pos rfl]
        · rw [S10 i, if_pos rfl]
    · intro a ha
      have hva : vs.getD a 0 ∈ s.liveV := (hvsmem _).mp (listGetD_mem vs a ha)
      have hanchA := hanch _ hva
      have hidxa : vs.indexOf (vs.getD a 0) = a := listIndexOf_getD vs hvsnd a ha
      constructor
      · -- right anchor
        rw [S11 a]
        by_cases hcase : (s.tri (ts.getD n 0)).type = TriType.UP
            ∧ a = vs.indexOf ((s.tri (ts.getD n 0)).vl)
        · rw [if_pos ⟨htrans.trans hcase.1, hcase.2⟩]
          have h1 : vs.getD a 0 = (s.tri (ts.getD n 0)).vl := by
            rw [hcase.2]
            exact listGetD_indexOf vs _ hvlvs
          rw [h1, (huplv _ htkA hcase.1).1, hidxn, if_pos (Nat.lt_succ_self n)]
        · rw [if_neg (fun h => hcase ⟨htrans.symm.trans h.1, h.2⟩), (IH3 a ha).1]
          have hne : ts.indexOf ((s.vtx (vs.getD a 0)).tr) ≠ n := by
            intro he
            have hmem : (s.vtx (vs.getD a 0)).tr ∈ ts := (htsmem _).mpr hanchA.2.2.2.1
            have heq : (s.vtx (vs.getD a 0)).tr = (ts.getD n 0) :=
              listIndexOf_inj ts _ _ hmem htkts (by rw [he, hidxn])
            have hty2 : (s.tri (ts.getD n 0)).type = TriType.UP := by
              rw [← heq]
              exact hanchA.2.2.2.2.1
            have hvl2 : (s.tri (ts.getD n 0)).vl = vs.getD a 0 := by
              rw [← heq]
              exact hanchA.2.2.2.2.2
            exact hcase ⟨hty2, by rw [hvl2, hidxa]⟩
          by_cases hlt : ts.indexOf ((s.vtx (vs.getD a 0)).tr) < n
          · rw [if_pos hlt, if_pos (Nat.lt_succ_of_lt hlt)]
          · rw [if_neg hlt, if_neg
              (fun h2 => (Nat.lt_succ_iff_lt_or_eq.mp h2).elim hlt hne)]
      · -- left anchor
        rw [S12 a]
        by_cases hcase : (s.tri (ts.getD n 0)).type = TriType.UP
            ∧ a = vs.indexOf ((s.tri (ts.getD n 0)).vr)
        · rw [if_pos ⟨htrans.trans hcase.1, hcase.2⟩]
          have h1 : vs.getD a 0 = (s.tri (ts.getD n 0)).vr := by
            rw [hcase.2]
            exact listGetD_indexOf vs _ hvrvs
          rw [h1, (huplv _ htkA hcase.1).2, hidxn, if_pos (Nat.lt_succ_self n)]
        · rw [if_neg (fun h => hcase ⟨htrans.symm.trans h.1, h.2⟩), (IH3 a ha).2]
          have hne : ts.indexOf ((s.vtx (vs.getD a 0)).tl) ≠ n := by
            intro he
            have hmem : (s.vtx (vs.getD a 0)).tl ∈ ts := (htsmem _).mpr hanchA.1
            have heq : (s.vtx (vs.getD a 0)).tl = (ts.getD n 0) :=
              listIndexOf_inj ts _ _ hmem htkts (by rw [he, hidxn])
            have hty2 : (s.tri (ts.getD n 0)).type = TriType.UP := by
              rw [← heq]
              exact hanchA.2.1
            have hvr2 : (s.tri (ts.getD n 0)).vr = vs.getD a 0 := by
              rw [← heq]
              exact hanchA.2.2.1
            exact hcase ⟨hty2, by rw [hvr2, hidxa]⟩
          by_cases hlt : ts.indexOf ((s.vtx (vs.getD a 0)).tl) < n
          · rw [if_pos hlt, if_pos (Nat.lt_succ_of_lt hlt)]
          · rw [if_neg hlt, if_neg
              (fun h2 => (Nat.lt_succ_iff_lt_or_eq.mp h2).elim hlt hne)]
    · rw [S2, IH4, Finset.range_succ]
      rw [Finset.union_insert]

/-- The four output components of importGeometry, spelled out against the
triangle-fold result state. -/
theorem importGeometry_parts (s : UState) (vs ts : List Nat) :
    (importGeometry (exportGeometry s vs ts)).trianglesAll = ((List.range (exportGeometry s vs ts).nT).foldl (importTriangle (exportGeometry s vs ts)) { (List.range (exportGeometry s vs ts).nV).foldl (importVertexStep (exportGeometry s vs ts)) emptyState with nSlices := (exportGeometry s vs ts).times.foldl max 0 + 1 }).trianglesAll
    ∧ ((importGeometry (exportGeometry s vs ts)).sliceSizes = fun τ => ((((exportGeometry s vs ts).times.filter (fun x => x = τ)).length : Int)))
    ∧ (importGeometry (exportGeometry s vs ts)).trianglesFlip = ((List.range (exportGeometry s vs ts).nT).foldl (importTriangle (exportGeometry s vs ts)) { (List.range (exportGeometry s vs ts).nV).foldl (importVertexStep (exportGeometry s vs ts)) emptyState with nSlices := (exportGeometry s vs ts).times.foldl max 0 + 1 }).trianglesAll.filter (fun t => (((List.range (exportGeometry s vs ts).nT).foldl (importTriangle (exportGeometry s vs ts)) { (List.range (exportGeometry s vs ts).nV).foldl (importVertexStep (exportGeometry s vs ts)) emptyState with nSlices := (exportGeometry s vs ts).times.foldl max 0 + 1 }).tri t).type ≠ (((List.range (exportGeometry s vs ts).nT).foldl (importTriangle (exportGeometry s vs ts)) { (List.range (exportGeometry s vs ts).nV).foldl (importVertexStep (exportGeometry s vs ts)) emptyState with nSlices := (exportGeometry s vs ts).times.foldl max 0 + 1 }).tri ((((List.range (exportGeometry s vs ts).nT).foldl (importTriangle (exportGeometry s vs ts)) { (List.range (exportGeometry s vs ts).nV).foldl (importVertexStep (exportGeometry s vs ts)) emptyState with nSlices := (exportGeometry s vs ts).times.foldl max 0 + 1 }).tri t).tr)).type)
    ∧ (importGeometry (exportGeometry s vs ts)).verticesFour = (((List.range (exportGeometry s vs ts).nT).foldl (importTriangle (exportGeometry s vs ts)) { (List.range (exportGeometry s vs ts).nV).foldl (importVertexStep (exportGeometry s vs ts)) emptyState with nSlices := (exportGeometry s vs ts).times.foldl max 0 + 1 }).trianglesAll.filter (fun t => (((List.range (exportGeometry s vs ts).nT).foldl (importTriangle (exportGeometry s vs ts)) { (List.range (exportGeometry s vs ts).nV).foldl (importVertexStep (exportGeometry s vs ts)) emptyState with nSlices := (exportGeometry s vs ts).times.foldl max 0 + 1 }).tri t).type = TriType.UP ∧ (((List.range (exportGeometry s vs ts).nT).foldl (importTriangle (exportGeometry s vs ts)) { (List.range (exportGeometry s vs ts).nV).foldl (importVertexStep (exportGeometry s vs ts)) emptyState with nSlices := (exportGeometry s vs ts).times.foldl max 0 + 1 }).vtx ((((List.range (exportGeometry s vs ts).nT).foldl (importTriangle (exportGeometry s vs ts)) { (List.range (exportGeometry s vs ts).nV).foldl (importVertexStep (exportGeometry s vs ts)) emptyState with nSlices := (exportGeometry s vs ts).times.foldl max 0 + 1 }).tri t).vl)).tl = (((List.range (exportGeometry s vs ts).nT).foldl (importTriangle (exportGeometry s vs ts)) { (List.range (exportGeometry s vs ts).nV).foldl (importVertexStep (exportGeometry s vs ts)) emptyState with nSlices := (exportGeometry s vs ts).times.foldl max 0 + 1 }).tri ((((List.range (exportGeometry s vs ts).nT).foldl (importTriangle (exportGeometry s vs ts)) { (List.range (exportGeometry s vs ts).nV).foldl (importVertexStep (exportGeometry s vs ts)) emptyState with nSlices := (exportGeometry s vs ts).times.foldl max 0 + 1 }).vtx ((((List.range (exportGeometry s vs ts).nT).foldl (importTriangle (exportGeometry s vs ts)) { (List.range (exportGeometry s vs ts).nV).foldl (importVertexStep (exportGeometry s vs ts)) emptyState with nSlices := (exportGeometry s vs ts).times.foldl max 0 + 1 }).tri t).vl)).tr)).tl ∧ (((List.range (exportGeometry s vs ts).nT).foldl (importTriangle (exportGeometry s vs ts)) { (List.range (exportGeometry s vs ts).nV).foldl (importVertexStep (exportGeometry s vs ts)) emptyState with nSlices := (exportGeometry s vs ts).times.foldl max 0 + 1 }).tri ((((List.range (exportGeometry s vs ts).nT).foldl (importTriangle (exportGeometry s vs ts)) { (List.range (exportGeometry s vs ts).nV).foldl (importVertexStep (exportGeometry s vs ts)) emptyState with nSlices := (exportGeometry s vs ts).times.foldl max 0 + 1 }).vtx ((((List.range (exportGeometry s vs ts).nT).foldl (importTriangle (exportGeometry s vs ts)) { (List.range (exportGeometry s vs ts).nV).foldl (importVertexStep (exportGeometry s vs ts)) emptyState with nSlices := (exportGeometry s vs ts).times.foldl max 0 + 1 }).tri t).vl)).tl)).tc = (((List.range (exportGeometry s vs ts).nT).foldl (importTriangle (exportGeometry s vs ts)) { (List.range (exportGeometry s vs ts).nV).foldl (importVertexStep (exportGeometry s vs ts)) emptyState with nSlices := (exportGeometry s vs ts).times.foldl max 0 + 1 }).tri ((((List.range (exportGeometry s vs ts).nT).foldl (importTriangle (exportGeometry s vs ts)) { (List.range (exportGeometry s vs ts).nV).foldl (importVertexStep (exportGeometry s vs ts)) emptyState with nSlices := (exportGeometry s vs ts).times.foldl max 0 + 1 }).tri ((((List.range (exportGeometry s vs ts).nT).foldl (importTriangle (exportGeometry s vs ts)) { (List.range (exportGeometry s vs ts).nV).foldl (importVertexStep (exportGeometry s vs ts)) emptyState with nSlices := (exportGeometry s vs ts).times.foldl max 0 + 1 }).vtx ((((List.range (exportGeometry s vs ts).nT).foldl (importTriangle (exportGeometry s vs ts)) { (List.range (exportGeometry s vs ts).nV).foldl (importVertexStep (exportGeometry s vs ts)) emptyState with nSlices := (exportGeometry s vs ts).times.foldl max 0 + 1 }).tri t).vl)).tr)).tc)).tl)).image
        (fun t => (((List.range (exportGeometry s vs ts).nT).foldl (importTriangle (exportGeometry s vs ts)) { (List.range (exportGeometry s vs ts).nV).foldl (importVertexStep (exportGeometry s vs ts)) emptyState with nSlices := (exportGeometry s vs ts).times.foldl max 0 + 1 }).tri t).vl) := by
  exact ⟨rfl, rfl, rfl, rfl⟩

/-- An enumeration list turns a filter over the index range into the
filter over the enumerated set. -/
theorem rangeFilter_image_getD (l : List Nat) (A : Finset Nat) (hnd : l.Nodup)
    (hmem : ∀ x, x ∈ l ↔ x ∈ A) (p : Nat → Prop) [DecidablePred p] :
    ((Finset.range l.length).filter (fun i => p (l.getD i 0))).image (fun i => l.getD i 0)
      = A.filter p := by
  ext t
  simp only [Finset.mem_image, Finset.mem_filter, Finset.mem_range]
  constructor
  · rintro ⟨i, ⟨hi, hp⟩, rfl⟩
    exact ⟨(hmem _).mp (listGetD_mem l i hi), hp⟩
  · rintro ⟨hA, hp⟩
    have hl : t ∈ l := (hmem t).mpr hA
    refine ⟨l.indexOf t, ⟨List.indexOf_lt_length.mpr hl, ?_⟩, ?_⟩
    · rw [listGetD_indexOf l t hl]
      exact hp
    · exact listGetD_indexOf l t hl

/-- Reading the enumeration is injective on index sets below the length. -/
theorem getD_injOn_filter (l : List Nat) (hnd : l.Nodup) (p : Nat → Prop)
    [DecidablePred p] :
    Set.InjOn (fun i => l.getD i 0)
      ((Finset.range l.length).filter (fun i => p (l.getD i 0))) := by
  intro i hi j hj he
  have hi2 : i < l.length := Finset.mem_range.mp (Finset.mem_filter.mp hi).1
  have hj2 : j < l.length := Finset.mem_range.mp (Finset.mem_filter.mp hj).1
  rw [← listIndexOf_getD l hnd i hi2, ← listIndexOf_getD l hnd j hj2]
  exact congrArg l.indexOf he

/-- The cardinality of a filter over the index range equals the
cardinality of the filter over the enumerated set. -/
theorem rangeFilter_card (l : List Nat) (A : Finset Nat) (hnd : l.Nodup)
    (hmem : ∀ x, x ∈ l ↔ x ∈ A) (p : Nat → Prop) [DecidablePred p] :
    ((Finset.range l.length).filter (fun i => p (l.getD i 0))).card = (A.filter p).card := by
  rw [← rangeFilter_image_getD l A hnd hmem p]
  exact (Finset.card_image_of_injOn (getD_injOn_filter l hnd p)).symm

/-- C6: exporting a well-formed triangulation and importing the file
back produces a state whose trianglesAll, verticesFour and trianglesFlip
bags have the sizes of the original bags and whose sliceSizes function is
the original one.  The lists vs and ts are the bag enumeration orders
used by the export; the structural hypotheses are the well-formedness
facts of a consistent triangulation (closed, mutual and unique neighbor
and anchor pointers, orientations consistent with vertex times, bags
consistent with the structural predicates the import rebuilds them
from). -/
theorem claim6 (s : UState) (vs ts : List Nat)
    (hvsnd : vs.Nodup) (htsnd : ts.Nodup)
    (hvsmem : ∀ x, x ∈ vs ↔ x ∈ s.liveV)
    (htsmem : ∀ x, x ∈ ts ↔ x ∈ s.trianglesAll)
    (hclosv : ∀ t ∈ s.trianglesAll, (s.tri t).vl ∈ s.liveV ∧ (s.tri t).vr ∈ s.liveV
        ∧ (s.tri t).vc ∈ s.liveV)
    (hclost : ∀ t ∈ s.trianglesAll, (s.tri t).tl ∈ s.trianglesAll
        ∧ (s.tri t).tr ∈ s.trianglesAll ∧ (s.tri t).tc ∈ s.trianglesAll)
    (hmut : ∀ t ∈ s.trianglesAll, (s.tri ((s.tri t).tl)).tr = t
        ∧ (s.tri ((s.tri t).tr)).tl = t ∧ (s.tri ((s.tri t).tc)).tc = t)
    (htype : ∀ t ∈ s.trianglesAll,
        typeUpd ((s.vtx ((s.tri t).vl)).time) ((s.vtx ((s.tri t).vc)).time) = (s.tri t).type)
    (hanch : ∀ v ∈ s.liveV, (s.vtx v).tl ∈ s.trianglesAll
        ∧ (s.tri ((s.vtx v).tl)).type = TriType.UP ∧ (s.tri ((s.vtx v).tl)).vr = v
        ∧ (s.vtx v).tr ∈ s.trianglesAll
        ∧ (s.tri ((s.vtx v).tr)).type = TriType.UP ∧ (s.tri ((s.vtx v).tr)).vl = v)
    (huplv : ∀ t ∈ s.trianglesAll, (s.tri t).type = TriType.UP →
        (s.vtx ((s.tri t).vl)).tr = t ∧ (s.vtx ((s.tri t).vr)).tl = t)
    (hinv : FlipInv s)
    (hsub : s.trianglesFlip ⊆ s.trianglesAll)
    (hslice : ∀ τ, s.sliceSizes τ
        = (((vs.filter (fun v => (s.vtx v).time = τ)).length : Int)))
    (hfour : s.verticesFour
        = (s.trianglesAll.filter (fun t => (s.tri t).type = TriType.UP ∧ (s.vtx ((s.tri t).vl)).tl = (s.tri ((s.vtx ((s.tri t).vl)).tr)).tl ∧ (s.tri ((s.vtx ((s.tri t).vl)).tl)).tc = (s.tri ((s.tri ((s.vtx ((s.tri t).vl)).tr)).tc)).tl)).image (fun t => (s.tri t).vl)) :
    (importGeometry (exportGeometry s vs ts)).trianglesAll.card = s.trianglesAll.card
    ∧ (importGeometry (exportGeometry s vs ts)).verticesFour.card = s.verticesFour.card
    ∧ (importGeometry (exportGeometry s vs ts)).trianglesFlip.card = s.trianglesFlip.card
    ∧ (∀ τ, (importGeometry (exportGeometry s vs ts)).sliceSizes τ = s.sliceSizes τ) := by
  obtain ⟨hPall, hPslice, hPflip, hPfour⟩ := importGeometry_parts s vs ts
  have hvtime : ∀ a, a < vs.length → (({ (List.range (exportGeometry s vs ts).nV).foldl (importVertexStep (exportGeometry s vs ts)) emptyState with nSlices := (exportGeometry s vs ts).times.foldl max 0 + 1 } : UState).vtx a).time
      = (s.vtx (vs.getD a 0)).time := by
    intro a ha
    show ((((List.range (exportGeometry s vs ts).nV).foldl (importVertexStep (exportGeometry s vs ts)) emptyState)).vtx a).time = _
    rw [importVertexFold_vtx]
    have ha2 : a < (exportGeometry s vs ts).nV := ha
    rw [if_pos ha2]
    show (vs.map (fun v => (s.vtx v).time)).getD a 0 = _
    rw [listMap_getD vs _ _ a ha]
  have hvanchb : ∀ a, (({ (List.range (exportGeometry s vs ts).nV).foldl (importVertexStep (exportGeometry s vs ts)) emptyState with nSlices := (exportGeometry s vs ts).times.foldl max 0 + 1 } : UState).vtx a).tl = 0 ∧ (({ (List.range (exportGeometry s vs ts).nV).foldl (importVertexStep (exportGeometry s vs ts)) emptyState with nSlices := (exportGeometry s vs ts).times.foldl max 0 + 1 } : UState).vtx a).tr = 0 := by
    intro a
    constructor
    · show ((((List.range (exportGeometry s vs ts).nV).foldl (importVertexStep (exportGeometry s vs ts)) emptyState)).vtx a).tl = 0
      rw [importVertexFold_vtx]
      split <;> rfl
    · show ((((List.range (exportGeometry s vs ts).nV).foldl (importVertexStep (exportGeometry s vs ts)) emptyState)).vtx a).tr = 0
      rw [importVertexFold_vtx]
      split <;> rfl
  obtain ⟨F1, F2, F3, F4⟩ := importTriangleFold_inv s vs ts { (List.range (exportGeometry s vs ts).nV).foldl (importVertexStep (exportGeometry s vs ts)) emptyState with nSlices := (exportGeometry s vs ts).times.foldl max 0 + 1 }
    hvsnd htsnd hvsmem htsmem hclosv hclost hmut htype hanch huplv hvtime hvanchb
    ts.length le_rfl
  have hSBall : ({ (List.range (exportGeometry s vs ts).nV).foldl (importVertexStep (exportGeometry s vs ts)) emptyState with nSlices := (exportGeometry s vs ts).times.foldl max 0 + 1 } : UState).trianglesAll = ∅ := by
    show (((List.range (exportGeometry s vs ts).nV).foldl (importVertexStep (exportGeometry s vs ts)) emptyState)).trianglesAll = ∅
    exact (importVertexFold_bags (exportGeometry s vs ts) (exportGeometry s vs ts).nV).1
  have hALL : ((List.range ts.length).foldl (importTriangle (exportGeometry s vs ts)) { (List.range (exportGeometry s vs ts).nV).foldl (importVertexStep (exportGeometry s vs ts)) emptyState with nSlices := (exportGeometry s vs ts).times.foldl max 0 + 1 }).trianglesAll = Finset.range ts.length := by
    rw [F4, hSBall, Finset.empty_union]
  have hAcard : s.trianglesAll.card = ts.length := by
    have h : ts.toFinset = s.trianglesAll := by
      ext x
      rw [List.mem_toFinset]
      exact htsmem x
    rw [← h, List.toFinset_card_of_nodup htsnd]
  have hNT : (exportGeometry s vs ts).nT = ts.length := rfl
  refine ⟨?_, ?_, ?_, ?_⟩
  · -- trianglesAll size
    rw [hPall, hNT, hALL, Finset.card_range, hAcard]
  · -- verticesFour size
    rw [hPfour, hNT, hALL]
    have hcongF : ∀ i ∈ Finset.range ts.length,
        ((((List.range ts.length).foldl (importTriangle (exportGeometry s vs ts)) { (List.range (exportGeometry s vs ts).nV).foldl (importVertexStep (exportGeometry s vs ts)) emptyState with nSlices := (exportGeometry s vs ts).times.foldl max 0 + 1 }).tri i).type = TriType.UP ∧
          (((List.range ts.length).foldl (importTriangle (exportGeometry s vs ts)) { (List.range (exportGeometry s vs ts).nV).foldl (importVertexStep (exportGeometry s vs ts)) emptyState with nSlices := (exportGeometry s vs ts).times.foldl max 0 + 1 }).vtx ((((List.range ts.length).foldl (importTriangle (exportGeometry s vs ts)) { (List.range (exportGeometry s vs ts).nV).foldl (importVertexStep (exportGeometry s vs ts)) emptyState with nSlices := (exportGeometry s vs ts).times.foldl max 0 + 1 }).tri i).vl)).tl
            = (((List.range ts.length).foldl (importTriangle (exportGeometry s vs ts)) { (List.range (exportGeometry s vs ts).nV).foldl (importVertexStep (exportGeometry s vs ts)) emptyState with nSlices := (exportGeometry s vs ts).times.foldl max 0 + 1 }).tri ((((List.range ts.length).foldl (importTriangle (exportGeometry s vs ts)) { (List.range (exportGeometry s vs ts).nV).foldl (importVertexStep (exportGeometry s vs ts)) emptyState with nSlices := (exportGeometry s vs ts).times.foldl max 0 + 1 }).vtx ((((List.range ts.length).foldl (importTriangle (exportGeometry s vs ts)) { (List.range (exportGeometry s vs ts).nV).foldl (importVertexStep (exportGeometry s vs ts)) emptyState with nSlices := (exportGeometry s vs ts).times.foldl max 0 + 1 }).tri i).vl)).tr)).tl ∧
          (((List.range ts.length).foldl (importTriangle (exportGeometry s vs ts)) { (List.range (exportGeometry s vs ts).nV).foldl (importVertexStep (exportGeometry s vs ts)) emptyState with nSlices := (exportGeometry s vs ts).times.foldl max 0 + 1 }).tri ((((List.range ts.length).foldl (importTriangle (exportGeometry s vs ts)) { (List.range (exportGeometry s vs ts).nV).foldl (importVertexStep (exportGeometry s vs ts)) emptyState with nSlices := (exportGeometry s vs ts).times.foldl max 0 + 1 }).vtx ((((List.range ts.length).foldl (importTriangle (exportGeometry s vs ts)) { (List.range (exportGeometry s vs ts).nV).foldl (importVertexStep (exportGeometry s vs ts)) emptyState with nSlices := (exportGeometry s vs ts).times.foldl max 0 + 1 }).tri i).vl)).tl)).tc
            = (((List.range ts.length).foldl (importTriangle (exportGeometry s vs ts)) { (List.range (exportGeometry s vs ts).nV).foldl (importVertexStep (exportGeometry s vs ts)) emptyState with nSlices := (exportGeometry s vs ts).times.foldl max 0 + 1 }).tri ((((List.range ts.length).foldl (importTriangle (exportGeometry s vs ts)) { (List.range (exportGeometry s vs ts).nV).foldl (importVertexStep (exportGeometry s vs ts)) emptyState with nSlices := (exportGeometry s vs ts).times.foldl max 0 + 1 }).tri ((((List.range ts.length).foldl (importTriangle (exportGeometry s vs ts)) { (List.range (exportGeometry s vs ts).nV).foldl (importVertexStep (exportGeometry s vs ts)) emptyState with nSlices := (exportGeometry s vs ts).times.foldl max 0 + 1 }).vtx ((((List.range ts.length).foldl (importTriangle (exportGeometry s vs ts)) { (List.range (exportGeometry s vs ts).nV).foldl (importVertexStep (exportGeometry s vs ts)) emptyState with nSlices := (exportGeometry s vs ts).times.foldl max 0 + 1 }).tri i).vl)).tr)).tc)).tl)
        ↔ ((s.tri (ts.getD i 0)).type = TriType.UP ∧ (s.vtx ((s.tri (ts.getD i 0)).vl)).tl = (s.tri ((s.vtx ((s.tri (ts.getD i 0)).vl)).tr)).tl ∧ (s.tri ((s.vtx ((s.tri (ts.getD i 0)).vl)).tl)).tc = (s.tri ((s.tri ((s.vtx ((s.tri (ts.getD i 0)).vl)).tr)).tc)).tl) := by
      intro i hi
      have hi2 : i < ts.length := Finset.mem_range.mp hi
      have hTIts : (ts.getD i 0) ∈ ts := listGetD_mem ts i hi2
      have hTIA : (ts.getD i 0) ∈ s.trianglesAll := (htsmem _).mp hTIts
      have hvlL : ((s.tri (ts.getD i 0)).vl) ∈ s.liveV := (hclosv _ hTIA).1
      have hvlvs : ((s.tri (ts.getD i 0)).vl) ∈ vs := (hvsmem _).mpr hvlL
      have hvlA : vs.indexOf ((s.tri (ts.getD i 0)).vl) < vs.length := List.indexOf_lt_length.mpr hvlvs
      have hanchV := hanch _ hvlL
      have haTlA : ((s.vtx ((s.tri (ts.getD i 0)).vl)).tl) ∈ s.trianglesAll := hanchV.1
      have haTrA : ((s.vtx ((s.tri (ts.getD i 0)).vl)).tr) ∈ s.trianglesAll := hanchV.2.2.2.1
      have haTlts : ((s.vtx ((s.tri (ts.getD i 0)).vl)).tl) ∈ ts := (htsmem _).mpr haTlA
      have haTrts : ((s.vtx ((s.tri (ts.getD i 0)).vl)).tr) ∈ ts := (htsmem _).mpr haTrA
      have haTllt : ts.indexOf ((s.vtx ((s.tri (ts.getD i 0)).vl)).tl) < ts.length := List.indexOf_lt_length.mpr haTlts
      have haTrlt : ts.indexOf ((s.vtx ((s.tri (ts.getD i 0)).vl)).tr) < ts.length := List.indexOf_lt_length.mpr haTrts
      have htl2ts : (s.tri ((s.vtx ((s.tri (ts.getD i 0)).vl)).tr)).tl ∈ ts := (htsmem _).mpr (hclost _ haTrA).1
      have htcTlts : (s.tri ((s.vtx ((s.tri (ts.getD i 0)).vl)).tl)).tc ∈ ts := (htsmem _).mpr (hclost _ haTlA).2.2
      have htcTrA : (s.tri ((s.vtx ((s.tri (ts.getD i 0)).vl)).tr)).tc ∈ s.trianglesAll := (hclost _ haTrA).2.2
      have htcTrts : (s.tri ((s.vtx ((s.tri (ts.getD i 0)).vl)).tr)).tc ∈ ts := (htsmem _).mpr htcTrA
      have htcTrlt : ts.indexOf ((s.tri ((s.vtx ((s.tri (ts.getD i 0)).vl)).tr)).tc) < ts.length :=
        List.indexOf_lt_length.mpr htcTrts
      have htlTcTrts : (s.tri ((s.tri ((s.vtx ((s.tri (ts.getD i 0)).vl)).tr)).tc)).tl ∈ ts :=
        (htsmem _).mpr (hclost _ htcTrA).1
      have hEvl : (((List.range ts.length).foldl (importTriangle (exportGeometry s vs ts)) { (List.range (exportGeometry s vs ts).nV).foldl (importVertexStep (exportGeometry s vs ts)) emptyState with nSlices := (exportGeometry s vs ts).times.foldl max 0 + 1 }).tri i).vl = vs.indexOf ((s.tri (ts.getD i 0)).vl) := (F2 i hi2).2.2.2.2.2.1
      have hEty : (((List.range ts.length).foldl (importTriangle (exportGeometry s vs ts)) { (List.range (exportGeometry s vs ts).nV).foldl (importVertexStep (exportGeometry s vs ts)) emptyState with nSlices := (exportGeometry s vs ts).times.foldl max 0 + 1 }).tri i).type = (s.tri (ts.getD i 0)).type := (F2 i hi2).2.1
      have hEanTr : (((List.range ts.length).foldl (importTriangle (exportGeometry s vs ts)) { (List.range (exportGeometry s vs ts).nV).foldl (importVertexStep (exportGeometry s vs ts)) emptyState with nSlices := (exportGeometry s vs ts).times.foldl max 0 + 1 }).vtx (vs.indexOf ((s.tri (ts.getD i 0)).vl))).tr = ts.indexOf ((s.vtx ((s.tri (ts.getD i 0)).vl)).tr) := by
        have h := (F3 _ hvlA).1
        rw [listGetD_indexOf vs _ hvlvs] at h
        rw [h, if_pos haTrlt]
      have hEanTl : (((List.range ts.length).foldl (importTriangle (exportGeometry s vs ts)) { (List.range (exportGeometry s vs ts).nV).foldl (importVertexStep (exportGeometry s vs ts)) emptyState with nSlices := (exportGeometry s vs ts).times.foldl max 0 + 1 }).vtx (vs.indexOf ((s.tri (ts.getD i 0)).vl))).tl = ts.indexOf ((s.vtx ((s.tri (ts.getD i 0)).vl)).tl) := by
        have h := (F3 _ hvlA).2
        rw [listGetD_indexOf vs _ hvlvs] at h
        rw [h, if_pos haTllt]
      have hEtl2 : (((List.range ts.length).foldl (importTriangle (exportGeometry s vs ts)) { (List.range (exportGeometry s vs ts).nV).foldl (importVertexStep (exportGeometry s vs ts)) emptyState with nSlices := (exportGeometry s vs ts).times.foldl max 0 + 1 }).tri (ts.indexOf ((s.vtx ((s.tri (ts.getD i 0)).vl)).tr))).tl = ts.indexOf ((s.tri ((s.vtx ((s.tri (ts.getD i 0)).vl)).tr)).tl) := by
        have h := (F2 _ haTrlt).2.2.1
        rwa [listGetD_indexOf ts _ haTrts] at h
      have hEtcTl : (((List.range ts.length).foldl (importTriangle (exportGeometry s vs ts)) { (List.range (exportGeometry s vs ts).nV).foldl (importVertexStep (exportGeometry s vs ts)) emptyState with nSlices := (exportGeometry s vs ts).times.foldl max 0 + 1 }).tri (ts.indexOf ((s.vtx ((s.tri (ts.getD i 0)).vl)).tl))).tc = ts.indexOf ((s.tri ((s.vtx ((s.tri (ts.getD i 0)).vl)).tl)).tc) := by
        have h := (F2 _ haTllt).2.2.2.2.1
        rwa [listGetD_indexOf ts _ haTlts] at h
      have hEtcTr : (((List.range ts.length).foldl (importTriangle (exportGeometry s vs ts)) { (List.range (exportGeometry s vs ts).nV).foldl (importVertexStep (exportGeometry s vs ts)) emptyState with nSlices := (exportGeometry s vs ts).times.foldl max 0 + 1 }).tri (ts.indexOf ((s.vtx ((s.tri (ts.getD i 0)).vl)).tr))).tc = ts.indexOf ((s.tri ((s.vtx ((s.tri (ts.getD i 0)).vl)).tr)).tc) := by
        have h := (F2 _ haTrlt).2.2.2.2.1
        rwa [listGetD_indexOf ts _ haTrts] at h
      have hEtlTcTr : (((List.range ts.length).foldl (importTriangle (exportGeometry s vs ts)) { (List.range (exportGeometry s vs ts).nV).foldl (importVertexStep (exportGeometry s vs ts)) emptyState with nSlices := (exportGeometry s vs ts).times.foldl max 0 + 1 }).tri (ts.indexOf ((s.tri ((s.vtx ((s.tri (ts.getD i 0)).vl)).tr)).tc))).tl
          = ts.indexOf ((s.tri ((s.tri ((s.vtx ((s.tri (ts.getD i 0)).vl)).tr)).tc)).tl) := by
        have h := (F2 _ htcTrlt).2.2.1
        rwa [listGetD_indexOf ts _ htcTrts] at h
      rw [hEvl, hEty, hEanTr, hEanTl, hEtl2, hEtcTl, hEtcTr, hEtlTcTr]
      refine and_congr Iff.rfl (and_congr ⟨?_, ?_⟩ ⟨?_, ?_⟩)
      · intro h
        exact listIndexOf_inj ts _ _ haTlts htl2ts h
      · intro h
        rw [h]
      · intro h
        exact listIndexOf_inj ts _ _ htcTlts htlTcTrts h
      · intro h
        rw [h]
    rw [Finset.filter_congr hcongF]
    have himg : ∀ i ∈ (Finset.range ts.length).filter
        (fun i => ((s.tri (ts.getD i 0)).type = TriType.UP ∧ (s.vtx ((s.tri (ts.getD i 0)).vl)).tl = (s.tri ((s.vtx ((s.tri (ts.getD i 0)).vl)).tr)).tl ∧ (s.tri ((s.vtx ((s.tri (ts.getD i 0)).vl)).tl)).tc = (s.tri ((s.tri ((s.vtx ((s.tri (ts.getD i 0)).vl)).tr)).tc)).tl)),
        (((List.range ts.length).foldl (importTriangle (exportGeometry s vs ts)) { (List.range (exportGeometry s vs ts).nV).foldl (importVertexStep (exportGeometry s vs ts)) emptyState with nSlices := (exportGeometry s vs ts).times.foldl max 0 + 1 }).tri i).vl = vs.indexOf ((s.tri (ts.getD i 0)).vl) := by
      intro i hi
      have hi2 : i < ts.length := Finset.mem_range.mp (Finset.mem_filter.mp hi).1
      exact (F2 i hi2).2.2.2.2.2.1
    rw [Finset.image_congr himg]
    have hsetEq : ((Finset.range ts.length).filter
          (fun i => ((s.tri (ts.getD i 0)).type = TriType.UP ∧ (s.vtx ((s.tri (ts.getD i 0)).vl)).tl = (s.tri ((s.vtx ((s.tri (ts.getD i 0)).vl)).tr)).tl ∧ (s.tri ((s.vtx ((s.tri (ts.getD i 0)).vl)).tl)).tc = (s.tri ((s.tri ((s.vtx ((s.tri (ts.getD i 0)).vl)).tr)).tc)).tl))).image
          (fun i => vs.indexOf ((s.tri (ts.getD i 0)).vl))
        = ((s.trianglesAll.filter (fun t => (s.tri t).type = TriType.UP ∧ (s.vtx ((s.tri t).vl)).tl = (s.tri ((s.vtx ((s.tri t).vl)).tr)).tl ∧ (s.tri ((s.vtx ((s.tri t).vl)).tl)).tc = (s.tri ((s.tri ((s.vtx ((s.tri t).vl)).tr)).tc)).tl)).image (fun t => vs.indexOf ((s.tri t).vl))) := by
      rw [← rangeFilter_image_getD ts s.trianglesAll htsnd htsmem (fun t => (s.tri t).type = TriType.UP ∧ (s.vtx ((s.tri t).vl)).tl = (s.tri ((s.vtx ((s.tri t).vl)).tr)).tl ∧ (s.tri ((s.vtx ((s.tri t).vl)).tl)).tc = (s.tri ((s.tri ((s.vtx ((s.tri t).vl)).tr)).tc)).tl), Finset.image_image]
      rfl
    rw [hsetEq]
    have hsetEq2 : (s.trianglesAll.filter (fun t => (s.tri t).type = TriType.UP ∧ (s.vtx ((s.tri t).vl)).tl = (s.tri ((s.vtx ((s.tri t).vl)).tr)).tl ∧ (s.tri ((s.vtx ((s.tri t).vl)).tl)).tc = (s.tri ((s.tri ((s.vtx ((s.tri t).vl)).tr)).tc)).tl)).image (fun t => vs.indexOf ((s.tri t).vl))
        = ((s.trianglesAll.filter (fun t => (s.tri t).type = TriType.UP ∧ (s.vtx ((s.tri t).vl)).tl = (s.tri ((s.vtx ((s.tri t).vl)).tr)).tl ∧ (s.tri ((s.vtx ((s.tri t).vl)).tl)).tc = (s.tri ((s.tri ((s.vtx ((s.tri t).vl)).tr)).tc)).tl)).image (fun t => (s.tri t).vl)).image
            (fun v => vs.indexOf v) := by
      rw [Finset.image_image]
      rfl
    rw [hsetEq2, ← hfour]
    apply Finset.card_image_of_injOn
    intro x hx y hy he
    have hxL : x ∈ s.liveV := by
      have hx2 := Finset.mem_coe.mp hx
      rw [hfour] at hx2
      obtain ⟨t, ht, rfl⟩ := Finset.mem_image.mp hx2
      exact (hclosv t (Finset.mem_filter.mp ht).1).1
    have hyL : y ∈ s.liveV := by
      have hy2 := Finset.mem_coe.mp hy
      rw [hfour] at hy2
      obtain ⟨t, ht, rfl⟩ := Finset.mem_image.mp hy2
      exact (hclosv t (Finset.mem_filter.mp ht).1).1
    exact listIndexOf_inj vs x y ((hvsmem x).mpr hxL) ((hvsmem y).mpr hyL) he
  · -- trianglesFlip size
    have hflipset : s.trianglesFlip
        = s.trianglesAll.filter (fun t => (s.tri t).type ≠ (s.tri ((s.tri t).tr)).type) := by
      ext t
      rw [Finset.mem_filter]
      constructor
      · intro ht
        exact ⟨hsub ht, (hinv t (hsub ht)).mp ht⟩
      · intro ht
        exact (hinv t ht.1).mpr ht.2
    rw [hPflip, hNT, hALL]
    have hcong : ∀ i ∈ Finset.range ts.length,
        ((((List.range ts.length).foldl (importTriangle (exportGeometry s vs ts)) { (List.range (exportGeometry s vs ts).nV).foldl (importVertexStep (exportGeometry s vs ts)) emptyState with nSlices := (exportGeometry s vs ts).times.foldl max 0 + 1 }).tri i).type ≠ (((List.range ts.length).foldl (importTriangle (exportGeometry s vs ts)) { (List.range (exportGeometry s vs ts).nV).foldl (importVertexStep (exportGeometry s vs ts)) emptyState with nSlices := (exportGeometry s vs ts).times.foldl max 0 + 1 }).tri ((((List.range ts.length).foldl (importTriangle (exportGeometry s vs ts)) { (List.range (exportGeometry s vs ts).nV).foldl (importVertexStep (exportGeometry s vs ts)) emptyState with nSlices := (exportGeometry s vs ts).times.foldl max 0 + 1 }).tri i).tr)).type)
        ↔ ((s.tri (ts.getD i 0)).type ≠ (s.tri ((s.tri (ts.getD i 0)).tr)).type) := by
      intro i hi
      have hi2 : i < ts.length := Finset.mem_range.mp hi
      have hTIts : (ts.getD i 0) ∈ ts := listGetD_mem ts i hi2
      have hTIA : (ts.getD i 0) ∈ s.trianglesAll := (htsmem _).mp hTIts
      have htrts : (s.tri (ts.getD i 0)).tr ∈ ts := (htsmem _).mpr (hclost _ hTIA).2.1
      have htrlt : ts.indexOf ((s.tri (ts.getD i 0)).tr) < ts.length :=
        List.indexOf_lt_length.mpr htrts
      have h1 : (((List.range ts.length).foldl (importTriangle (exportGeometry s vs ts)) { (List.range (exportGeometry s vs ts).nV).foldl (importVertexStep (exportGeometry s vs ts)) emptyState with nSlices := (exportGeometry s vs ts).times.foldl max 0 + 1 }).tri i).type = (s.tri (ts.getD i 0)).type := (F2 i hi2).2.1
      have h2 : (((List.range ts.length).foldl (importTriangle (exportGeometry s vs ts)) { (List.range (exportGeometry s vs ts).nV).foldl (importVertexStep (exportGeometry s vs ts)) emptyState with nSlices := (exportGeometry s vs ts).times.foldl max 0 + 1 }).tri i).tr = ts.indexOf ((s.tri (ts.getD i 0)).tr) := (F2 i hi2).2.2.2.1
      have h3 : (((List.range ts.length).foldl (importTriangle (exportGeometry s vs ts)) { (List.range (exportGeometry s vs ts).nV).foldl (importVertexStep (exportGeometry s vs ts)) emptyState with nSlices := (exportGeometry s vs ts).times.foldl max 0 + 1 }).tri (ts.indexOf ((s.tri (ts.getD i 0)).tr))).type
          = (s.tri ((s.tri (ts.getD i 0)).tr)).type := by
        have h := (F2 _ htrlt).2.1
        rwa [listGetD_indexOf ts _ htrts] at h
      rw [h1, h2, h3]
    rw [Finset.filter_congr hcong,
      rangeFilter_card ts s.trianglesAll htsnd htsmem
        (fun t => (s.tri t).type ≠ (s.tri ((s.tri t).tr)).type), ← hflipset]
  · -- sliceSizes
    intro τ
    rw [hPslice]
    show (((vs.map (fun v => (s.vtx v).time)).filter (fun x => x = τ)).length : Int)
      = s.sliceSizes τ
    rw [hslice τ]
    norm_cast
    rw [List.filter_map]
    rw [List.length_map]
    rfl

theorem claim6_witness :
    (importGeometry (exportGeometry (initState 4) (List.range 12) (List.range 24))).trianglesAll.card
      = (initState 4).trianglesAll.card
    ∧ (importGeometry (exportGeometry (initState 4) (List.range 12) (List.range 24))).verticesFour.card
      = (initState 4).verticesFour.card
    ∧ (importGeometry (exportGeometry (initState 4) (List.range 12) (List.range 24))).trianglesFlip.card
      = (initState 4).trianglesFlip.card
    ∧ (∀ τ, (importGeometry (exportGeometry (initState 4) (List.range 12) (List.range 24))).sliceSizes τ
      = (initState 4).sliceSizes τ) := by
  have hlv : (initState 4).liveV = Finset.range 12 := by decide
  have hta : (initState 4).trianglesAll = Finset.range 24 := by decide
  refine claim6 (initState 4) (List.range 12) (List.range 24)
    (List.nodup_range 12) (List.nodup_range 24)
    (fun x => by rw [List.mem_range, hlv, Finset.mem_range])
    (fun x => by rw [List.mem_range, hta, Finset.mem_range])
    (by decide) (by decide) (by decide) (by decide) (by decide) (by decide)
    (by decide) (by decide) ?_ (by decide)
  intro τ
  rw [initState_sliceSizes]
  by_cases hτ : τ < 4
  · interval_cases τ <;> decide
  · rw [if_neg hτ]
    have hall : ∀ v ∈ List.range 12, ((initState 4).vtx v).time < 4 := by decide
    have hemp : (List.range 12).filter (fun v => ((initState 4).vtx v).time = τ) = [] := by
      rw [List.filter_eq_nil]
      intro a ha
      simp only [decide_eq_true_eq]
      intro he
      have h4 := hall a ha
      omega
    rw [hemp]
    rfl

end CDT
